import Mathlib

/-!
# MAX77818 fuel gauge: register codec and calibration protocol

A shallow embedding of `max77818_battery.c` (fuel-gauge part of the MAX77818
driver).  Machine integers are natural numbers / integers with explicit
wrap-around at 32 bits; the register transport (`regmap`) is an abstract
deterministic state machine; every driver function threads the device state and
a chronological log of the register accesses it performed.  Diagnostic output
(`dev_err`) has no effect on the state and is not modelled.
-/

namespace Max77818

/-! ## Machine arithmetic -/

/-- Reduction of a natural number to the range of `unsigned int` (32 bits). -/
def u32 (n : Nat) : Nat := n % 4294967296

/-- Conversion of an `unsigned int` to `int` (two's complement, as done by the
kernel's compilers). -/
def toInt (n : Nat) : Int :=
  if n % 4294967296 < 2147483648 then Int.ofNat (n % 4294967296)
  else Int.ofNat (n % 4294967296) - 4294967296

/-- Conversion of an `int` to `unsigned int` (reduction modulo 2^32). -/
def ofInt (i : Int) : Nat := (i % 4294967296).toNat

/-- Bitwise complement `~n` of an `unsigned int`. -/
def bnot32 (n : Nat) : Nat := 4294967295 - n % 4294967296

/-! ## Constants -/

def MAX77818_OCV_LENGTH : Nat := 48

def MAX77818_BATTERY_FULL : Nat := 95
def MAX77818_BATTERY_HIGH : Nat := 80
def MAX77818_BATTERY_NORMAL : Nat := 20
def MAX77818_BATTERY_LOW : Nat := 5
def MAX77818_BATTERY_CRITICAL : Nat := 1

def MAX77818_MODEL_UNLOCK1 : Nat := 0x0059
def MAX77818_MODEL_UNLOCK2 : Nat := 0x00C4
def MAX77818_MODEL_LOCK : Nat := 0x0000

def REG_RepCap : Nat := 0x05
def REG_RepSOC : Nat := 0x06
def REG_Temp : Nat := 0x08
def REG_Vcell : Nat := 0x09
def REG_Current : Nat := 0x0A
def REG_AvgCurrent : Nat := 0x0B
def REG_FullCap : Nat := 0x10
def REG_TTE : Nat := 0x11
def REG_Cycles : Nat := 0x17
def REG_DesignCap : Nat := 0x18
def REG_AvgVCell : Nat := 0x19
def REG_MaxMinTemp : Nat := 0x1A
def REG_MaxMinVolt : Nat := 0x1B
def REG_AvCap : Nat := 0x1F
def REG_TTF : Nat := 0x20
def REG_MLOCKReg1 : Nat := 0x62
def REG_MLOCKReg2 : Nat := 0x63
def REG_OCV : Nat := 0x80
def REG_VFOCV : Nat := 0xFB

/-- Error number `EINVAL` of the kernel (`errno-base.h`). -/
def EINVAL : Int := 22

/-- Values of `enum` constants `POWER_SUPPLY_CAPACITY_LEVEL_*` of the kernel
header `linux/power_supply.h`. -/
def POWER_SUPPLY_CAPACITY_LEVEL_UNKNOWN : Int := 0
def POWER_SUPPLY_CAPACITY_LEVEL_CRITICAL : Int := 1
def POWER_SUPPLY_CAPACITY_LEVEL_LOW : Int := 2
def POWER_SUPPLY_CAPACITY_LEVEL_NORMAL : Int := 3
def POWER_SUPPLY_CAPACITY_LEVEL_HIGH : Int := 4
def POWER_SUPPLY_CAPACITY_LEVEL_FULL : Int := 5

/-- Value of `POWER_SUPPLY_STATUS_UNKNOWN` of `linux/power_supply.h`. -/
def POWER_SUPPLY_STATUS_UNKNOWN : Int := 0

/-! ## Register transport -/

/-- One register access performed by the driver. -/
inductive Access where
  | rd (reg : Nat)
  | wr (reg : Nat) (val : Nat)
  deriving DecidableEq, Repr

/-- The register map of the fuel gauge (`regmap_read` / `regmap_write`) as a
deterministic machine over a device state `σ`.  Both operations give the `int`
return code (0 on success, a negative error number on failure); a read also
gives the word it fetched, which is stored to the destination only when the
return code is 0. -/
structure Regmap (σ : Type) where
  regRead : σ → Nat → Int × Nat × σ
  regWrite : σ → Nat → Nat → Int × σ

/-- The driver's view of the device (`struct max77818_fg_dev`, reduced to the
transport state) together with the log of accesses made so far. -/
structure Dev (σ : Type) where
  st : σ
  log : List Access
  deriving DecidableEq

/-- Function `max77818_fg_write_custom_reg`: one `regmap_write`, result passed on. -/
def max77818_fg_write_custom_reg {σ : Type} (rm : Regmap σ) (fg : Dev σ)
    (reg val : Nat) : Int × Dev σ :=
  let r := rm.regWrite fg.st reg val
  (r.1, { st := r.2, log := fg.log ++ [Access.wr reg val] })

/-- Function `max77818_fg_read_custom_reg`: one `regmap_read`, result passed on.
The argument `data` is the content of the destination before the call; the
second component of the result is its content afterwards. -/
def max77818_fg_read_custom_reg {σ : Type} (rm : Regmap σ) (fg : Dev σ)
    (reg : Nat) (data : Nat) : Int × Nat × Dev σ :=
  let r := rm.regRead fg.st reg
  (r.1, if r.1 = 0 then r.2.1 else data,
    { st := r.2.2, log := fg.log ++ [Access.rd reg] })

/-! ## Telemetry getters

Every getter has the shape `int f(struct max77818_fg_dev *fg, int *val)`.  The
embedding returns the return code and `some v` when `v` was stored to `*val`
(`none` when `*val` was left untouched), next to the new device view.  The
argument `junk` is the indeterminate initial content of the local `data`. -/

/-- Function `max77818_fg_get_capacity_level`. -/
def max77818_fg_get_capacity_level {σ : Type} (rm : Regmap σ) (fg : Dev σ)
    (junk : Nat) : (Int × Option Int) × Dev σ :=
  let r := max77818_fg_read_custom_reg rm fg REG_RepSOC junk
  let ret_val := r.1
  if ret_val < 0 then ((ret_val, none), r.2.2)
  else
    let data := r.2.1 >>> 8
    if data > MAX77818_BATTERY_FULL then
      ((0, some POWER_SUPPLY_CAPACITY_LEVEL_FULL), r.2.2)
    else if data > MAX77818_BATTERY_HIGH then
      ((0, some POWER_SUPPLY_CAPACITY_LEVEL_HIGH), r.2.2)
    else if data > MAX77818_BATTERY_NORMAL then
      ((0, some POWER_SUPPLY_CAPACITY_LEVEL_NORMAL), r.2.2)
    else if data > MAX77818_BATTERY_LOW then
      ((0, some POWER_SUPPLY_CAPACITY_LEVEL_LOW), r.2.2)
    else if data ≥ MAX77818_BATTERY_CRITICAL then
      ((0, some POWER_SUPPLY_CAPACITY_LEVEL_CRITICAL), r.2.2)
    else
      ((0, some POWER_SUPPLY_CAPACITY_LEVEL_UNKNOWN), r.2.2)

/-- Function `max77818_fg_get_capacity`. -/
def max77818_fg_get_capacity {σ : Type} (rm : Regmap σ) (fg : Dev σ)
    (junk : Nat) : (Int × Option Int) × Dev σ :=
  let r := max77818_fg_read_custom_reg rm fg REG_RepSOC junk
  let ret_val := r.1
  if ret_val < 0 then ((ret_val, none), r.2.2)
  else ((0, some (toInt (r.2.1 >>> 8))), r.2.2)

/-- Common body of the three voltage getters, which differ in the register only:
`*val = (data * 625) / 8`. -/
def fg_get_voltage {σ : Type} (rm : Regmap σ) (fg : Dev σ) (reg : Nat)
    (junk : Nat) : (Int × Option Int) × Dev σ :=
  let r := max77818_fg_read_custom_reg rm fg reg junk
  let ret_val := r.1
  if ret_val < 0 then ((ret_val, none), r.2.2)
  else ((0, some (toInt (u32 (r.2.1 * 625) / 8))), r.2.2)

/-- Function `max77818_fg_get_voltage_now`. -/
def max77818_fg_get_voltage_now {σ : Type} (rm : Regmap σ) (fg : Dev σ)
    (junk : Nat) : (Int × Option Int) × Dev σ :=
  fg_get_voltage rm fg REG_Vcell junk

/-- Function `max77818_fg_get_voltage_avg`. -/
def max77818_fg_get_voltage_avg {σ : Type} (rm : Regmap σ) (fg : Dev σ)
    (junk : Nat) : (Int × Option Int) × Dev σ :=
  fg_get_voltage rm fg REG_AvgVCell junk

/-- Function `max77818_fg_get_voltage_ocv`. -/
def max77818_fg_get_voltage_ocv {σ : Type} (rm : Regmap σ) (fg : Dev σ)
    (junk : Nat) : (Int × Option Int) × Dev σ :=
  fg_get_voltage rm fg REG_VFOCV junk

/-- Function `max77818_fg_get_voltage_max`. -/
def max77818_fg_get_voltage_max {σ : Type} (rm : Regmap σ) (fg : Dev σ)
    (junk : Nat) : (Int × Option Int) × Dev σ :=
  let r := max77818_fg_read_custom_reg rm fg REG_MaxMinVolt junk
  let ret_val := r.1
  if ret_val < 0 then ((ret_val, none), r.2.2)
  else ((0, some (toInt (u32 (((r.2.1 &&& 0xFF00) >>> 8) * 20000)))), r.2.2)

/-- Function `max77818_fg_get_voltage_min`. -/
def max77818_fg_get_voltage_min {σ : Type} (rm : Regmap σ) (fg : Dev σ)
    (junk : Nat) : (Int × Option Int) × Dev σ :=
  let r := max77818_fg_read_custom_reg rm fg REG_MaxMinVolt junk
  let ret_val := r.1
  if ret_val < 0 then ((ret_val, none), r.2.2)
  else ((0, some (toInt (u32 ((r.2.1 &&& 0x00FF) * 20000)))), r.2.2)

/-- Function `max77818_fg_get_current_now`:
`if (data & 0x8000) { data = ((~data & 0x7FFF) + 1); *val = ((data * 15625) / 100); }
*val = (data * 15625) / 100;`.  The store inside the conditional is overwritten
by the unconditional store of the same expression that follows it, so the value
left in `*val` is that of the last store. -/
def max77818_fg_get_current_now {σ : Type} (rm : Regmap σ) (fg : Dev σ)
    (junk : Nat) : (Int × Option Int) × Dev σ :=
  let r := max77818_fg_read_custom_reg rm fg REG_Current junk
  let ret_val := r.1
  if ret_val < 0 then ((ret_val, none), r.2.2)
  else
    let data := r.2.1
    let data := if data &&& 0x8000 ≠ 0 then u32 ((bnot32 data &&& 0x7FFF) + 1) else data
    ((0, some (toInt (u32 (data * 15625) / 100))), r.2.2)

/-- Function `max77818_fg_get_current_avg`: same shape as the instantaneous
decode, with the scale `156250 / 1000`. -/
def max77818_fg_get_current_avg {σ : Type} (rm : Regmap σ) (fg : Dev σ)
    (junk : Nat) : (Int × Option Int) × Dev σ :=
  let r := max77818_fg_read_custom_reg rm fg REG_AvgCurrent junk
  let ret_val := r.1
  if ret_val < 0 then ((ret_val, none), r.2.2)
  else
    let data := r.2.1
    let data := if data &&& 0x8000 ≠ 0 then u32 ((bnot32 data &&& 0x7FFF) + 1) else data
    ((0, some (toInt (u32 (data * 156250) / 1000))), r.2.2)

/-- Common body of the four capacity getters, which differ in the register only:
`*val = data * 500`. -/
def fg_get_charge {σ : Type} (rm : Regmap σ) (fg : Dev σ) (reg : Nat)
    (junk : Nat) : (Int × Option Int) × Dev σ :=
  let r := max77818_fg_read_custom_reg rm fg reg junk
  let ret_val := r.1
  if ret_val < 0 then ((ret_val, none), r.2.2)
  else ((0, some (toInt (u32 (r.2.1 * 500)))), r.2.2)

/-- Function `max77818_fg_get_design_charge`. -/
def max77818_fg_get_design_charge {σ : Type} (rm : Regmap σ) (fg : Dev σ)
    (junk : Nat) : (Int × Option Int) × Dev σ :=
  fg_get_charge rm fg REG_DesignCap junk

/-- Function `max77818_fg_get_full_charge`. -/
def max77818_fg_get_full_charge {σ : Type} (rm : Regmap σ) (fg : Dev σ)
    (junk : Nat) : (Int × Option Int) × Dev σ :=
  fg_get_charge rm fg REG_FullCap junk

/-- Function `max77818_fg_get_avg_charge`. -/
def max77818_fg_get_avg_charge {σ : Type} (rm : Regmap σ) (fg : Dev σ)
    (junk : Nat) : (Int × Option Int) × Dev σ :=
  fg_get_charge rm fg REG_AvCap junk

/-- Function `max77818_fg_get_charge`. -/
def max77818_fg_get_charge {σ : Type} (rm : Regmap σ) (fg : Dev σ)
    (junk : Nat) : (Int × Option Int) × Dev σ :=
  fg_get_charge rm fg REG_RepCap junk

/-- Function `max77818_fg_get_cycle_count`; it ends in `return ret_val`. -/
def max77818_fg_get_cycle_count {σ : Type} (rm : Regmap σ) (fg : Dev σ)
    (junk : Nat) : (Int × Option Int) × Dev σ :=
  let r := max77818_fg_read_custom_reg rm fg REG_Cycles junk
  let ret_val := r.1
  if ret_val < 0 then ((ret_val, none), r.2.2)
  else ((ret_val, some (toInt r.2.1)), r.2.2)

/-- The store of `max77818_fg_get_temp`:
`if (data & 0x8000) { data = (~data & 0x7FFF) + 1; *val = (-1)*((data * 10) / 256); }
else { *val = (data * 10) / 256; }`.  The factor `(-1)` is converted to
`unsigned int` for the product, the product back to `int` for the store. -/
def temp_store (data : Nat) : Int :=
  if data &&& 0x8000 ≠ 0 then
    let data := u32 ((bnot32 data &&& 0x7FFF) + 1)
    toInt (u32 (ofInt (-1) * (u32 (data * 10) / 256)))
  else
    toInt (u32 (data * 10) / 256)

/-- Function `max77818_fg_get_temp`. -/
def max77818_fg_get_temp {σ : Type} (rm : Regmap σ) (fg : Dev σ)
    (junk : Nat) : (Int × Option Int) × Dev σ :=
  let r := max77818_fg_read_custom_reg rm fg REG_Temp junk
  let ret_val := r.1
  if ret_val < 0 then ((ret_val, none), r.2.2)
  else ((0, some (temp_store r.2.1)), r.2.2)

/-- Decode shared by the two halves of `MaxMinTemp`:
`if (data & 0x80) *val = (-10)*(~data & 0x7F) + 10; else *val = (data * 10);`
with the `int` constants converted to `unsigned int` for the arithmetic. -/
def maxmin_temp_store (data : Nat) : Int :=
  if data &&& 0x80 ≠ 0 then
    toInt (u32 (u32 (ofInt (-10) * (bnot32 data &&& 0x7F)) + 10))
  else
    toInt (u32 (data * 10))

/-- Function `max77818_fg_get_max_temp` (high byte). -/
def max77818_fg_get_max_temp {σ : Type} (rm : Regmap σ) (fg : Dev σ)
    (junk : Nat) : (Int × Option Int) × Dev σ :=
  let r := max77818_fg_read_custom_reg rm fg REG_MaxMinTemp junk
  let ret_val := r.1
  if ret_val < 0 then ((ret_val, none), r.2.2)
  else
    let data := r.2.1 >>> 8
    ((0, some (maxmin_temp_store data)), r.2.2)

/-- Function `max77818_fg_get_min_temp` (low byte). -/
def max77818_fg_get_min_temp {σ : Type} (rm : Regmap σ) (fg : Dev σ)
    (junk : Nat) : (Int × Option Int) × Dev σ :=
  let r := max77818_fg_read_custom_reg rm fg REG_MaxMinTemp junk
  let ret_val := r.1
  if ret_val < 0 then ((ret_val, none), r.2.2)
  else
    let data := r.2.1 &&& 0xFF
    ((0, some (maxmin_temp_store data)), r.2.2)

/-- The three stores of the time getters:
`*val = ((data & 0xFC00) >> 10) * 5760; *val += ((data & 0x03F0) >> 4) * 90;
*val += ((data & 0x000F) * 5625) / 1000;` each computed in `unsigned int` and
converted to `int` for the store. -/
def time_store (data : Nat) : Int :=
  let val := toInt (u32 (((data &&& 0xFC00) >>> 10) * 5760))
  let val := toInt (u32 (ofInt val + u32 (((data &&& 0x03F0) >>> 4) * 90)))
  let val := toInt (u32 (ofInt val + u32 ((data &&& 0x000F) * 5625) / 1000))
  val

/-- Function `max77818_fg_get_time_to_full`. -/
def max77818_fg_get_time_to_full {σ : Type} (rm : Regmap σ) (fg : Dev σ)
    (junk : Nat) : (Int × Option Int) × Dev σ :=
  let r := max77818_fg_read_custom_reg rm fg REG_TTF junk
  let ret_val := r.1
  if ret_val < 0 then ((ret_val, none), r.2.2)
  else ((0, some (time_store r.2.1)), r.2.2)

/-- Function `max77818_fg_get_time_to_empty`.  Here `ret_val` is declared
`unsigned int`: the return code is converted on assignment, compared with 0 as
an unsigned number, and converted back to `int` if returned. -/
def max77818_fg_get_time_to_empty {σ : Type} (rm : Regmap σ) (fg : Dev σ)
    (junk : Nat) : (Int × Option Int) × Dev σ :=
  let r := max77818_fg_read_custom_reg rm fg REG_TTE junk
  let ret_val : Nat := ofInt r.1
  if ret_val < 0 then ((toInt ret_val, none), r.2.2)
  else ((0, some (time_store r.2.1)), r.2.2)

/-- The properties handled by `max77818_fg_get_property`
(`enum power_supply_property`); `OTHER` stands for every remaining value. -/
inductive Psp where
  | CAPACITY_LEVEL | CAPACITY | VOLTAGE_NOW | VOLTAGE_AVG | VOLTAGE_OCV
  | VOLTAGE_MAX | VOLTAGE_MIN | CURRENT_NOW | CURRENT_AVG | CHARGE_FULL_DESIGN
  | CHARGE_FULL | CHARGE_AVG | CHARGE_NOW | CYCLE_COUNT | TEMP | TEMP_MAX
  | TEMP_MIN | TIME_TO_EMPTY_NOW | TIME_TO_FULL_NOW | STATUS | MANUFACTURER
  | MODEL_NAME | OTHER
  deriving DecidableEq, Repr

/-- The `union power_supply_propval` handed to `get_property`. -/
inductive PropVal where
  | intval (i : Int)
  | strval (s : String)
  deriving DecidableEq, Repr

/-- Store of a getter's result in `val->intval`. -/
def storeIntval {σ : Type} (val : PropVal) (r : (Int × Option Int) × Dev σ) :
    (Int × PropVal) × Dev σ :=
  match r.1.2 with
  | some v => ((r.1.1, PropVal.intval v), r.2)
  | none => ((r.1.1, val), r.2)

/-- Function `max77818_fg_get_property`: the dispatch over the property, giving
the return code and the content of `*val` afterwards. -/
def max77818_fg_get_property {σ : Type} (rm : Regmap σ) (fg : Dev σ)
    (psp : Psp) (val : PropVal) (junk : Nat) : (Int × PropVal) × Dev σ :=
  match psp with
  | Psp.CAPACITY_LEVEL => storeIntval val (max77818_fg_get_capacity_level rm fg junk)
  | Psp.CAPACITY => storeIntval val (max77818_fg_get_capacity rm fg junk)
  | Psp.VOLTAGE_NOW => storeIntval val (max77818_fg_get_voltage_now rm fg junk)
  | Psp.VOLTAGE_AVG => storeIntval val (max77818_fg_get_voltage_avg rm fg junk)
  | Psp.VOLTAGE_OCV => storeIntval val (max77818_fg_get_voltage_ocv rm fg junk)
  | Psp.VOLTAGE_MAX => storeIntval val (max77818_fg_get_voltage_max rm fg junk)
  | Psp.VOLTAGE_MIN => storeIntval val (max77818_fg_get_voltage_min rm fg junk)
  | Psp.CURRENT_NOW => storeIntval val (max77818_fg_get_current_now rm fg junk)
  | Psp.CURRENT_AVG => storeIntval val (max77818_fg_get_current_avg rm fg junk)
  | Psp.CHARGE_FULL_DESIGN => storeIntval val (max77818_fg_get_design_charge rm fg junk)
  | Psp.CHARGE_FULL => storeIntval val (max77818_fg_get_full_charge rm fg junk)
  | Psp.CHARGE_AVG => storeIntval val (max77818_fg_get_avg_charge rm fg junk)
  | Psp.CHARGE_NOW => storeIntval val (max77818_fg_get_charge rm fg junk)
  | Psp.CYCLE_COUNT => storeIntval val (max77818_fg_get_cycle_count rm fg junk)
  | Psp.TEMP => storeIntval val (max77818_fg_get_temp rm fg junk)
  | Psp.TEMP_MAX => storeIntval val (max77818_fg_get_max_temp rm fg junk)
  | Psp.TEMP_MIN => storeIntval val (max77818_fg_get_min_temp rm fg junk)
  | Psp.TIME_TO_EMPTY_NOW => storeIntval val (max77818_fg_get_time_to_empty rm fg junk)
  | Psp.TIME_TO_FULL_NOW => storeIntval val (max77818_fg_get_time_to_full rm fg junk)
  | Psp.STATUS => ((0, PropVal.intval POWER_SUPPLY_STATUS_UNKNOWN), fg)
  | Psp.MANUFACTURER => ((0, PropVal.strval "maxim"), fg)
  | Psp.MODEL_NAME => ((0, PropVal.strval "max77818-fuelgauge"), fg)
  | Psp.OTHER => ((-EINVAL, val), fg)

/-! ## Battery model table -/

/-- The loop `for (i = 0; i < MAX77818_OCV_LENGTH; i++)` of
`max77818_fg_write_model` that writes `battery_ocv_model[i]` to `REG_OCV + i`.
The first argument is the number of iterations left, the second is `i`.  The
result `some e` means that the function returned `e` from inside the loop. -/
def write_model_write_loop {σ : Type} (rm : Regmap σ) (model : Nat → Nat) :
    Nat → Nat → Dev σ → Option Int × Dev σ
  | 0, _, fg => (none, fg)
  | n + 1, i, fg =>
    let r := max77818_fg_write_custom_reg rm fg (REG_OCV + i) (model i)
    if r.1 ≠ 0 then (some r.1, r.2)
    else write_model_write_loop rm model n (i + 1) r.2

/-- The loop of `max77818_fg_write_model` that reads the table back:
`if (ret_val < 0 || (data != pdata->battery_ocv_model[i])) return ret_val;`.
The local `data` is threaded through the iterations. -/
def write_model_verify_loop {σ : Type} (rm : Regmap σ) (model : Nat → Nat) :
    Nat → Nat → Nat → Dev σ → (Option Int × Nat) × Dev σ
  | 0, _, data, fg => ((none, data), fg)
  | n + 1, i, data, fg =>
    let r := max77818_fg_read_custom_reg rm fg (REG_OCV + i) data
    if r.1 < 0 ∨ r.2.1 ≠ model i then ((some r.1, r.2.1), r.2.2)
    else write_model_verify_loop rm model n (i + 1) r.2.1 r.2.2

/-- The last loop of `max77818_fg_write_model`, which checks that the locked
table reads as zero: `if (ret_val || (data != 0x0000)) return ret_val;`. -/
def write_model_lock_loop {σ : Type} (rm : Regmap σ) :
    Nat → Nat → Nat → Dev σ → (Option Int × Nat) × Dev σ
  | 0, _, data, fg => ((none, data), fg)
  | n + 1, i, data, fg =>
    let r := max77818_fg_read_custom_reg rm fg (REG_OCV + i) data
    if r.1 ≠ 0 ∨ r.2.1 ≠ 0x0000 then ((some r.1, r.2.1), r.2.2)
    else write_model_lock_loop rm n (i + 1) r.2.1 r.2.2

/-- Function `max77818_fg_write_model`; `model` is `pdata->battery_ocv_model`
and `junk` the indeterminate initial content of the local `data`. -/
def max77818_fg_write_model {σ : Type} (rm : Regmap σ) (fg : Dev σ)
    (model : Nat → Nat) (junk : Nat) : Int × Dev σ :=
  -- Unlock model
  let u1 := max77818_fg_write_custom_reg rm fg REG_MLOCKReg1 MAX77818_MODEL_UNLOCK1
  if u1.1 ≠ 0 then (u1.1, u1.2)
  else
    let u2 := max77818_fg_write_custom_reg rm u1.2 REG_MLOCKReg2 MAX77818_MODEL_UNLOCK2
    if u2.1 ≠ 0 then (u2.1, u2.2)
    else
      -- Write battery model
      let w := write_model_write_loop rm model MAX77818_OCV_LENGTH 0 u2.2
      match w.1 with
      | some e => (e, w.2)
      | none =>
        -- Verify battery model
        let v := write_model_verify_loop rm model MAX77818_OCV_LENGTH 0 junk w.2
        match v.1.1 with
        | some e => (e, v.2)
        | none =>
          -- Lock model
          let l1 := max77818_fg_write_custom_reg rm v.2 REG_MLOCKReg1 MAX77818_MODEL_LOCK
          if l1.1 ≠ 0 then (l1.1, l1.2)
          else
            let l2 := max77818_fg_write_custom_reg rm l1.2 REG_MLOCKReg2
              MAX77818_MODEL_LOCK
            if l2.1 ≠ 0 then (l2.1, l2.2)
            else
              -- Verify that model is locked
              let k := write_model_lock_loop rm MAX77818_OCV_LENGTH 0 v.1.2 l2.2
              match k.1.1 with
              | some e => (e, k.2)
              | none => (0, k.2)

/-! ## Model load handshake and learned parameters -/

def REG_Status : Nat := 0x00
def REG_VAlrtTh : Nat := 0x01
def REG_TAlrtTh : Nat := 0x02
def REG_SAlrtTh : Nat := 0x03
def REG_AtRate : Nat := 0x04
def REG_QRTable00 : Nat := 0x12
def REG_FullSocThr : Nat := 0x13
def REG_Config : Nat := 0x1D
def REG_IchgTerm : Nat := 0x1E
def REG_QRTable10 : Nat := 0x22
def REG_FullCapNom : Nat := 0x23
def REG_LearnCfg : Nat := 0x28
def REG_FilterCfg : Nat := 0x29
def REG_RelaxCfg : Nat := 0x2A
def REG_TGain : Nat := 0x2C
def REG_TOff : Nat := 0x2D
def REG_QRTable20 : Nat := 0x32
def REG_FullCapRep : Nat := 0x35
def REG_IavgEmpty : Nat := 0x36
def REG_RComp0 : Nat := 0x38
def REG_TempCo : Nat := 0x39
def REG_V_empty : Nat := 0x3A
def REG_QRTable30 : Nat := 0x42
def REG_dQacc : Nat := 0x45
def REG_dPacc : Nat := 0x46
def REG_VFSOC0 : Nat := 0x48
def REG_ConvgCfg : Nat := 0x49
def REG_VFSOC0Enable : Nat := 0x60
def REG_CV_MixCap : Nat := 0xB6
def REG_CV_HalfTime : Nat := 0xB7
def REG_Curve : Nat := 0xB9
def REG_Config2 : Nat := 0xBB
def REG_SmartChgCfg : Nat := 0xDB
def REG_VFSOC : Nat := 0xFF

/-- Kernel macro `BIT(n)`, the word with only bit `n` set. -/
def BIT (n : Nat) : Nat := 1 <<< n

def BIT_POR : Nat := BIT 1
def BIT_dSOCi : Nat := BIT 7
def BIT_Tmn : Nat := BIT 9
def BIT_Tmx : Nat := BIT 13
def BIT_LdMdl : Nat := BIT 5

/-- Error number `EIO` of the kernel (`errno-base.h`). -/
def EIO : Int := 5

/-- Search for the lowest set bit among the `n` lowest bits of `x`, numbering
the bits from `i`. -/
def ffsAux : Nat → Nat → Nat → Nat
  | 0, _, _ => 0
  | n + 1, x, i => if x % 2 = 1 then i else ffsAux n (x / 2) (i + 1)

/-- Kernel function `ffs`: the position, counted from 1, of the lowest set bit
of a 32-bit word, and 0 for the word 0. -/
def ffs (x : Nat) : Nat := ffsAux 32 x 1

/-- Macro `FFS(_mask)`, `(ffs(_mask) - 1)`: the shift of a non-zero mask. -/
def FFS (mask : Nat) : Nat := ffs mask - 1

/-- Kernel function `regmap_write`, with the access logged. -/
def regmap_write {σ : Type} (rm : Regmap σ) (fg : Dev σ) (reg val : Nat) :
    Int × Dev σ :=
  max77818_fg_write_custom_reg rm fg reg val

/-- Kernel function `regmap_read`, with the access logged; `data` is the
content of the destination before the call. -/
def regmap_read {σ : Type} (rm : Regmap σ) (fg : Dev σ) (reg : Nat) (data : Nat) :
    Int × Nat × Dev σ :=
  max77818_fg_read_custom_reg rm fg reg data

/-- Kernel routine behind `regmap_write_bits` (`force = true`) and
`regmap_update_bits` (`force = false`): read the register, replace the bits
under `mask` by those of `val`, and write the result back, always when forced
and otherwise only when it differs from what was read.  A failed read ends the
routine with the read's return code. -/
def regmap_update_bits_base {σ : Type} (rm : Regmap σ) (fg : Dev σ)
    (reg mask val : Nat) (force : Bool) : Int × Dev σ :=
  let r := regmap_read rm fg reg 0
  if r.1 ≠ 0 then (r.1, r.2.2)
  else
    let orig := r.2.1
    let tmp := (orig &&& bnot32 mask) ||| (val &&& mask)
    if force = true ∨ tmp ≠ orig then regmap_write rm r.2.2 reg tmp
    else (0, r.2.2)

/-- Kernel function `regmap_write_bits`. -/
def regmap_write_bits {σ : Type} (rm : Regmap σ) (fg : Dev σ)
    (reg mask val : Nat) : Int × Dev σ :=
  regmap_update_bits_base rm fg reg mask val true

/-- Function `max77818_fg_write_verify_custom_reg`: the local `data` starts at
0; a read-back that differs from `val` is only reported by `dev_err`, and the
function ends in `return ret_val`. -/
def max77818_fg_write_verify_custom_reg {σ : Type} (rm : Regmap σ) (fg : Dev σ)
    (reg val : Nat) : Int × Dev σ :=
  let w := regmap_write rm fg reg val
  if w.1 ≠ 0 then (w.1, w.2)
  else
    let r := regmap_read rm w.2 reg 0
    if r.1 ≠ 0 then (r.1, r.2.2)
    else (r.1, r.2.2)

/-- The `do { ... } while (...)` loop of `max77818_fg_load_model`:
`mdelay(1); ret_val = read(REG_Config2, &val); if (ret_val < 0) return ret_val;
timeout = timeout - 10;` repeated
`while (val & (1<<FFS(BIT_LdMdl) != 0) && (timeout != 0))`, where the comparison
`!=` binds tighter than `&`.  The first argument bounds the number of
iterations; `none` means that the bound was reached.  Otherwise the result
holds `some e` when the function returned `e` from inside the loop, and the
final `val` and `timeout`. -/
def load_model_poll {σ : Type} (rm : Regmap σ) :
    Nat → Int → Nat → Dev σ → Option ((Option Int × Nat × Int) × Dev σ)
  | 0, _, _, _ => none
  | fuel + 1, timeout, val, fg =>
    let r := max77818_fg_read_custom_reg rm fg REG_Config2 val
    if r.1 < 0 then some ((some r.1, r.2.1, timeout), r.2.2)
    else
      let val := r.2.1
      let timeout := timeout - 10
      if val &&& (if 1 <<< FFS BIT_LdMdl ≠ 0 then 1 else 0) ≠ 0 ∧ timeout ≠ 0 then
        load_model_poll rm fuel timeout val r.2.2
      else some ((none, val, timeout), r.2.2)

/-- Function `max77818_fg_load_model`; `junk` is the indeterminate initial
content of the local `val`, `fuel` bounds the number of polls. -/
def max77818_fg_load_model {σ : Type} (rm : Regmap σ) (fg : Dev σ)
    (junk fuel : Nat) : Option (Int × Dev σ) :=
  let w := regmap_write_bits rm fg REG_Config2 BIT_LdMdl (1 <<< FFS BIT_LdMdl)
  if w.1 ≠ 0 then some (w.1, w.2)
  else
    match load_model_poll rm fuel 6500 junk w.2 with
    | none => none
    | some ((some e, _, _), fg') => some (e, fg')
    | some ((none, val, timeout), fg') =>
      if val ≠ 0 ∧ timeout = 0 then some (- EIO, fg')
      else some (0, fg')

/-- Record `struct max77818_fg_learned_params`. -/
structure LearnedParams where
  rcomp0 : Nat
  temp_co : Nat
  full_cap_rep : Nat
  cycles : Nat
  full_cap_nom : Nat
  qresidual00 : Nat
  qresidual10 : Nat
  qresidual20 : Nat
  qresidual30 : Nat
  cv_mixcap : Nat
  cv_halftime : Nat

/-- The statements `ret_val = <step>; if (ret_val) return ret_val;` followed by
the rest `k` of the function. -/
def thenIfOk {σ : Type} (r : Int × Dev σ) (k : Dev σ → Option (Int × Dev σ)) :
    Option (Int × Dev σ) :=
  if r.1 ≠ 0 then some r else k r.2

/-- The tail `ret_val = max77818_fg_load_model(fg); if (ret_val) return ret_val;
return 0;` shared by the restore and the initialisation functions. -/
def load_model_tail {σ : Type} (rm : Regmap σ) (fg : Dev σ) (junk fuel : Nat) :
    Option (Int × Dev σ) :=
  match max77818_fg_load_model rm fg junk fuel with
  | none => none
  | some r => if r.1 ≠ 0 then some r else some (0, r.2)

/-- Function `max77818_fg_restore_learned_params`; `learned` is `fg->learned`.
The local `int dqacc` receives the unsigned quotient and is passed on as an
`unsigned int`. -/
def max77818_fg_restore_learned_params {σ : Type} (rm : Regmap σ) (fg : Dev σ)
    (learned : LearnedParams) (junk fuel : Nat) : Option (Int × Dev σ) :=
  thenIfOk (max77818_fg_write_custom_reg rm fg REG_RComp0 learned.rcomp0) fun fg =>
  thenIfOk (max77818_fg_write_custom_reg rm fg REG_TempCo learned.temp_co) fun fg =>
  thenIfOk (max77818_fg_write_verify_custom_reg rm fg REG_FullCapRep
    learned.full_cap_rep) fun fg =>
  thenIfOk (max77818_fg_write_verify_custom_reg rm fg REG_Cycles learned.cycles) fun fg =>
  thenIfOk (max77818_fg_write_verify_custom_reg rm fg REG_QRTable00
    learned.qresidual00) fun fg =>
  thenIfOk (max77818_fg_write_verify_custom_reg rm fg REG_QRTable10
    learned.qresidual10) fun fg =>
  thenIfOk (max77818_fg_write_verify_custom_reg rm fg REG_QRTable20
    learned.qresidual20) fun fg =>
  thenIfOk (max77818_fg_write_verify_custom_reg rm fg REG_QRTable30
    learned.qresidual30) fun fg =>
  thenIfOk (max77818_fg_write_verify_custom_reg rm fg REG_CV_MixCap
    learned.cv_mixcap) fun fg =>
  thenIfOk (max77818_fg_write_verify_custom_reg rm fg REG_CV_HalfTime
    learned.cv_halftime) fun fg =>
  thenIfOk (max77818_fg_write_verify_custom_reg rm fg REG_dPacc 0x3200) fun fg =>
  let dqacc := toInt (learned.full_cap_nom / 4)
  thenIfOk (max77818_fg_write_verify_custom_reg rm fg REG_dQacc (ofInt dqacc)) fun fg =>
  load_model_tail rm fg junk fuel

/-! ## Device initialisation -/

/-- Record `struct max77818_fg_platform_data`. -/
structure PlatformData where
  battery_ocv_model : Nat → Nat
  vfsoc0 : Nat
  design_cap : Nat
  config : Nat
  config2 : Nat
  dqacc : Nat
  dpacc : Nat
  filter_cfg : Nat
  full_cap_nom : Nat
  full_cap_rep : Nat
  full_soc_thr : Nat
  iavg_empty : Nat
  i_chg_term : Nat
  learn_cfg : Nat
  qresidual00 : Nat
  qresidual10 : Nat
  qresidual20 : Nat
  qresidual30 : Nat
  rcomp0 : Nat
  relax_cfg : Nat
  temp_co : Nat
  v_empty : Nat
  tgain : Nat
  toff : Nat
  curve : Nat
  at_rate : Nat
  cv_mixcap : Nat
  cv_halftime : Nat
  smartchgcfg : Nat
  convg_cfg : Nat
  talrt_low : Nat
  talrt_norm : Nat
  talrt_high : Nat

/-- The part of `max77818_fg_reg_init` after the write of `REG_AtRate`: the
optional pair of constant-voltage registers, the two configuration words, the
release of `REG_VFSOC0Enable`, and the model load. -/
def reg_init_tail {σ : Type} (rm : Regmap σ) (fg : Dev σ) (pdata : PlatformData)
    (junk fuel : Nat) : Option (Int × Dev σ) :=
  thenIfOk (max77818_fg_write_custom_reg rm fg REG_SmartChgCfg pdata.smartchgcfg) fun fg =>
  thenIfOk (max77818_fg_write_custom_reg rm fg REG_ConvgCfg pdata.convg_cfg) fun fg =>
  thenIfOk (max77818_fg_write_custom_reg rm fg REG_VFSOC0Enable 0x0000) fun fg =>
  load_model_tail rm fg junk fuel

/-- Function `max77818_fg_reg_init`; `pdata` is `fg->pdata`.  The word read from
`REG_VFSOC` is stored in `pdata->vfsoc0` and written to `REG_VFSOC0` by the next
step; no other code reads that field, and the updated record is not part of
the result.  `junk` is the indeterminate initial content of the locals. -/
def max77818_fg_reg_init {σ : Type} (rm : Regmap σ) (fg : Dev σ)
    (pdata : PlatformData) (junk fuel : Nat) : Option (Int × Dev σ) :=
  -- Check for Status POR bit
  let r := max77818_fg_read_custom_reg rm fg REG_Status junk
  if r.1 < 0 then some (r.1, r.2.2)
  else if r.2.1 &&& BIT_POR = 0 then some (0, r.2.2)
  else
  -- Load battery model
  thenIfOk (max77818_fg_write_model rm r.2.2 pdata.battery_ocv_model junk) fun fg =>
  -- Write custom register values
  thenIfOk (max77818_fg_write_custom_reg rm fg REG_RepCap 0x0000) fun fg =>
  let v := max77818_fg_read_custom_reg rm fg REG_VFSOC pdata.vfsoc0
  thenIfOk (v.1, v.2.2) fun fg =>
  thenIfOk (max77818_fg_write_verify_custom_reg rm fg REG_VFSOC0 v.2.1) fun fg =>
  thenIfOk (max77818_fg_write_custom_reg rm fg REG_DesignCap pdata.design_cap) fun fg =>
  thenIfOk (max77818_fg_write_custom_reg rm fg REG_Config pdata.config) fun fg =>
  thenIfOk (max77818_fg_write_custom_reg rm fg REG_Config2 pdata.config2) fun fg =>
  thenIfOk (max77818_fg_write_verify_custom_reg rm fg REG_dQacc pdata.dqacc) fun fg =>
  thenIfOk (max77818_fg_write_verify_custom_reg rm fg REG_dPacc pdata.dpacc) fun fg =>
  thenIfOk (max77818_fg_write_custom_reg rm fg REG_FilterCfg pdata.filter_cfg) fun fg =>
  thenIfOk (max77818_fg_write_verify_custom_reg rm fg REG_FullCapNom
    pdata.full_cap_nom) fun fg =>
  thenIfOk (max77818_fg_write_verify_custom_reg rm fg REG_FullCapRep
    pdata.full_cap_rep) fun fg =>
  thenIfOk (max77818_fg_write_custom_reg rm fg REG_FullSocThr pdata.full_soc_thr) fun fg =>
  thenIfOk (max77818_fg_write_custom_reg rm fg REG_IavgEmpty pdata.iavg_empty) fun fg =>
  thenIfOk (max77818_fg_write_custom_reg rm fg REG_IchgTerm pdata.i_chg_term) fun fg =>
  thenIfOk (max77818_fg_write_custom_reg rm fg REG_LearnCfg pdata.learn_cfg) fun fg =>
  thenIfOk (max77818_fg_write_verify_custom_reg rm fg REG_QRTable00
    pdata.qresidual00) fun fg =>
  thenIfOk (max77818_fg_write_verify_custom_reg rm fg REG_QRTable10
    pdata.qresidual10) fun fg =>
  thenIfOk (max77818_fg_write_verify_custom_reg rm fg REG_QRTable20
    pdata.qresidual20) fun fg =>
  thenIfOk (max77818_fg_write_verify_custom_reg rm fg REG_QRTable30
    pdata.qresidual30) fun fg =>
  thenIfOk (max77818_fg_write_verify_custom_reg rm fg REG_RComp0 pdata.rcomp0) fun fg =>
  thenIfOk (max77818_fg_write_custom_reg rm fg REG_RelaxCfg pdata.relax_cfg) fun fg =>
  thenIfOk (max77818_fg_write_verify_custom_reg rm fg REG_TempCo pdata.temp_co) fun fg =>
  thenIfOk (max77818_fg_write_custom_reg rm fg REG_V_empty pdata.v_empty) fun fg =>
  thenIfOk (max77818_fg_write_custom_reg rm fg REG_TGain pdata.tgain) fun fg =>
  thenIfOk (max77818_fg_write_custom_reg rm fg REG_TOff pdata.toff) fun fg =>
  thenIfOk (max77818_fg_write_custom_reg rm fg REG_Curve pdata.curve) fun fg =>
  -- Restart max and min temperature counters
  thenIfOk (max77818_fg_write_custom_reg rm fg REG_MaxMinTemp 0x007F) fun fg =>
  thenIfOk (max77818_fg_write_custom_reg rm fg REG_VFSOC0Enable 0x0080) fun fg =>
  thenIfOk (max77818_fg_write_custom_reg rm fg REG_AtRate pdata.at_rate) fun fg =>
  if pdata.cv_mixcap ≠ 0 then
    thenIfOk (max77818_fg_write_verify_custom_reg rm fg REG_CV_MixCap
      pdata.cv_mixcap) fun fg =>
    thenIfOk (max77818_fg_write_verify_custom_reg rm fg REG_CV_HalfTime
      pdata.cv_halftime) fun fg =>
    reg_init_tail rm fg pdata junk fuel
  else reg_init_tail rm fg pdata junk fuel

/-! ## Thermal state machine -/

/-- Type `enum max77818_temp_status`. -/
inductive TempStatus where
  | MAX77818_TEMP_LOW
  | MAX77818_TEMP_NORMAL
  | MAX77818_TEMP_HIGH
  deriving DecidableEq, Repr

/-- Kernel type `irqreturn_t`, reduced to the two values the handler returns. -/
inductive IrqReturn where
  | IRQ_NONE
  | IRQ_HANDLED
  deriving DecidableEq, Repr

/-- The state the interrupt handler works on: the device view, the field
`fg->temp_status`, the codes passed so far to `blocking_notifier_call_chain` on
`mode_notifier_list`, the global `shutdown_timer` (`some d` when pending, to
expire `d` milliseconds after it was armed), the number of calls of
`power_supply_changed`, and whether `orderly_poweroff` has been called. -/
structure Sys (σ : Type) where
  dev : Dev σ
  temp_status : TempStatus
  published : List Int
  shutdown_timer : Option Nat
  supply_changed : Nat
  poweroff : Bool

/-- Function `shutdown_timer_callback`: `orderly_poweroff(true)`. -/
def shutdown_timer_callback {σ : Type} (sys : Sys σ) : Sys σ :=
  { sys with poweroff := true }

/-- Expiry of the kernel timer `shutdown_timer` (set up in the probe function
with `shutdown_timer_callback`): a pending timer is deactivated and its
callback runs; nothing happens when no timer is pending. -/
def shutdown_timer_expire {σ : Type} (sys : Sys σ) : Sys σ :=
  match sys.shutdown_timer with
  | some _ => shutdown_timer_callback { sys with shutdown_timer := none }
  | none => sys

/-- Kernel call `mod_timer(&shutdown_timer, jiffies + msecs_to_jiffies(ms))`:
the timer becomes (or stays) pending with the new expiry. -/
def mod_timer {σ : Type} (sys : Sys σ) (ms : Nat) : Sys σ :=
  { sys with shutdown_timer := some ms }

/-- Kernel call `blocking_notifier_call_chain(&mode_notifier_list, code, NULL)`. -/
def blocking_notifier_call_chain {σ : Type} (sys : Sys σ) (code : Int) : Sys σ :=
  { sys with published := sys.published ++ [code] }

/-- The `switch (fg->temp_status)` of `max77818_fg_isr`, entered when the
status word `data` has `BIT_Tmx` or `BIT_Tmn` set.  The results of the
threshold writes are not looked at. -/
def isr_temp_switch {σ : Type} (rm : Regmap σ) (sys : Sys σ) (pdata : PlatformData)
    (data : Nat) : Sys σ :=
  match sys.temp_status with
  | TempStatus.MAX77818_TEMP_LOW =>
    if data &&& BIT_Tmn ≠ 0 then
      -- emergency shutdown after timeout
      let sys := { sys with
        dev := (max77818_fg_write_custom_reg rm sys.dev REG_TAlrtTh 0x7f80).2 }
      mod_timer sys 30000
    else if data &&& BIT_Tmx ≠ 0 then
      let sys := { sys with temp_status := TempStatus.MAX77818_TEMP_NORMAL }
      let sys := blocking_notifier_call_chain sys 5
      { sys with
        dev := (max77818_fg_write_custom_reg rm sys.dev REG_TAlrtTh pdata.talrt_norm).2 }
    else sys
  | TempStatus.MAX77818_TEMP_NORMAL =>
    if data &&& BIT_Tmn ≠ 0 then
      let sys := { sys with temp_status := TempStatus.MAX77818_TEMP_LOW }
      let sys := blocking_notifier_call_chain sys 4
      { sys with
        dev := (max77818_fg_write_custom_reg rm sys.dev REG_TAlrtTh pdata.talrt_low).2 }
    else if data &&& BIT_Tmx ≠ 0 then
      let sys := { sys with temp_status := TempStatus.MAX77818_TEMP_HIGH }
      let sys := blocking_notifier_call_chain sys 4
      { sys with
        dev := (max77818_fg_write_custom_reg rm sys.dev REG_TAlrtTh pdata.talrt_high).2 }
    else sys
  | TempStatus.MAX77818_TEMP_HIGH =>
    if data &&& BIT_Tmn ≠ 0 then
      let sys := { sys with temp_status := TempStatus.MAX77818_TEMP_NORMAL }
      let sys := blocking_notifier_call_chain sys 5
      { sys with
        dev := (max77818_fg_write_custom_reg rm sys.dev REG_TAlrtTh pdata.talrt_norm).2 }
    else if data &&& BIT_Tmx ≠ 0 then
      -- emergency shutdown after timeout
      let sys := { sys with
        dev := (max77818_fg_write_custom_reg rm sys.dev REG_TAlrtTh 0x7f80).2 }
      mod_timer sys 30000
    else sys

/-- The block `if (data & BIT_dSOCi) { ... }` of `max77818_fg_isr`: the cell
voltage and the state of charge are read for the diagnostic output and
`power_supply_changed` is called. -/
def isr_soc_alert {σ : Type} (rm : Regmap σ) (sys : Sys σ) (data junk : Nat) : Sys σ :=
  if data &&& BIT_dSOCi ≠ 0 then
    let d := (max77818_fg_get_voltage_now rm sys.dev junk).2
    let d := (max77818_fg_get_capacity rm d junk).2
    { sys with dev := d, supply_changed := sys.supply_changed + 1 }
  else sys

/-- The block `if (data & BIT_Tmx || data & BIT_Tmn) { ... }` of
`max77818_fg_isr`: the temperature is read for the diagnostic output, then the
switch over the thermal state runs. -/
def isr_temp_alert {σ : Type} (rm : Regmap σ) (sys : Sys σ) (pdata : PlatformData)
    (data junk : Nat) : Sys σ :=
  if data &&& BIT_Tmx ≠ 0 ∨ data &&& BIT_Tmn ≠ 0 then
    isr_temp_switch rm { sys with dev := (max77818_fg_get_temp rm sys.dev junk).2 }
      pdata data
  else sys

/-- Function `max77818_fg_isr`; `pdata` is `fg->pdata`, `junk` the indeterminate
initial content of the getters' locals.  The local `data` starts at 0.  The
values the three getters store (`vcell`, `soc`, `temp`) only go to the
diagnostic output. -/
def max77818_fg_isr {σ : Type} (rm : Regmap σ) (sys : Sys σ) (pdata : PlatformData)
    (junk : Nat) : IrqReturn × Sys σ :=
  let r := max77818_fg_read_custom_reg rm sys.dev REG_Status 0
  if r.1 ≠ 0 then (IrqReturn.IRQ_NONE, { sys with dev := r.2.2 })
  else
    let data := r.2.1
    let sys := isr_soc_alert rm { sys with dev := r.2.2 } data junk
    let sys := isr_temp_alert rm sys pdata data junk
    let w := max77818_fg_write_custom_reg rm sys.dev REG_Status 0x0000
    if w.1 ≠ 0 then (IrqReturn.IRQ_NONE, { sys with dev := w.2 })
    else (IrqReturn.IRQ_HANDLED, { sys with dev := w.2 })

/-! ## Transport traces -/

/-- The return code the transport gives to an access made in state `s`. -/
def retOf {σ : Type} (rm : Regmap σ) (s : σ) : Access → Int
  | Access.rd reg => (rm.regRead s reg).1
  | Access.wr reg val => (rm.regWrite s reg val).1

/-- The transport state after an access made in state `s`. -/
def applyAccess {σ : Type} (rm : Regmap σ) (s : σ) : Access → σ
  | Access.rd reg => (rm.regRead s reg).2.2
  | Access.wr reg val => (rm.regWrite s reg val).2

/-- The transport state after a sequence of accesses. -/
def afterAccesses {σ : Type} (rm : Regmap σ) (s : σ) (l : List Access) : σ :=
  l.foldl (applyAccess rm) s

/-- In the run `l` of accesses started in state `s`, an access that got a
negative return code (a transport error) is the last one of the run, and its
return code is `ret`. -/
def ErrorsStop {σ : Type} (rm : Regmap σ) (s : σ) (l : List Access) (ret : Int) :
    Prop :=
  ∀ p a q, l = p ++ a :: q → retOf rm (afterAccesses rm s p) a < 0 →
    q = [] ∧ ret = retOf rm (afterAccesses rm s p) a

/-- The function result `r`, started from the device view `fg`, made exactly
the accesses `l`, and a transport error among them ended the run and is the
value returned. -/
def StopsAtFirstError {σ : Type} (rm : Regmap σ) (fg : Dev σ) (r : Int × Dev σ) :
    Prop :=
  ∃ l, r.2.log = fg.log ++ l ∧ r.2.st = afterAccesses rm fg.st l ∧
    ErrorsStop rm fg.st l r.1

/-- The bounded function returned a result, and that result satisfies
`StopsAtFirstError`. -/
def ReturnsStopped {σ : Type} (rm : Regmap σ) (fg : Dev σ)
    (o : Option (Int × Dev σ)) : Prop :=
  ∃ r, o = some r ∧ StopsAtFirstError rm fg r

/-- The writes of table entries `i, i + 1, ...` (`n` of them) to `REG_OCV + i`. -/
def ocvWrites (model : Nat → Nat) : Nat → Nat → List Access
  | 0, _ => []
  | n + 1, i => Access.wr (REG_OCV + i) (model i) :: ocvWrites model n (i + 1)

/-- The reads of table entries `i, i + 1, ...` (`n` of them). -/
def ocvReads : Nat → Nat → List Access
  | 0, _ => []
  | n + 1, i => Access.rd (REG_OCV + i) :: ocvReads n (i + 1)

/-- The accesses of `max77818_fg_write_model` up to the end of the table
write: the two unlock codes and the 48 entries. -/
def modelWriteAccesses (model : Nat → Nat) : List Access :=
  [Access.wr REG_MLOCKReg1 MAX77818_MODEL_UNLOCK1,
   Access.wr REG_MLOCKReg2 MAX77818_MODEL_UNLOCK2]
    ++ ocvWrites model MAX77818_OCV_LENGTH 0

/-- A write followed by the read-back of the same register. -/
def writeVerifyAccesses (reg val : Nat) : List Access :=
  [Access.wr reg val, Access.rd reg]

/-- The accesses of `max77818_fg_restore_learned_params` before the model
load, in the order of the source. -/
def restoreAccesses (p : LearnedParams) : List Access :=
  [Access.wr REG_RComp0 p.rcomp0, Access.wr REG_TempCo p.temp_co]
    ++ writeVerifyAccesses REG_FullCapRep p.full_cap_rep
    ++ writeVerifyAccesses REG_Cycles p.cycles
    ++ writeVerifyAccesses REG_QRTable00 p.qresidual00
    ++ writeVerifyAccesses REG_QRTable10 p.qresidual10
    ++ writeVerifyAccesses REG_QRTable20 p.qresidual20
    ++ writeVerifyAccesses REG_QRTable30 p.qresidual30
    ++ writeVerifyAccesses REG_CV_MixCap p.cv_mixcap
    ++ writeVerifyAccesses REG_CV_HalfTime p.cv_halftime
    ++ writeVerifyAccesses REG_dPacc 0x3200
    ++ writeVerifyAccesses REG_dQacc (p.full_cap_nom / 4)

/-- A learned-parameter record with distinct non-zero words. -/
def learned1 : LearnedParams :=
  { rcomp0 := 0x0061, temp_co := 0x1A2B, full_cap_rep := 0x1234, cycles := 7,
    full_cap_nom := 0x1000, qresidual00 := 0x2100, qresidual10 := 0x1200,
    qresidual20 := 0x0800, qresidual30 := 0x0400, cv_mixcap := 0x0C00,
    cv_halftime := 0x0300 }

/-- Successive calls of `max77818_fg_reg_init`, each on the device view left by
the one before; the result lists the return codes. -/
def reg_init_repeat {σ : Type} (rm : Regmap σ) (pdata : PlatformData)
    (junk fuel : Nat) : Nat → Dev σ → Option (List Int × Dev σ)
  | 0, fg => some ([], fg)
  | n + 1, fg =>
    match max77818_fg_reg_init rm fg pdata junk fuel with
    | none => none
    | some r =>
      match reg_init_repeat rm pdata junk fuel n r.2 with
      | none => none
      | some q => some (r.1 :: q.1, q.2)

/-- The learned-parameter record with every word 0. -/
def learned0 : LearnedParams :=
  { rcomp0 := 0, temp_co := 0, full_cap_rep := 0, cycles := 0, full_cap_nom := 0,
    qresidual00 := 0, qresidual10 := 0, qresidual20 := 0, qresidual30 := 0,
    cv_mixcap := 0, cv_halftime := 0 }

/-- The transition table of the thermal state machine in the words of the
specification: for a state and the alert seen (`true` for below-minimum,
`false` for above-maximum), the next state, the word written to the alert
threshold register, and whether the shutdown timer is armed. -/
def thermalTable (pdata : PlatformData) : TempStatus → Bool → TempStatus × Nat × Bool
  | TempStatus.MAX77818_TEMP_LOW, true => (TempStatus.MAX77818_TEMP_LOW, 0x7f80, true)
  | TempStatus.MAX77818_TEMP_LOW, false =>
    (TempStatus.MAX77818_TEMP_NORMAL, pdata.talrt_norm, false)
  | TempStatus.MAX77818_TEMP_NORMAL, true =>
    (TempStatus.MAX77818_TEMP_LOW, pdata.talrt_low, false)
  | TempStatus.MAX77818_TEMP_NORMAL, false =>
    (TempStatus.MAX77818_TEMP_HIGH, pdata.talrt_high, false)
  | TempStatus.MAX77818_TEMP_HIGH, true =>
    (TempStatus.MAX77818_TEMP_NORMAL, pdata.talrt_norm, false)
  | TempStatus.MAX77818_TEMP_HIGH, false => (TempStatus.MAX77818_TEMP_HIGH, 0x7f80, true)

/-- Successive invocations of `max77818_fg_isr`, each on the state left by the
one before. -/
def isr_run {σ : Type} (rm : Regmap σ) (pdata : PlatformData) (junk : Nat) :
    Nat → Sys σ → Sys σ
  | 0, sys => sys
  | n + 1, sys => isr_run rm pdata junk n (max77818_fg_isr rm sys pdata junk).2

/-- A fresh device view of the scripted transport with the status words still
to come. -/
def scriptDev (script : List Nat) : Dev (List Nat) := { st := script, log := [] }

/-- The device view `d'` is reached from `d` by exactly the accesses `l`. -/
def DevTrace {σ : Type} (rm : Regmap σ) (d d' : Dev σ) (l : List Access) : Prop :=
  d'.log = d.log ++ l ∧ d'.st = afterAccesses rm d.st l

/-- An effect of the self-test visible outside the driver: a code passed to the
notifier chain, a value driven on the self-test line (`gpio_set_value`), a busy
wait (`mdelay`), or a register access. -/
inductive Effect where
  | notify (code : Int)
  | gpio (value : Nat)
  | delay (ms : Nat)
  | access (a : Access)
  deriving DecidableEq, Repr

/-- Function `self_test_show`.  The result holds the effects in the order of the
source, the number printed by `scnprintf(buf, PAGE_SIZE, "%u\n", val)` and the
character count it returns; `val0` is the indeterminate initial content of the
local `val`, which the getter leaves untouched when its read fails. -/
def self_test_show {σ : Type} (rm : Regmap σ) (sys : Sys σ) (junk : Nat) (val0 : Int) :
    (List Effect × Nat × Int) × Sys σ :=
  let sys1 := blocking_notifier_call_chain sys 12
  let g := max77818_fg_get_voltage_now rm sys1.dev junk
  let val := match g.1.2 with
    | some v => v
    | none => val0
  let sys2 := { sys1 with dev := g.2 }
  let code : Int :=
    if sys2.temp_status = TempStatus.MAX77818_TEMP_NORMAL then 5 else 4
  let sys3 := blocking_notifier_call_chain sys2 code
  (([Effect.notify 12, Effect.gpio 1, Effect.delay 5000]
      ++ (g.2.log.drop sys1.dev.log.length).map Effect.access
      ++ [Effect.gpio 0, Effect.notify code],
    ofInt val, Int.ofNat ((Nat.toDigits 10 (ofInt val)).length + 1)), sys3)

/-! ## Polls of the model load -/

/-- The transport state after `k` reads of `REG_Config2` made from state `s`. -/
def pollState {σ : Type} (rm : Regmap σ) (s : σ) (k : Nat) : σ :=
  afterAccesses rm s (List.replicate k (Access.rd REG_Config2))

/-- The return code of the read of `REG_Config2` that follows `k` earlier ones. -/
def pollRet {σ : Type} (rm : Regmap σ) (s : σ) (k : Nat) : Int :=
  (rm.regRead (pollState rm s k) REG_Config2).1

/-- The word fetched by the read of `REG_Config2` that follows `k` earlier ones. -/
def pollValue {σ : Type} (rm : Regmap σ) (s : σ) (k : Nat) : Nat :=
  (rm.regRead (pollState rm s k) REG_Config2).2.1

/-! ## Learned parameters read back from the device

Every `learned_X_show` reads one register into `fg->learned->X` and prints the
field with `"%u\n"`; the result is the read's return code when that is not 0
and the number of characters printed otherwise. -/

/-- Register `REG_MixCap` of the fuel gauge. -/
def REG_MixCap : Nat := 0x0F

/-- The value of `scnprintf(buf, PAGE_SIZE, "%u\n", v)`. -/
def scnprintf_u (v : Nat) : Int := Int.ofNat ((Nat.toDigits 10 v).length + 1)

/-- Function `learned_rcomp0_show`. -/
def learned_rcomp0_show {σ : Type} (rm : Regmap σ) (fg : Dev σ) (learned : LearnedParams) :
    (Int × LearnedParams) × Dev σ :=
  let r := max77818_fg_read_custom_reg rm fg REG_RComp0 learned.rcomp0
  let learned := { learned with rcomp0 := r.2.1 }
  if r.1 ≠ 0 then ((r.1, learned), r.2.2)
  else ((scnprintf_u learned.rcomp0, learned), r.2.2)

/-- Function `learned_temp_co_show`. -/
def learned_temp_co_show {σ : Type} (rm : Regmap σ) (fg : Dev σ) (learned : LearnedParams) :
    (Int × LearnedParams) × Dev σ :=
  let r := max77818_fg_read_custom_reg rm fg REG_TempCo learned.temp_co
  let learned := { learned with temp_co := r.2.1 }
  if r.1 ≠ 0 then ((r.1, learned), r.2.2)
  else ((scnprintf_u learned.temp_co, learned), r.2.2)

/-- Function `learned_full_cap_rep_show`. -/
def learned_full_cap_rep_show {σ : Type} (rm : Regmap σ) (fg : Dev σ)
    (learned : LearnedParams) : (Int × LearnedParams) × Dev σ :=
  let r := max77818_fg_read_custom_reg rm fg REG_FullCapRep learned.full_cap_rep
  let learned := { learned with full_cap_rep := r.2.1 }
  if r.1 ≠ 0 then ((r.1, learned), r.2.2)
  else ((scnprintf_u learned.full_cap_rep, learned), r.2.2)

/-- Function `learned_cycles_show`. -/
def learned_cycles_show {σ : Type} (rm : Regmap σ) (fg : Dev σ) (learned : LearnedParams) :
    (Int × LearnedParams) × Dev σ :=
  let r := max77818_fg_read_custom_reg rm fg REG_Cycles learned.cycles
  let learned := { learned with cycles := r.2.1 }
  if r.1 ≠ 0 then ((r.1, learned), r.2.2)
  else ((scnprintf_u learned.cycles, learned), r.2.2)

/-- Function `learned_full_cap_nom_show`. -/
def learned_full_cap_nom_show {σ : Type} (rm : Regmap σ) (fg : Dev σ)
    (learned : LearnedParams) : (Int × LearnedParams) × Dev σ :=
  let r := max77818_fg_read_custom_reg rm fg REG_FullCapNom learned.full_cap_nom
  let learned := { learned with full_cap_nom := r.2.1 }
  if r.1 ≠ 0 then ((r.1, learned), r.2.2)
  else ((scnprintf_u learned.full_cap_nom, learned), r.2.2)

/-- Function `learned_qresidual00_show`. -/
def learned_qresidual00_show {σ : Type} (rm : Regmap σ) (fg : Dev σ)
    (learned : LearnedParams) : (Int × LearnedParams) × Dev σ :=
  let r := max77818_fg_read_custom_reg rm fg REG_QRTable00 learned.qresidual00
  let learned := { learned with qresidual00 := r.2.1 }
  if r.1 ≠ 0 then ((r.1, learned), r.2.2)
  else ((scnprintf_u learned.qresidual00, learned), r.2.2)

/-- Function `learned_qresidual10_show`. -/
def learned_qresidual10_show {σ : Type} (rm : Regmap σ) (fg : Dev σ)
    (learned : LearnedParams) : (Int × LearnedParams) × Dev σ :=
  let r := max77818_fg_read_custom_reg rm fg REG_QRTable10 learned.qresidual10
  let learned := { learned with qresidual10 := r.2.1 }
  if r.1 ≠ 0 then ((r.1, learned), r.2.2)
  else ((scnprintf_u learned.qresidual10, learned), r.2.2)

/-- Function `learned_qresidual20_show`. -/
def learned_qresidual20_show {σ : Type} (rm : Regmap σ) (fg : Dev σ)
    (learned : LearnedParams) : (Int × LearnedParams) × Dev σ :=
  let r := max77818_fg_read_custom_reg rm fg REG_QRTable20 learned.qresidual20
  let learned := { learned with qresidual20 := r.2.1 }
  if r.1 ≠ 0 then ((r.1, learned), r.2.2)
  else ((scnprintf_u learned.qresidual20, learned), r.2.2)

/-- Function `learned_qresidual30_show`. -/
def learned_qresidual30_show {σ : Type} (rm : Regmap σ) (fg : Dev σ)
    (learned : LearnedParams) : (Int × LearnedParams) × Dev σ :=
  let r := max77818_fg_read_custom_reg rm fg REG_QRTable30 learned.qresidual30
  let learned := { learned with qresidual30 := r.2.1 }
  if r.1 ≠ 0 then ((r.1, learned), r.2.2)
  else ((scnprintf_u learned.qresidual30, learned), r.2.2)

/-- Function `learned_cv_mixcap_show`; the register read is `REG_MixCap`. -/
def learned_cv_mixcap_show {σ : Type} (rm : Regmap σ) (fg : Dev σ)
    (learned : LearnedParams) : (Int × LearnedParams) × Dev σ :=
  let r := max77818_fg_read_custom_reg rm fg REG_MixCap learned.cv_mixcap
  let learned := { learned with cv_mixcap := r.2.1 }
  if r.1 ≠ 0 then ((r.1, learned), r.2.2)
  else ((scnprintf_u learned.cv_mixcap, learned), r.2.2)

/-- Function `learned_cv_halftime_show`. -/
def learned_cv_halftime_show {σ : Type} (rm : Regmap σ) (fg : Dev σ)
    (learned : LearnedParams) : (Int × LearnedParams) × Dev σ :=
  let r := max77818_fg_read_custom_reg rm fg REG_CV_HalfTime learned.cv_halftime
  let learned := { learned with cv_halftime := r.2.1 }
  if r.1 ≠ 0 then ((r.1, learned), r.2.2)
  else ((scnprintf_u learned.cv_halftime, learned), r.2.2)

/-! ## Charger

The charger block has its own register map (8-bit registers); the embedding
reuses `Regmap` and `Dev` for it. -/

/-- Kernel macro `GENMASK(h, l)`: the word whose bits `l` to `h` are set. -/
def GENMASK (h l : Nat) : Nat := ((1 <<< (h + 1 - l)) - 1) <<< l

/-- Macro `BITS(_s, _e)`, `GENMASK(_e, _s)`. -/
def BITS (s e : Nat) : Nat := GENMASK e s

def REG_CHG_CNFG_00 : Nat := 0xB7
def REG_CHG_CNFG_01 : Nat := 0xB8
def REG_CHG_CNFG_02 : Nat := 0xB9
def REG_CHG_CNFG_03 : Nat := 0xBA
def REG_CHG_CNFG_04 : Nat := 0xBB
def REG_CHG_CNFG_07 : Nat := 0xBE
def REG_CHG_CNFG_09 : Nat := 0xC0
def REG_CHG_CNFG_10 : Nat := 0xC1
def REG_CHG_CNFG_12 : Nat := 0xC3

def BIT_MODE : Nat := BITS 0 3
def BIT_FCHGTIME : Nat := BITS 0 2
def BIT_CHG_RSTRT : Nat := BITS 4 5
def BIT_CHG_CC : Nat := BITS 0 5
def BIT_OTG_ILIM : Nat := BITS 6 7
def BIT_TO_ITH : Nat := BITS 0 2
def BIT_TO_TIME : Nat := BITS 3 5
def BIT_CHG_CV_PRM : Nat := BITS 0 5
def BIT_MINVSYS : Nat := BITS 6 7
def BIT_REGTEMP : Nat := BITS 5 6
def BIT_CHGIN_ILIM : Nat := BITS 0 6
def BIT_WCIN_ILIM : Nat := BITS 0 5
def BIT_B2SOVRC : Nat := BITS 0 2
def BIT_VCHGIN_REG : Nat := BITS 3 4

/-- Kernel constant `NOTIFY_DONE`. -/
def NOTIFY_DONE : Int := 0

/-- Kernel function `regmap_update_bits`: the read-modify-write of
`regmap_update_bits_base` without a forced write. -/
def regmap_update_bits {σ : Type} (rm : Regmap σ) (fg : Dev σ)
    (reg mask val : Nat) : Int × Dev σ :=
  regmap_update_bits_base rm fg reg mask val false

/-- Function `max77818_chg_get_mode`.  In `data & BIT_MODE >> FFS(BIT_MODE)` the
shift binds tighter than `&`. -/
def max77818_chg_get_mode {σ : Type} (rm : Regmap σ) (chg : Dev σ) (junk : Nat) :
    (Int × Option Int) × Dev σ :=
  let r := regmap_read rm chg REG_CHG_CNFG_00 junk
  if r.1 < 0 then ((r.1, none), r.2.2)
  else ((0, some (toInt (r.2.1 &&& (BIT_MODE >>> FFS BIT_MODE)))), r.2.2)

/-- Function `max77818_chg_set_mode`: `data = val << FFS(BIT_MODE)` converted to
`unsigned int`, then `regmap_update_bits` under `BIT_MODE`. -/
def max77818_chg_set_mode {σ : Type} (rm : Regmap σ) (chg : Dev σ) (val : Int) :
    Int × Dev σ :=
  let data := u32 (ofInt val <<< FFS BIT_MODE)
  regmap_update_bits rm chg REG_CHG_CNFG_00 BIT_MODE data

/-- The charger device (`struct max77818_chg_dev`): its register view and the
number of `power_supply_changed` calls made for its supply. -/
structure Chg (σ : Type) where
  dev : Dev σ
  supply_changed : Nat

/-- Function `mode_event_notify`: the `unsigned long mode` is converted to the
`int` argument of `max77818_chg_set_mode`, whose return value is not looked at. -/
def mode_event_notify {σ : Type} (rm : Regmap σ) (chg : Chg σ) (mode : Nat) :
    Int × Chg σ :=
  let r := max77818_chg_set_mode rm chg.dev (toInt (u32 mode))
  (NOTIFY_DONE, { dev := r.2, supply_changed := chg.supply_changed + 1 })

/-- The end of every limit setter: `ret_val = regmap_update_bits(chg->regmap,
reg, mask, (data << FFS(mask))); return ret_val;`, reached with the `int` value
`code` assigned to the `unsigned int data`, or the `return -EINVAL` taken
before it (`none`). -/
def chg_set_field {σ : Type} (rm : Regmap σ) (chg : Dev σ) (reg mask : Nat) :
    Option Int → Int × Dev σ
  | none => (-EINVAL, chg)
  | some code => regmap_update_bits rm chg reg mask (u32 (ofInt code <<< FFS mask))

/-- The value assigned to `data` in `max77818_chg_set_fast_charge_timer_timeout`
(`none` for the `default:` case). -/
def fast_charge_timer_timeout_code (val : Int) : Option Int :=
  if 4 ≤ val ∧ val ≤ 16 then some (Int.tdiv (val - 4) 2 + 1)
  else if val = 0 then some 0
  else none

/-- Function `max77818_chg_set_fast_charge_timer_timeout`. -/
def max77818_chg_set_fast_charge_timer_timeout {σ : Type} (rm : Regmap σ) (chg : Dev σ)
    (val : Int) : Int × Dev σ :=
  chg_set_field rm chg REG_CHG_CNFG_01 BIT_FCHGTIME (fast_charge_timer_timeout_code val)

/-- The value assigned to `data` in `max77818_chg_set_charge_current_limit`. -/
def charge_current_limit_code (val : Int) : Option Int :=
  if val < 100000 ∨ val > 3000000 then none
  else some (Int.tdiv val 50000)

/-- Function `max77818_chg_set_charge_current_limit`. -/
def max77818_chg_set_charge_current_limit {σ : Type} (rm : Regmap σ) (chg : Dev σ)
    (val : Int) : Int × Dev σ :=
  chg_set_field rm chg REG_CHG_CNFG_02 BIT_CHG_CC (charge_current_limit_code val)

/-- The value assigned to `data` in `max77818_chg_set_otg_output_current_limit`. -/
def otg_output_current_limit_code (val : Int) : Option Int :=
  if val = 500000 then some 0x00
  else if val = 900000 then some 0x01
  else if val = 1200000 then some 0x02
  else if val = 1500000 then some 0x03
  else none

/-- Function `max77818_chg_set_otg_output_current_limit`. -/
def max77818_chg_set_otg_output_current_limit {σ : Type} (rm : Regmap σ) (chg : Dev σ)
    (val : Int) : Int × Dev σ :=
  chg_set_field rm chg REG_CHG_CNFG_02 BIT_OTG_ILIM (otg_output_current_limit_code val)

/-- The value assigned to `data` in `max77818_chg_set_topoff_current_threshold`. -/
def topoff_current_threshold_code (val : Int) : Option Int :=
  if val < 100000 ∨ val > 350000 then none
  else if val ≤ 200000 then some (Int.tdiv (val - 100000) 25000)
  else some (Int.tdiv val 50000)

/-- Function `max77818_chg_set_topoff_current_threshold`. -/
def max77818_chg_set_topoff_current_threshold {σ : Type} (rm : Regmap σ) (chg : Dev σ)
    (val : Int) : Int × Dev σ :=
  chg_set_field rm chg REG_CHG_CNFG_03 BIT_TO_ITH (topoff_current_threshold_code val)

/-- The value assigned to `data` in `max77818_chg_set_topoff_timer_timeout`:
the only test before it is `val > 70`. -/
def topoff_timer_timeout_code (val : Int) : Option Int :=
  if val > 70 then none
  else some (Int.tdiv val 10)

/-- Function `max77818_chg_set_topoff_timer_timeout`. -/
def max77818_chg_set_topoff_timer_timeout {σ : Type} (rm : Regmap σ) (chg : Dev σ)
    (val : Int) : Int × Dev σ :=
  chg_set_field rm chg REG_CHG_CNFG_03 BIT_TO_TIME (topoff_timer_timeout_code val)

/-- The value of `data` (initialised to 0) at the end of the `if` chain of
`max77818_chg_set_prim_charge_term_voltage`. -/
def prim_charge_term_voltage_code (val : Int) : Option Int :=
  if val < 3650000 ∨ val > 4700000 then none
  else if val ≥ 3650000 ∧ val < 4340000 then some (Int.tdiv (val - 3650000) 25000)
  else if val = 4340000 then some 0x1C
  else if val > 4340000 ∧ val ≤ 4700000 then some (0x1D + Int.tdiv (val - 4350000) 25000)
  else some 0

/-- Function `max77818_chg_set_prim_charge_term_voltage`: the register and the
mask passed to `regmap_update_bits` are `REG_CHG_CNFG_01` and `BIT_CHG_RSTRT`. -/
def max77818_chg_set_prim_charge_term_voltage {σ : Type} (rm : Regmap σ) (chg : Dev σ)
    (val : Int) : Int × Dev σ :=
  chg_set_field rm chg REG_CHG_CNFG_01 BIT_CHG_RSTRT (prim_charge_term_voltage_code val)

/-- The value assigned to `data` in `max77818_chg_set_min_system_reg_voltage`. -/
def min_system_reg_voltage_code (val : Int) : Option Int :=
  if val < 3000000 ∨ val > 3700000 then none
  else some (Int.tdiv (val - 3400000) 100000)

/-- Function `max77818_chg_set_min_system_reg_voltage`. -/
def max77818_chg_set_min_system_reg_voltage {σ : Type} (rm : Regmap σ) (chg : Dev σ)
    (val : Int) : Int × Dev σ :=
  chg_set_field rm chg REG_CHG_CNFG_04 BIT_MINVSYS (min_system_reg_voltage_code val)

/-- The value assigned to `data` in `max77818_chg_set_thermal_reg_temperature`. -/
def thermal_reg_temperature_code (val : Int) : Option Int :=
  if val = 85 ∨ val = 100 ∨ val = 115 ∨ val = 130 then some (Int.tdiv (val - 85) 15)
  else none

/-- Function `max77818_chg_set_thermal_reg_temperature`. -/
def max77818_chg_set_thermal_reg_temperature {σ : Type} (rm : Regmap σ) (chg : Dev σ)
    (val : Int) : Int × Dev σ :=
  chg_set_field rm chg REG_CHG_CNFG_07 BIT_REGTEMP (thermal_reg_temperature_code val)

/-- The value assigned to `data` in `max77818_chg_set_chgin_input_current_limit`. -/
def chgin_input_current_limit_code (val : Int) : Option Int :=
  if val < 100000 ∨ val > 4000000 then none
  else some (Int.tdiv (val - 1000) 33000)

/-- Function `max77818_chg_set_chgin_input_current_limit`. -/
def max77818_chg_set_chgin_input_current_limit {σ : Type} (rm : Regmap σ) (chg : Dev σ)
    (val : Int) : Int × Dev σ :=
  chg_set_field rm chg REG_CHG_CNFG_09 BIT_CHGIN_ILIM (chgin_input_current_limit_code val)

/-- The value assigned to `data` in `max77818_chg_set_wchgin_input_current_limit`. -/
def wchgin_input_current_limit_code (val : Int) : Option Int :=
  if val < 60000 ∨ val > 1260000 then none
  else some (Int.tdiv val 20000)

/-- Function `max77818_chg_set_wchgin_input_current_limit`. -/
def max77818_chg_set_wchgin_input_current_limit {σ : Type} (rm : Regmap σ) (chg : Dev σ)
    (val : Int) : Int × Dev σ :=
  chg_set_field rm chg REG_CHG_CNFG_10 BIT_WCIN_ILIM (wchgin_input_current_limit_code val)

/-- The value assigned to `data` in
`max77818_chg_set_battery_overcurrent_threshold`. -/
def battery_overcurrent_threshold_code (val : Int) : Option Int :=
  if val ≠ 0 ∧ (val < 3000000 ∨ val > 4500000) then none
  else if val ≠ 0 then some (Int.tdiv (val - 3000000) 250000 + 1)
  else some 0

/-- Function `max77818_chg_set_battery_overcurrent_threshold`. -/
def max77818_chg_set_battery_overcurrent_threshold {σ : Type} (rm : Regmap σ)
    (chg : Dev σ) (val : Int) : Int × Dev σ :=
  chg_set_field rm chg REG_CHG_CNFG_12 BIT_B2SOVRC (battery_overcurrent_threshold_code val)

/-- The value assigned to `data` in
`max77818_chg_set_chgin_input_voltage_threshold`. -/
def chgin_input_voltage_threshold_code (val : Int) : Option Int :=
  if val = 4300000 then some 0x0
  else if val = 4700000 ∨ val = 4800000 ∨ val = 4900000 then
    some (Int.tdiv (val - 4700000) 100000)
  else none

/-- Function `max77818_chg_set_chgin_input_voltage_threshold`. -/
def max77818_chg_set_chgin_input_voltage_threshold {σ : Type} (rm : Regmap σ)
    (chg : Dev σ) (val : Int) : Int × Dev σ :=
  chg_set_field rm chg REG_CHG_CNFG_12 BIT_VCHGIN_REG (chgin_input_voltage_threshold_code val)

/-- The largest code that fits in the field selected by `mask`. -/
def fieldMax (mask : Nat) : Int := Int.ofNat (mask >>> FFS mask)

/-- A register file in which every access succeeds and every register stores
what is written to it. -/
def ramRegmap : Regmap (Nat → Nat) where
  regRead := fun s reg => (0, s reg, s)
  regWrite := fun s reg val => (0, fun r => if r = reg then val else s r)

/-- A fresh view of a register file in which the register `reg` holds `v` and
every other register holds 0. -/
def ramWith (reg v : Nat) : Dev (Nat → Nat) :=
  { st := fun r => if r = reg then v else 0, log := [] }

/-- A fresh view of a register file in which `REG_MixCap` holds 0x1111,
`REG_CV_MixCap` holds 0x2222 and every other register holds 0. -/
def ramMix : Dev (Nat → Nat) :=
  { st := fun r => if r = REG_MixCap then 0x1111 else if r = REG_CV_MixCap then 0x2222 else 0,
    log := [] }

/-- A transport that answers the reads of `REG_Status` with the words of a
script, one after the other (0 once the script is used up), every other read
with `other`, and accepts every write. -/
def scriptRegmap (other : Nat) : Regmap (List Nat) where
  regRead := fun s reg =>
    if reg = REG_Status then (0, s.headD 0, s.tail) else (0, other, s)
  regWrite := fun s _ _ => (0, s)

/-- A fresh system around a device view: thermal state NORMAL, nothing
published, no timer pending. -/
def sys0 {σ : Type} (dev : Dev σ) : Sys σ :=
  { dev := dev, temp_status := TempStatus.MAX77818_TEMP_NORMAL, published := [],
    shutdown_timer := none, supply_changed := 0, poweroff := false }

/-- Platform data with every word 0 except the three alert thresholds. -/
def pdata0 : PlatformData :=
  { battery_ocv_model := fun _ => 0, vfsoc0 := 0, design_cap := 0, config := 0,
    config2 := 0, dqacc := 0, dpacc := 0, filter_cfg := 0, full_cap_nom := 0,
    full_cap_rep := 0, full_soc_thr := 0, iavg_empty := 0, i_chg_term := 0,
    learn_cfg := 0, qresidual00 := 0, qresidual10 := 0, qresidual20 := 0,
    qresidual30 := 0, rcomp0 := 0, relax_cfg := 0, temp_co := 0, v_empty := 0,
    tgain := 0, toff := 0, curve := 0, at_rate := 0, cv_mixcap := 0,
    cv_halftime := 0, smartchgcfg := 0, convg_cfg := 0, talrt_low := 0x0A80,
    talrt_norm := 0x3C0A, talrt_high := 0x7F3C }

/-- A register file in which every access succeeds and every register stores
what is written to it, except register `bad`, which ignores writes. -/
def faultyRamRegmap (bad : Nat) : Regmap (Nat → Nat) where
  regRead := fun s reg => (0, s reg, s)
  regWrite := fun s reg val =>
    (0, if reg = bad then s else fun r => if r = reg then val else s r)

/-- A fresh view of a register file whose registers all hold 0. -/
def ram0 : Dev (Nat → Nat) := { st := fun _ => 0, log := [] }

/-- A transport whose every read succeeds with the word `v` and whose every
write succeeds. -/
def constRegmap (v : Nat) : Regmap Unit where
  regRead := fun s _ => (0, v, s)
  regWrite := fun s _ _ => (0, s)

/-- A fresh device view with an empty access log. -/
def dev0 : Dev Unit := { st := (), log := [] }

/-- A transport whose every access fails with the return code `e`. -/
def failRegmap (e : Int) : Regmap Unit where
  regRead := fun s _ => (e, 0, s)
  regWrite := fun s _ _ => (e, s)

/-- The 16-bit two's complement of a register word. -/
def twosComplement16 (raw : Nat) : Nat := (65536 - raw % 65536) % 65536

/-- The signed (two's complement) reading of a 16-bit register word. -/
def signed16 (raw : Nat) : Int :=
  if raw % 65536 < 32768 then Int.ofNat (raw % 65536)
  else Int.ofNat (raw % 65536) - 65536

/-! ## Bitwise operations as division and remainder -/

theorem and_mul_two_pow (x m : Nat) (k : Nat) :
    x &&& (m * 2 ^ k) = (x / 2 ^ k &&& m) * 2 ^ k := by
  induction k generalizing x with
  | zero => simp
  | succ k ih =>
    have e : m * 2 ^ (k + 1) = 2 * (m * 2 ^ k) := by
      rw [pow_succ]
      ring
    have hdiv : (x &&& (2 * (m * 2 ^ k))) / 2 = x / 2 &&& (m * 2 ^ k) := by
      rw [Nat.and_div_two]
      congr 1
      omega
    have hmod : (x &&& (2 * (m * 2 ^ k))) % 2 = 0 := by
      have hne : ¬ ((x &&& (2 * (m * 2 ^ k))) % 2 = 1) := by
        rw [Nat.and_mod_two_eq_one]
        omega
      omega
    have hx : x / 2 / 2 ^ k = x / 2 ^ (k + 1) := by
      rw [Nat.div_div_eq_div_mul, pow_succ, Nat.mul_comm]
    have key := ih (x / 2)
    rw [hx] at key
    have hp : (x / 2 ^ (k + 1) &&& m) * 2 ^ (k + 1)
        = 2 * ((x / 2 ^ (k + 1) &&& m) * 2 ^ k) := by
      rw [pow_succ]
      ring
    rw [hp, ← key, ← hdiv, e]
    omega

theorem and_0x8000 (x : Nat) : x &&& 0x8000 = (x / 32768 % 2) * 32768 := by
  have h := and_mul_two_pow x 1 15
  norm_num at h
  exact h

theorem and_0x80 (x : Nat) : x &&& 0x80 = (x / 128 % 2) * 128 := by
  have h := and_mul_two_pow x 1 7
  norm_num at h
  exact h

theorem and_0xFC00 (x : Nat) : x &&& 0xFC00 = (x / 1024 % 64) * 1024 := by
  have h := and_mul_two_pow x 63 10
  have h1 := Nat.and_pow_two_sub_one_eq_mod (x / 1024) 6
  norm_num at h h1
  rw [h, h1]

theorem and_0x03F0 (x : Nat) : x &&& 0x03F0 = (x / 16 % 64) * 16 := by
  have h := and_mul_two_pow x 63 4
  have h1 := Nat.and_pow_two_sub_one_eq_mod (x / 16) 6
  norm_num at h h1
  rw [h, h1]

theorem and_0xFF00 (x : Nat) : x &&& 0xFF00 = (x / 256 % 256) * 256 := by
  have h := and_mul_two_pow x 255 8
  have h1 := Nat.and_pow_two_sub_one_eq_mod (x / 256) 8
  norm_num at h h1
  rw [h, h1]

theorem and_0x7FFF (x : Nat) : x &&& 0x7FFF = x % 32768 := by
  have h := Nat.and_pow_two_sub_one_eq_mod x 15
  norm_num at h
  exact h

theorem and_0x7F (x : Nat) : x &&& 0x7F = x % 128 := by
  have h := Nat.and_pow_two_sub_one_eq_mod x 7
  norm_num at h
  exact h

theorem and_0xFF (x : Nat) : x &&& 0xFF = x % 256 := by
  have h := Nat.and_pow_two_sub_one_eq_mod x 8
  norm_num at h
  exact h

theorem and_0x3F (x : Nat) : x &&& 0x3F = x % 64 := by
  have h := Nat.and_pow_two_sub_one_eq_mod x 6
  norm_num at h
  exact h

theorem and_0x0F (x : Nat) : x &&& 0x000F = x % 16 := by
  have h := Nat.and_pow_two_sub_one_eq_mod x 4
  norm_num at h
  exact h

theorem shr_8 (x : Nat) : x >>> 8 = x / 256 := by
  rw [Nat.shiftRight_eq_div_pow]

theorem shr_10 (x : Nat) : x >>> 10 = x / 1024 := by
  rw [Nat.shiftRight_eq_div_pow]

theorem shr_4 (x : Nat) : x >>> 4 = x / 16 := by
  rw [Nat.shiftRight_eq_div_pow]

/-! ## Capacity level -/

/-- C1 (as stated, refuted): a RepSOC word whose high byte is 95 is not
classified FULL; the getter stores HIGH. -/
theorem capacity_level_95_is_not_full :
    (max77818_fg_get_capacity_level (constRegmap 0x5F00) dev0 0).1
        ≠ (0, some POWER_SUPPLY_CAPACITY_LEVEL_FULL)
      ∧ (max77818_fg_get_capacity_level (constRegmap 0x5F00) dev0 0).1
        = (0, some POWER_SUPPLY_CAPACITY_LEVEL_HIGH) := by
  decide

/-- C1 (amended): for every 16-bit RepSOC word read successfully, the level
stored for its high byte `soc` uses exclusive lower bounds 95, 80, 20 and 5:
`soc ≥ 96` is FULL, `81..95` is HIGH, `21..80` is NORMAL, `6..20` is LOW,
`1..5` is CRITICAL and `0` is UNKNOWN. -/
theorem capacity_level_exclusive_bounds {σ : Type} (rm : Regmap σ) (fg fg' : Dev σ)
    (junk raw : Nat) (_hraw : raw < 65536)
    (hread : max77818_fg_read_custom_reg rm fg REG_RepSOC junk = (0, raw, fg')) :
    ∃ lvl : Int,
      max77818_fg_get_capacity_level rm fg junk = ((0, some lvl), fg') ∧
      (96 ≤ raw / 256 → lvl = POWER_SUPPLY_CAPACITY_LEVEL_FULL) ∧
      (81 ≤ raw / 256 ∧ raw / 256 ≤ 95 → lvl = POWER_SUPPLY_CAPACITY_LEVEL_HIGH) ∧
      (21 ≤ raw / 256 ∧ raw / 256 ≤ 80 → lvl = POWER_SUPPLY_CAPACITY_LEVEL_NORMAL) ∧
      (6 ≤ raw / 256 ∧ raw / 256 ≤ 20 → lvl = POWER_SUPPLY_CAPACITY_LEVEL_LOW) ∧
      (1 ≤ raw / 256 ∧ raw / 256 ≤ 5 → lvl = POWER_SUPPLY_CAPACITY_LEVEL_CRITICAL) ∧
      (raw / 256 = 0 → lvl = POWER_SUPPLY_CAPACITY_LEVEL_UNKNOWN) := by
  simp only [max77818_fg_get_capacity_level, hread, shr_8, MAX77818_BATTERY_FULL,
    MAX77818_BATTERY_HIGH, MAX77818_BATTERY_NORMAL, MAX77818_BATTERY_LOW,
    MAX77818_BATTERY_CRITICAL]
  split_ifs <;> first
    | omega
    | exact ⟨_, rfl, by omega, by omega, by omega, by omega, by omega, by omega⟩

/-- Instance of `capacity_level_exclusive_bounds` on a device whose RepSOC
register holds 0x5000 (high byte 80). -/
theorem capacity_level_exclusive_bounds_witness :
    ∃ lvl : Int,
      max77818_fg_get_capacity_level (constRegmap 0x5000) dev0 7
        = ((0, some lvl), { st := (), log := [Access.rd REG_RepSOC] }) ∧
      (96 ≤ 0x5000 / 256 → lvl = POWER_SUPPLY_CAPACITY_LEVEL_FULL) ∧
      (81 ≤ 0x5000 / 256 ∧ 0x5000 / 256 ≤ 95 → lvl = POWER_SUPPLY_CAPACITY_LEVEL_HIGH) ∧
      (21 ≤ 0x5000 / 256 ∧ 0x5000 / 256 ≤ 80 → lvl = POWER_SUPPLY_CAPACITY_LEVEL_NORMAL) ∧
      (6 ≤ 0x5000 / 256 ∧ 0x5000 / 256 ≤ 20 → lvl = POWER_SUPPLY_CAPACITY_LEVEL_LOW) ∧
      (1 ≤ 0x5000 / 256 ∧ 0x5000 / 256 ≤ 5 → lvl = POWER_SUPPLY_CAPACITY_LEVEL_CRITICAL) ∧
      (0x5000 / 256 = 0 → lvl = POWER_SUPPLY_CAPACITY_LEVEL_UNKNOWN) :=
  capacity_level_exclusive_bounds (constRegmap 0x5000) dev0 _ 7 0x5000 (by decide) rfl

/-! ## Current -/

/-- C2 (as stated, refuted): for the raw current word 0x8001 the getter stores
5119843, which is not negative and is not the magnitude 156 of the decode of
0x0001. -/
theorem current_now_0x8001_not_negative :
    (¬ ∃ v : Int, (max77818_fg_get_current_now (constRegmap 0x8001) dev0 0).1
        = (0, some v) ∧ v < 0)
      ∧ (max77818_fg_get_current_now (constRegmap 0x8001) dev0 0).1
        = (0, some 5119843)
      ∧ (max77818_fg_get_current_now (constRegmap 0x0001) dev0 0).1
        = (0, some 156) := by
  refine ⟨?_, by decide, by decide⟩
  rintro ⟨v, hv, hneg⟩
  have h : (max77818_fg_get_current_now (constRegmap 0x8001) dev0 0).1
      = (0, some 5119843) := by decide
  rw [h] at hv
  simp only [Prod.mk.injEq, Option.some.injEq, true_and] at hv
  omega

/-- C2 (amended): for every 16-bit raw current word with bit 15 set, the value
stored by the instantaneous-current getter has the same magnitude as the value
stored for the word's 16-bit two's complement. -/
theorem current_now_magnitude_of_twos_complement {σ : Type} (rm rm2 : Regmap σ)
    (fg fg' fg2 fg2' : Dev σ) (junk junk2 raw : Nat) (hraw : raw < 65536)
    (hbit : raw &&& 0x8000 ≠ 0)
    (hread : max77818_fg_read_custom_reg rm fg REG_Current junk = (0, raw, fg'))
    (hread2 : max77818_fg_read_custom_reg rm2 fg2 REG_Current junk2
      = (0, twosComplement16 raw, fg2')) :
    ∃ v w : Int,
      max77818_fg_get_current_now rm fg junk = ((0, some v), fg') ∧
      max77818_fg_get_current_now rm2 fg2 junk2 = ((0, some w), fg2') ∧
      v.natAbs = w.natAbs := by
  rw [and_0x8000] at hbit
  have hge : 32768 ≤ raw := by omega
  have hd : u32 ((bnot32 raw &&& 0x7FFF) + 1) = 65536 - raw := by
    rw [and_0x7FFF]
    simp only [bnot32, u32]
    omega
  have hd2 : (if twosComplement16 raw &&& 0x8000 ≠ 0
      then u32 ((bnot32 (twosComplement16 raw) &&& 0x7FFF) + 1)
      else twosComplement16 raw) = 65536 - raw := by
    rw [and_0x8000, and_0x7FFF]
    simp only [bnot32, u32, twosComplement16]
    split_ifs <;> omega
  have hb : raw &&& 0x8000 ≠ 0 := by
    rw [and_0x8000]
    omega
  have e1 : max77818_fg_get_current_now rm fg junk
      = ((0, some (toInt (u32 ((if raw &&& 0x8000 ≠ 0
          then u32 ((bnot32 raw &&& 0x7FFF) + 1) else raw) * 15625) / 100))), fg') := by
    unfold max77818_fg_get_current_now
    rw [hread]
    rfl
  have e2 : max77818_fg_get_current_now rm2 fg2 junk2
      = ((0, some (toInt (u32 ((if twosComplement16 raw &&& 0x8000 ≠ 0
          then u32 ((bnot32 (twosComplement16 raw) &&& 0x7FFF) + 1)
          else twosComplement16 raw) * 15625) / 100))), fg2') := by
    unfold max77818_fg_get_current_now
    rw [hread2]
    rfl
  rw [if_pos hb, hd] at e1
  rw [hd2] at e2
  exact ⟨_, _, e1, e2, rfl⟩

/-- Instance of `current_now_magnitude_of_twos_complement` at the raw word
0x8001, whose two's complement is 0x7FFF. -/
theorem current_now_magnitude_of_twos_complement_witness :
    ∃ v w : Int,
      max77818_fg_get_current_now (constRegmap 0x8001) dev0 0
        = ((0, some v), { st := (), log := [Access.rd REG_Current] }) ∧
      max77818_fg_get_current_now (constRegmap 0x7FFF) dev0 0
        = ((0, some w), { st := (), log := [Access.rd REG_Current] }) ∧
      v.natAbs = w.natAbs :=
  current_now_magnitude_of_twos_complement (constRegmap 0x8001) (constRegmap 0x7FFF)
    dev0 _ dev0 _ 0 0 0x8001 (by decide) (by decide) rfl rfl

/-- C3 (the code departs from the claim): for the raw average-current word
0x7FFF (bit 15 clear) the 32-bit product `raw * 156250` wraps, and the getter
stores 824876 instead of `0x7FFF * 156250 / 1000 = 5119843`. -/
theorem current_avg_0x7FFF_wraps :
    (max77818_fg_get_current_avg (constRegmap 0x7FFF) dev0 0).1
        = (0, some 824876)
      ∧ 0x7FFF &&& 0x8000 = 0
      ∧ 0x7FFF * 156250 / 1000 = 5119843
      ∧ 4294967296 ≤ 0x7FFF * 156250 := by
  decide

/-! ## Voltage and capacity -/

theorem toInt_of_lt (n : Nat) (h : n < 2147483648) : toInt n = Int.ofNat n := by
  unfold toInt
  have h1 : n % 4294967296 = n := Nat.mod_eq_of_lt (by omega)
  rw [h1, if_pos h]

theorem fg_get_voltage_exact {σ : Type} (rm : Regmap σ) (fg fg' : Dev σ)
    (reg junk raw : Nat) (hraw : raw < 65536)
    (hread : max77818_fg_read_custom_reg rm fg reg junk = (0, raw, fg')) :
    fg_get_voltage rm fg reg junk = ((0, some (Int.ofNat (raw * 625 / 8))), fg') := by
  have e : fg_get_voltage rm fg reg junk
      = ((0, some (toInt (u32 (raw * 625) / 8))), fg') := by
    unfold fg_get_voltage
    rw [hread]
    rfl
  have hu : u32 (raw * 625) = raw * 625 := by
    unfold u32
    omega
  rw [e, hu, toInt_of_lt _ (by omega)]

theorem fg_get_charge_exact {σ : Type} (rm : Regmap σ) (fg fg' : Dev σ)
    (reg junk raw : Nat) (hraw : raw < 65536)
    (hread : max77818_fg_read_custom_reg rm fg reg junk = (0, raw, fg')) :
    fg_get_charge rm fg reg junk = ((0, some (Int.ofNat (raw * 500))), fg') := by
  have e : fg_get_charge rm fg reg junk
      = ((0, some (toInt (u32 (raw * 500)))), fg') := by
    unfold fg_get_charge
    rw [hread]
    rfl
  have hu : u32 (raw * 500) = raw * 500 := by
    unfold u32
    omega
  rw [e, hu, toInt_of_lt _ (by omega)]

/-- C4: for every 16-bit raw word read successfully, the cell, average and
open-circuit voltage getters store exactly `raw * 625 / 8` (floor) and the
design, full, average and reported capacity getters store exactly `raw * 500`,
as non-negative integers, so nothing wraps at 32 bits. -/
theorem voltage_and_capacity_decode_exact {σ : Type} (rm : Regmap σ) (fg : Dev σ)
    (junk raw : Nat) (hraw : raw < 65536) :
    (∀ fg', max77818_fg_read_custom_reg rm fg REG_Vcell junk = (0, raw, fg') →
      max77818_fg_get_voltage_now rm fg junk
        = ((0, some (Int.ofNat (raw * 625 / 8))), fg')) ∧
    (∀ fg', max77818_fg_read_custom_reg rm fg REG_AvgVCell junk = (0, raw, fg') →
      max77818_fg_get_voltage_avg rm fg junk
        = ((0, some (Int.ofNat (raw * 625 / 8))), fg')) ∧
    (∀ fg', max77818_fg_read_custom_reg rm fg REG_VFOCV junk = (0, raw, fg') →
      max77818_fg_get_voltage_ocv rm fg junk
        = ((0, some (Int.ofNat (raw * 625 / 8))), fg')) ∧
    (∀ fg', max77818_fg_read_custom_reg rm fg REG_DesignCap junk = (0, raw, fg') →
      max77818_fg_get_design_charge rm fg junk
        = ((0, some (Int.ofNat (raw * 500))), fg')) ∧
    (∀ fg', max77818_fg_read_custom_reg rm fg REG_FullCap junk = (0, raw, fg') →
      max77818_fg_get_full_charge rm fg junk
        = ((0, some (Int.ofNat (raw * 500))), fg')) ∧
    (∀ fg', max77818_fg_read_custom_reg rm fg REG_AvCap junk = (0, raw, fg') →
      max77818_fg_get_avg_charge rm fg junk
        = ((0, some (Int.ofNat (raw * 500))), fg')) ∧
    (∀ fg', max77818_fg_read_custom_reg rm fg REG_RepCap junk = (0, raw, fg') →
      max77818_fg_get_charge rm fg junk
        = ((0, some (Int.ofNat (raw * 500))), fg')) ∧
    (0 : Int) ≤ Int.ofNat (raw * 625 / 8) ∧ (0 : Int) ≤ Int.ofNat (raw * 500) :=
  ⟨fun fg' h => fg_get_voltage_exact rm fg fg' REG_Vcell junk raw hraw h,
   fun fg' h => fg_get_voltage_exact rm fg fg' REG_AvgVCell junk raw hraw h,
   fun fg' h => fg_get_voltage_exact rm fg fg' REG_VFOCV junk raw hraw h,
   fun fg' h => fg_get_charge_exact rm fg fg' REG_DesignCap junk raw hraw h,
   fun fg' h => fg_get_charge_exact rm fg fg' REG_FullCap junk raw hraw h,
   fun fg' h => fg_get_charge_exact rm fg fg' REG_AvCap junk raw hraw h,
   fun fg' h => fg_get_charge_exact rm fg fg' REG_RepCap junk raw hraw h,
   Int.ofNat_nonneg _, Int.ofNat_nonneg _⟩

/-- Instance of `voltage_and_capacity_decode_exact` at the raw word 0x0000:
all seven getters store 0. -/
theorem voltage_and_capacity_decode_exact_witness :
    (0 : Nat) < 65536 ∧
    (max77818_fg_get_voltage_now (constRegmap 0) dev0 9).1 = (0, some 0) ∧
    (max77818_fg_get_voltage_avg (constRegmap 0) dev0 9).1 = (0, some 0) ∧
    (max77818_fg_get_voltage_ocv (constRegmap 0) dev0 9).1 = (0, some 0) ∧
    (max77818_fg_get_design_charge (constRegmap 0) dev0 9).1 = (0, some 0) ∧
    (max77818_fg_get_full_charge (constRegmap 0) dev0 9).1 = (0, some 0) ∧
    (max77818_fg_get_avg_charge (constRegmap 0) dev0 9).1 = (0, some 0) ∧
    (max77818_fg_get_charge (constRegmap 0) dev0 9).1 = (0, some 0) :=
  have h := voltage_and_capacity_decode_exact (constRegmap 0) dev0 9 0 (by decide)
  ⟨by decide,
   congrArg Prod.fst (h.1 _ rfl),
   congrArg Prod.fst (h.2.1 _ rfl),
   congrArg Prod.fst (h.2.2.1 _ rfl),
   congrArg Prod.fst (h.2.2.2.1 _ rfl),
   congrArg Prod.fst (h.2.2.2.2.1 _ rfl),
   congrArg Prod.fst (h.2.2.2.2.2.1 _ rfl),
   congrArg Prod.fst (h.2.2.2.2.2.2.1 _ rfl)⟩

/-- C5 (as stated, refuted): the voltage stored for the raw word 0x1000 is not
524288, and 524288 is not the value of `0x1000 * 625 / 8`. -/
theorem voltage_now_0x1000_not_524288 :
    (max77818_fg_get_voltage_now (constRegmap 0x1000) dev0 0).1 ≠ (0, some 524288)
      ∧ 0x1000 * 625 / 8 ≠ 524288 := by
  decide

/-- C5 (amended): whenever the cell-voltage register reads 0x1000, the voltage
getter stores `0x1000 * 625 / 8 = 320000` microvolts. -/
theorem voltage_now_0x1000 {σ : Type} (rm : Regmap σ) (fg fg' : Dev σ) (junk : Nat)
    (hread : max77818_fg_read_custom_reg rm fg REG_Vcell junk = (0, 0x1000, fg')) :
    max77818_fg_get_voltage_now rm fg junk = ((0, some 320000), fg')
      ∧ 0x1000 * 625 / 8 = 320000 :=
  ⟨fg_get_voltage_exact rm fg fg' REG_Vcell junk 0x1000 (by decide) hread, by decide⟩

/-- Instance of `voltage_now_0x1000` on a device whose registers all hold 0x1000. -/
theorem voltage_now_0x1000_witness :
    max77818_fg_get_voltage_now (constRegmap 0x1000) dev0 0
        = ((0, some 320000), { st := (), log := [Access.rd REG_Vcell] })
      ∧ 0x1000 * 625 / 8 = 320000 :=
  voltage_now_0x1000 (constRegmap 0x1000) dev0 _ 0 rfl

/-! ## Temperature -/

theorem ofInt_neg_one : ofInt (-1) = 4294967295 := by decide

theorem ofInt_neg_ten : ofInt (-10) = 4294967286 := by decide

theorem temp_store_eq (raw : Nat) (hraw : raw < 65536) :
    temp_store raw = if raw < 32768 then Int.ofNat (raw * 10 / 256)
      else - Int.ofNat ((65536 - raw) * 10 / 256) := by
  unfold temp_store
  rw [and_0x8000, and_0x7FFF, ofInt_neg_one]
  by_cases h : raw < 32768
  · have hz : ¬ (raw / 32768 % 2 * 32768 ≠ 0) := by omega
    rw [if_neg hz, if_pos h]
    have hu : u32 (raw * 10) = raw * 10 := by
      unfold u32
      omega
    rw [hu, toInt_of_lt _ (by omega)]
  · have hz : raw / 32768 % 2 * 32768 ≠ 0 := by omega
    rw [if_pos hz, if_neg h]
    have hd : u32 (bnot32 raw % 32768 + 1) = 65536 - raw := by
      simp only [bnot32, u32]
      omega
    have hu : u32 ((65536 - raw) * 10) = (65536 - raw) * 10 := by
      unfold u32
      omega
    simp only [hd, hu]
    generalize hm : (65536 - raw) * 10 / 256 = m
    have hmle : m ≤ 1280 := by omega
    simp only [toInt, u32, Int.ofNat_eq_coe]
    split_ifs <;> omega

/-- C6: for every 16-bit raw temperature word read successfully, the getter
stores `raw * 10 / 256` when bit 15 is clear and
`-((((~raw) & 0x7FFF) + 1) * 10 / 256)` when it is set; this is the signed
16-bit reading of the word times 10, divided by 256 with truncation toward zero,
and for every word other than 0x8000 it is the negation of the value stored for
the word's two's complement. -/
theorem temp_decode_signed {σ : Type} (rm rm2 : Regmap σ) (fg fg' fg2 fg2' : Dev σ)
    (junk junk2 raw : Nat) (hraw : raw < 65536)
    (hread : max77818_fg_read_custom_reg rm fg REG_Temp junk = (0, raw, fg'))
    (hread2 : max77818_fg_read_custom_reg rm2 fg2 REG_Temp junk2
      = (0, twosComplement16 raw, fg2')) :
    ∃ v w : Int,
      max77818_fg_get_temp rm fg junk = ((0, some v), fg') ∧
      max77818_fg_get_temp rm2 fg2 junk2 = ((0, some w), fg2') ∧
      (raw &&& 0x8000 = 0 → v = Int.ofNat (raw * 10 / 256)) ∧
      (raw &&& 0x8000 ≠ 0 →
        v = - Int.ofNat (((bnot32 raw &&& 0x7FFF) + 1) * 10 / 256)) ∧
      v = Int.tdiv (signed16 raw * 10) 256 ∧
      (raw ≠ 0x8000 → v = - w) := by
  have e1 : max77818_fg_get_temp rm fg junk = ((0, some (temp_store raw)), fg') := by
    unfold max77818_fg_get_temp
    rw [hread]
    rfl
  have e2 : max77818_fg_get_temp rm2 fg2 junk2
      = ((0, some (temp_store (twosComplement16 raw))), fg2') := by
    unfold max77818_fg_get_temp
    rw [hread2]
    rfl
  have ht : twosComplement16 raw < 65536 := by
    unfold twosComplement16
    omega
  have s1 := temp_store_eq raw hraw
  have s2 := temp_store_eq (twosComplement16 raw) ht
  refine ⟨_, _, e1, e2, ?_, ?_, ?_, ?_⟩
  · intro hb
    rw [and_0x8000] at hb
    rw [s1, if_pos (by omega)]
  · intro hb
    rw [and_0x8000] at hb
    rw [s1, if_neg (by omega), and_0x7FFF]
    have hd : bnot32 raw % 32768 + 1 = 65536 - raw := by
      simp only [bnot32]
      omega
    rw [hd]
  · rw [s1]
    unfold signed16
    have hm : raw % 65536 = raw := Nat.mod_eq_of_lt hraw
    rw [hm]
    by_cases h : raw < 32768
    · rw [if_pos h, if_pos h]
      rfl
    · rw [if_neg h, if_neg h]
      have hs : (Int.ofNat raw - 65536) * 10 = - (Int.ofNat ((65536 - raw) * 10)) := by
        simp only [Int.ofNat_eq_coe]
        omega
      rw [hs, Int.neg_tdiv]
      rfl
  · intro hne
    rw [s1, s2]
    unfold twosComplement16
    have hm : raw % 65536 = raw := Nat.mod_eq_of_lt hraw
    rw [hm]
    by_cases h0 : raw = 0
    · subst h0
      simp
    · by_cases h : raw < 32768
      · have ht2 : (65536 - raw) % 65536 = 65536 - raw := by omega
        rw [ht2, if_pos h, if_neg (by omega)]
        have hr : 65536 - (65536 - raw) = raw := by omega
        rw [hr]
        simp
      · have ht2 : (65536 - raw) % 65536 = 65536 - raw := by omega
        rw [ht2, if_neg h, if_pos (by omega)]

/-- Instance of `temp_decode_signed` at the raw word 0xFF00 (minus one degree),
whose two's complement is 0x0100. -/
theorem temp_decode_signed_witness :
    ∃ v w : Int,
      max77818_fg_get_temp (constRegmap 0xFF00) dev0 0
        = ((0, some v), { st := (), log := [Access.rd REG_Temp] }) ∧
      max77818_fg_get_temp (constRegmap 0x0100) dev0 0
        = ((0, some w), { st := (), log := [Access.rd REG_Temp] }) ∧
      (0xFF00 &&& 0x8000 = 0 → v = Int.ofNat (0xFF00 * 10 / 256)) ∧
      (0xFF00 &&& 0x8000 ≠ 0 →
        v = - Int.ofNat (((bnot32 0xFF00 &&& 0x7FFF) + 1) * 10 / 256)) ∧
      v = Int.tdiv (signed16 0xFF00 * 10) 256 ∧
      (0xFF00 ≠ 0x8000 → v = - w) :=
  temp_decode_signed (constRegmap 0xFF00) (constRegmap 0x0100) dev0 _ dev0 _ 0 0
    0xFF00 (by decide) rfl rfl

theorem maxmin_temp_store_eq (v : Nat) (hv : v < 256) :
    (v &&& 0x80 = 0 → maxmin_temp_store v = Int.ofNat v * 10) ∧
    (v &&& 0x80 ≠ 0 →
      maxmin_temp_store v = -10 * Int.ofNat (bnot32 v &&& 0x7F) + 10) := by
  unfold maxmin_temp_store
  rw [and_0x80, and_0x7F, ofInt_neg_ten]
  constructor
  · intro hb
    have hz : ¬ (v / 128 % 2 * 128 ≠ 0) := by omega
    rw [if_neg hz]
    have hu : u32 (v * 10) = v * 10 := by
      unfold u32
      omega
    rw [hu, toInt_of_lt _ (by omega)]
    simp only [Int.ofNat_eq_coe]
    omega
  · intro hb
    rw [if_pos hb]
    have hk : bnot32 v % 128 = 255 - v := by
      simp only [bnot32]
      omega
    rw [hk]
    generalize hm : 255 - v = k
    have hkle : k ≤ 127 := by omega
    simp only [toInt, u32, Int.ofNat_eq_coe]
    split_ifs <;> omega

/-- C7: for every 16-bit MaxMinTemp word read successfully, the maximum getter
applied to the high byte `v` and the minimum getter applied to the low byte `v`
store `v * 10` when bit 7 of `v` is clear and the integer
`-10 * (~v & 0x7F) + 10` when it is set. -/
theorem maxmin_temp_decode {σ : Type} (rm : Regmap σ) (fg fg' : Dev σ)
    (junk raw : Nat) (hraw : raw < 65536)
    (hread : max77818_fg_read_custom_reg rm fg REG_MaxMinTemp junk = (0, raw, fg')) :
    ∃ vmax vmin : Int,
      max77818_fg_get_max_temp rm fg junk = ((0, some vmax), fg') ∧
      max77818_fg_get_min_temp rm fg junk = ((0, some vmin), fg') ∧
      ((raw >>> 8) &&& 0x80 = 0 → vmax = Int.ofNat (raw >>> 8) * 10) ∧
      ((raw >>> 8) &&& 0x80 ≠ 0 →
        vmax = -10 * Int.ofNat (bnot32 (raw >>> 8) &&& 0x7F) + 10) ∧
      ((raw &&& 0xFF) &&& 0x80 = 0 → vmin = Int.ofNat (raw &&& 0xFF) * 10) ∧
      ((raw &&& 0xFF) &&& 0x80 ≠ 0 →
        vmin = -10 * Int.ofNat (bnot32 (raw &&& 0xFF) &&& 0x7F) + 10) := by
  have e1 : max77818_fg_get_max_temp rm fg junk
      = (((0 : Int), some (maxmin_temp_store (raw >>> 8))), fg') := by
    unfold max77818_fg_get_max_temp
    rw [hread]
    rfl
  have e2 : max77818_fg_get_min_temp rm fg junk
      = (((0 : Int), some (maxmin_temp_store (raw &&& 0xFF))), fg') := by
    unfold max77818_fg_get_min_temp
    rw [hread]
    rfl
  have hhi : raw >>> 8 < 256 := by
    rw [shr_8]
    omega
  have hlo : raw &&& 0xFF < 256 := by
    rw [and_0xFF]
    omega
  have s1 := maxmin_temp_store_eq (raw >>> 8) hhi
  have s2 := maxmin_temp_store_eq (raw &&& 0xFF) hlo
  exact ⟨_, _, e1, e2, s1.1, s1.2, s2.1, s2.2⟩

/-- Instance of `maxmin_temp_decode` at the word 0xF619: high byte 0xF6
(bit 7 set), low byte 0x19 (bit 7 clear). -/
theorem maxmin_temp_decode_witness :
    ∃ vmax vmin : Int,
      max77818_fg_get_max_temp (constRegmap 0xF619) dev0 0
        = ((0, some vmax), { st := (), log := [Access.rd REG_MaxMinTemp] }) ∧
      max77818_fg_get_min_temp (constRegmap 0xF619) dev0 0
        = ((0, some vmin), { st := (), log := [Access.rd REG_MaxMinTemp] }) ∧
      ((0xF619 >>> 8) &&& 0x80 = 0 → vmax = Int.ofNat (0xF619 >>> 8) * 10) ∧
      ((0xF619 >>> 8) &&& 0x80 ≠ 0 →
        vmax = -10 * Int.ofNat (bnot32 (0xF619 >>> 8) &&& 0x7F) + 10) ∧
      ((0xF619 &&& 0xFF) &&& 0x80 = 0 → vmin = Int.ofNat (0xF619 &&& 0xFF) * 10) ∧
      ((0xF619 &&& 0xFF) &&& 0x80 ≠ 0 →
        vmin = -10 * Int.ofNat (bnot32 (0xF619 &&& 0xFF) &&& 0x7F) + 10) :=
  maxmin_temp_decode (constRegmap 0xF619) dev0 _ 0 0xF619 (by decide) rfl

/-! ## Time to empty and time to full -/

theorem ofInt_ofNat (n : Nat) (h : n < 4294967296) : ofInt (Int.ofNat n) = n := by
  unfold ofInt
  simp only [Int.ofNat_eq_coe]
  omega

theorem time_store_eq (raw : Nat) (hraw : raw < 65536) :
    time_store raw = Int.ofNat (((raw >>> 10) &&& 0x3F) * 5760
      + ((raw >>> 4) &&& 0x3F) * 90 + ((raw &&& 0xF) * 5625) / 1000) := by
  unfold time_store
  simp only [and_0xFC00, and_0x03F0, and_0x0F, and_0x3F, shr_10, shr_4]
  have h1 : raw / 1024 % 64 * 1024 / 1024 = raw / 1024 := by omega
  have h1' : raw / 1024 % 64 = raw / 1024 := by omega
  have h2 : raw / 16 % 64 * 16 / 16 = raw / 16 % 64 := by omega
  rw [h1, h1', h2]
  have u1 : u32 (raw / 1024 * 5760) = raw / 1024 * 5760 := by
    unfold u32
    omega
  have u2 : u32 (raw / 16 % 64 * 90) = raw / 16 % 64 * 90 := by
    unfold u32
    omega
  have u3 : u32 (raw % 16 * 5625) = raw % 16 * 5625 := by
    unfold u32
    omega
  have t1 : toInt (raw / 1024 * 5760) = Int.ofNat (raw / 1024 * 5760) :=
    toInt_of_lt _ (by omega)
  have o1 : ofInt (Int.ofNat (raw / 1024 * 5760)) = raw / 1024 * 5760 :=
    ofInt_ofNat _ (by omega)
  have u4 : u32 (raw / 1024 * 5760 + raw / 16 % 64 * 90)
      = raw / 1024 * 5760 + raw / 16 % 64 * 90 := by
    unfold u32
    omega
  have t2 : toInt (raw / 1024 * 5760 + raw / 16 % 64 * 90)
      = Int.ofNat (raw / 1024 * 5760 + raw / 16 % 64 * 90) :=
    toInt_of_lt _ (by omega)
  have o2 : ofInt (Int.ofNat (raw / 1024 * 5760 + raw / 16 % 64 * 90))
      = raw / 1024 * 5760 + raw / 16 % 64 * 90 :=
    ofInt_ofNat _ (by omega)
  have u5 : u32 (raw / 1024 * 5760 + raw / 16 % 64 * 90 + raw % 16 * 5625 / 1000)
      = raw / 1024 * 5760 + raw / 16 % 64 * 90 + raw % 16 * 5625 / 1000 := by
    unfold u32
    omega
  rw [u1, u2, u3, t1, o1, u4, t2, o2, u5, toInt_of_lt _ (by omega)]

/-- C8: for every 16-bit raw word read successfully, the time-to-full and the
time-to-empty getters store the same number of seconds,
`((raw >> 10) & 0x3F) * 5760 + ((raw >> 4) & 0x3F) * 90 + ((raw & 0xF) * 5625) / 1000`;
the word 0x0000 gives 0 and the word 0x0400 gives exactly 5760. -/
theorem time_decode {σ : Type} (rm : Regmap σ) (fg : Dev σ)
    (junk raw : Nat) (hraw : raw < 65536) :
    (∀ fg', max77818_fg_read_custom_reg rm fg REG_TTF junk = (0, raw, fg') →
      max77818_fg_get_time_to_full rm fg junk
        = (((0 : Int), some (Int.ofNat (((raw >>> 10) &&& 0x3F) * 5760
            + ((raw >>> 4) &&& 0x3F) * 90 + ((raw &&& 0xF) * 5625) / 1000))), fg')) ∧
    (∀ fg', max77818_fg_read_custom_reg rm fg REG_TTE junk = (0, raw, fg') →
      max77818_fg_get_time_to_empty rm fg junk
        = (((0 : Int), some (Int.ofNat (((raw >>> 10) &&& 0x3F) * 5760
            + ((raw >>> 4) &&& 0x3F) * 90 + ((raw &&& 0xF) * 5625) / 1000))), fg')) ∧
    (raw = 0x0000 → time_store raw = 0) ∧
    (raw = 0x0400 → time_store raw = 5760) := by
  refine ⟨?_, ?_, ?_, ?_⟩
  · intro fg' hread
    unfold max77818_fg_get_time_to_full
    rw [hread, ← time_store_eq raw hraw]
    rfl
  · intro fg' hread
    unfold max77818_fg_get_time_to_empty
    rw [hread, ← time_store_eq raw hraw]
    rfl
  · intro h
    subst h
    decide
  · intro h
    subst h
    decide

/-- Instance of `time_decode` at the raw word 0x0400 (hours field 1): both
getters store 5760. -/
theorem time_decode_witness :
    (0x0400 : Nat) < 65536 ∧
    (max77818_fg_get_time_to_full (constRegmap 0x0400) dev0 0).1 = (0, some 5760) ∧
    (max77818_fg_get_time_to_empty (constRegmap 0x0400) dev0 0).1 = (0, some 5760) ∧
    time_store 0x0400 = 5760 :=
  have h := time_decode (constRegmap 0x0400) dev0 0 0x0400 (by decide)
  ⟨by decide, congrArg Prod.fst (h.1 _ rfl), congrArg Prod.fst (h.2.1 _ rfl),
    h.2.2.2 rfl⟩

/-! ## Read failures -/

/-- Every getter other than the time-to-empty one hands a failed read's
negative return code to its caller and stores nothing. -/
theorem getters_return_read_error {σ : Type} (rm : Regmap σ) (fg : Dev σ)
    (junk : Nat) (hfail : ∀ reg, (rm.regRead fg.st reg).1 < 0) :
    (max77818_fg_get_capacity_level rm fg junk).1
        = ((rm.regRead fg.st REG_RepSOC).1, none) ∧
    (max77818_fg_get_capacity rm fg junk).1 = ((rm.regRead fg.st REG_RepSOC).1, none) ∧
    (max77818_fg_get_voltage_now rm fg junk).1 = ((rm.regRead fg.st REG_Vcell).1, none) ∧
    (max77818_fg_get_voltage_avg rm fg junk).1
        = ((rm.regRead fg.st REG_AvgVCell).1, none) ∧
    (max77818_fg_get_voltage_ocv rm fg junk).1 = ((rm.regRead fg.st REG_VFOCV).1, none) ∧
    (max77818_fg_get_voltage_max rm fg junk).1
        = ((rm.regRead fg.st REG_MaxMinVolt).1, none) ∧
    (max77818_fg_get_voltage_min rm fg junk).1
        = ((rm.regRead fg.st REG_MaxMinVolt).1, none) ∧
    (max77818_fg_get_current_now rm fg junk).1
        = ((rm.regRead fg.st REG_Current).1, none) ∧
    (max77818_fg_get_current_avg rm fg junk).1
        = ((rm.regRead fg.st REG_AvgCurrent).1, none) ∧
    (max77818_fg_get_design_charge rm fg junk).1
        = ((rm.regRead fg.st REG_DesignCap).1, none) ∧
    (max77818_fg_get_full_charge rm fg junk).1
        = ((rm.regRead fg.st REG_FullCap).1, none) ∧
    (max77818_fg_get_avg_charge rm fg junk).1 = ((rm.regRead fg.st REG_AvCap).1, none) ∧
    (max77818_fg_get_charge rm fg junk).1 = ((rm.regRead fg.st REG_RepCap).1, none) ∧
    (max77818_fg_get_cycle_count rm fg junk).1
        = ((rm.regRead fg.st REG_Cycles).1, none) ∧
    (max77818_fg_get_temp rm fg junk).1 = ((rm.regRead fg.st REG_Temp).1, none) ∧
    (max77818_fg_get_max_temp rm fg junk).1
        = ((rm.regRead fg.st REG_MaxMinTemp).1, none) ∧
    (max77818_fg_get_min_temp rm fg junk).1
        = ((rm.regRead fg.st REG_MaxMinTemp).1, none) ∧
    (max77818_fg_get_time_to_full rm fg junk).1 = ((rm.regRead fg.st REG_TTF).1, none) := by
  simp only [max77818_fg_get_capacity_level, max77818_fg_get_capacity,
    max77818_fg_get_voltage_now, max77818_fg_get_voltage_avg, max77818_fg_get_voltage_ocv,
    fg_get_voltage, max77818_fg_get_voltage_max, max77818_fg_get_voltage_min,
    max77818_fg_get_current_now, max77818_fg_get_current_avg,
    max77818_fg_get_design_charge, max77818_fg_get_full_charge,
    max77818_fg_get_avg_charge, max77818_fg_get_charge, fg_get_charge,
    max77818_fg_get_cycle_count, max77818_fg_get_temp, max77818_fg_get_max_temp,
    max77818_fg_get_min_temp, max77818_fg_get_time_to_full,
    max77818_fg_read_custom_reg, hfail, if_true, and_self]

/-- C9 (the code departs from the claim): when the read of the time-to-empty
register fails with the transport error -5 (`-EIO`), the getter returns 0 and
stores the decode of the indeterminate local (here 0x0400, decoded to 5760),
and so does `get_property`; the time-to-full getter returns the error. -/
theorem time_to_empty_drops_read_error :
    (max77818_fg_read_custom_reg (failRegmap (-5)) dev0 REG_TTE 0x0400).1 = -5
      ∧ (max77818_fg_get_time_to_empty (failRegmap (-5)) dev0 0x0400).1
        = (0, some 5760)
      ∧ (max77818_fg_get_property (failRegmap (-5)) dev0 Psp.TIME_TO_EMPTY_NOW
          (PropVal.intval 77) 0x0400).1 = (0, PropVal.intval 5760)
      ∧ (max77818_fg_get_time_to_full (failRegmap (-5)) dev0 0x0400).1
        = (-5, none) := by
  decide

/-! ## Model table verification -/

theorem write_model_write_loop_ok {σ : Type} (rm : Regmap σ) (model : Nat → Nat)
    (hw : ∀ s reg v, (rm.regWrite s reg v).1 = 0) (n i : Nat) (fg : Dev σ) :
    (write_model_write_loop rm model n i fg).1 = none := by
  induction n generalizing i fg with
  | zero => rfl
  | succ n ih =>
    unfold write_model_write_loop
    simp only [max77818_fg_write_custom_reg, hw, ne_eq, not_true_eq_false, if_false]
    exact ih _ _

theorem write_model_verify_loop_ok {σ : Type} (rm : Regmap σ) (model : Nat → Nat)
    (hr : ∀ s reg, (rm.regRead s reg).1 = 0) (n i data : Nat) (fg : Dev σ) :
    (write_model_verify_loop rm model n i data fg).1.1 = none ∨
      (write_model_verify_loop rm model n i data fg).1.1 = some 0 := by
  induction n generalizing i data fg with
  | zero => exact Or.inl rfl
  | succ n ih =>
    unfold write_model_verify_loop
    simp only [max77818_fg_read_custom_reg, hr, eq_self_iff_true, if_true]
    split_ifs
    · exact Or.inr rfl
    · exact ih _ _ _

theorem write_model_lock_loop_ok {σ : Type} (rm : Regmap σ)
    (hr : ∀ s reg, (rm.regRead s reg).1 = 0) (n i data : Nat) (fg : Dev σ) :
    (write_model_lock_loop rm n i data fg).1.1 = none ∨
      (write_model_lock_loop rm n i data fg).1.1 = some 0 := by
  induction n generalizing i data fg with
  | zero => exact Or.inl rfl
  | succ n ih =>
    unfold write_model_lock_loop
    simp only [max77818_fg_read_custom_reg, hr, eq_self_iff_true, if_true]
    split_ifs
    · exact Or.inr rfl
    · exact ih _ _ _

/-- When every register access succeeds at the transport level,
`max77818_fg_write_model` returns 0 whatever the read-backs are: each of its
return statements hands back the last transport return code. -/
theorem write_model_returns_zero_of_transport_ok {σ : Type} (rm : Regmap σ)
    (fg : Dev σ) (model : Nat → Nat) (junk : Nat)
    (hr : ∀ s reg, (rm.regRead s reg).1 = 0)
    (hw : ∀ s reg v, (rm.regWrite s reg v).1 = 0) :
    (max77818_fg_write_model rm fg model junk).1 = 0 := by
  unfold max77818_fg_write_model
  simp only [max77818_fg_write_custom_reg, hw, ne_eq, not_true_eq_false, if_false]
  split
  · rename_i e he
    have h := write_model_write_loop_ok rm model hw MAX77818_OCV_LENGTH 0
      { st := (rm.regWrite (rm.regWrite fg.st REG_MLOCKReg1 MAX77818_MODEL_UNLOCK1).2
          REG_MLOCKReg2 MAX77818_MODEL_UNLOCK2).2,
        log := fg.log ++ [Access.wr REG_MLOCKReg1 MAX77818_MODEL_UNLOCK1]
          ++ [Access.wr REG_MLOCKReg2 MAX77818_MODEL_UNLOCK2] }
    rw [h] at he
    cases he
  · split
    · rename_i e he
      rcases write_model_verify_loop_ok rm model hr _ _ _ _ with h | h
      · rw [h] at he
        cases he
      · rw [h] at he
        cases he
        rfl
    · split
      · rename_i e he
        rcases write_model_lock_loop_ok rm hr _ _ _ _ with h | h
        · rw [h] at he
          cases he
        · rw [h] at he
          cases he
          rfl
      · rfl

/-- C10 (the code departs from the claim): on a register file where every
access succeeds but table entry 5 does not take the written value, the
read-back of entry 5 differs from the table and `max77818_fg_write_model`
returns 0, after 2 unlock writes, 48 table writes and 6 verification reads. -/
theorem write_model_mismatch_returns_success :
    (max77818_fg_write_model (faultyRamRegmap (REG_OCV + 5)) ram0
        (fun i => 0xA000 + i) 0).1 = 0
      ∧ (max77818_fg_write_model (faultyRamRegmap (REG_OCV + 5)) ram0
        (fun i => 0xA000 + i) 0).2.st (REG_OCV + 5) ≠ 0xA000 + 5
      ∧ (max77818_fg_write_model (faultyRamRegmap (REG_OCV + 5)) ram0
        (fun i => 0xA000 + i) 0).2.log.length = 2 + 48 + 6
      ∧ (max77818_fg_write_model (faultyRamRegmap (REG_OCV + 5)) ram0
        (fun i => 0xA000 + i) 0).2.log.getLast? = some (Access.rd (REG_OCV + 5)) := by
  decide

set_option maxRecDepth 100000 in
/-- C12 (the code departs from the claim): on a register file that keeps the
table after the lock codes are written, the first entry reads back as 0xA000,
not 0, with the read succeeding, and `max77818_fg_write_model` returns 0; its
last access is that read, after 2 unlock writes, 48 table writes, 48
verification reads and the 2 lock writes. -/
theorem write_model_unlocked_table_returns_success :
    (max77818_fg_write_model (faultyRamRegmap 0) ram0 (fun i => 0xA000 + i) 0).1 = 0
      ∧ (max77818_fg_write_model (faultyRamRegmap 0) ram0
        (fun i => 0xA000 + i) 0).2.st REG_OCV = 0xA000
      ∧ (max77818_fg_write_model (faultyRamRegmap 0) ram0
        (fun i => 0xA000 + i) 0).2.log.length = 2 + 48 + 48 + 2 + 1
      ∧ (max77818_fg_write_model (faultyRamRegmap 0) ram0
        (fun i => 0xA000 + i) 0).2.log.drop (2 + 48 + 48)
          = [Access.wr REG_MLOCKReg1 MAX77818_MODEL_LOCK,
             Access.wr REG_MLOCKReg2 MAX77818_MODEL_LOCK, Access.rd REG_OCV] := by
  decide

/-! ## Restore of the learned parameters -/

/-- C13 (the code departs from the claim): on a register file where
`REG_FullCapRep` does not take the written value, the read-back (0) differs
from the word written (0x1234), yet `max77818_fg_restore_learned_params` goes
on to write the following fields (`cycles` up to `dQacc`) and returns 0. -/
theorem restore_goes_on_after_mismatch :
    (max77818_fg_restore_learned_params (faultyRamRegmap REG_FullCapRep) ram0
        learned1 0 650).map
      (fun r => (r.1, r.2.st REG_FullCapRep, r.2.st REG_Cycles, r.2.st REG_dQacc,
        r.2.log.take 5))
      = some (0, 0, 7, 0x0400,
          [Access.wr REG_RComp0 0x0061, Access.wr REG_TempCo 0x1A2B,
           Access.wr REG_FullCapRep 0x1234, Access.rd REG_FullCapRep,
           Access.wr REG_Cycles 7]) := by
  decide

/-! ## Model load handshake -/

set_option maxRecDepth 100000 in
/-- C16 (the code departs from the claim): the loop condition tests bit 0 of
the polled word, not `BIT_LdMdl` (bit 5).  When `REG_Config2` always reads
0x0020 (bit 5 set) the function returns 0 after a single poll; when it always
reads 0x0001 (bit 5 clear) the function polls 650 times and returns `-EIO`. -/
theorem load_model_tests_bit_zero :
    0x0020 &&& BIT_LdMdl ≠ 0
      ∧ max77818_fg_load_model (constRegmap 0x0020) dev0 0 650
        = some (0, { st := (), log := [Access.rd REG_Config2,
            Access.wr REG_Config2 0x0020, Access.rd REG_Config2] })
      ∧ 0x0001 &&& BIT_LdMdl = 0
      ∧ (max77818_fg_load_model (constRegmap 0x0001) dev0 0 650).map
          (fun r => (r.1, r.2.log.length)) = some (- EIO, 2 + 650) := by
  decide

/-! ## Initialisation without power-on reset -/

/-- C17: when the status register reads with `BIT_POR` clear,
`max77818_fg_reg_init` makes exactly one access, the read of `REG_Status`, and
returns 0; and on a transport whose status reads all succeed with `BIT_POR`
clear and do not change the device state, any number of successive calls
returns 0 every time, makes only those reads and leaves the state as it was. -/
theorem reg_init_noop_without_por {σ : Type} (rm : Regmap σ) (fg : Dev σ)
    (pdata : PlatformData) (junk fuel data : Nat) (s' : σ)
    (hread : rm.regRead fg.st REG_Status = (0, data, s'))
    (hpor : data &&& BIT_POR = 0) :
    max77818_fg_reg_init rm fg pdata junk fuel
        = some (0, { st := s', log := fg.log ++ [Access.rd REG_Status] })
      ∧ ((∀ s, ∃ d, rm.regRead s REG_Status = (0, d, s) ∧ d &&& BIT_POR = 0) →
          ∀ n, reg_init_repeat rm pdata junk fuel n fg
            = some (List.replicate n 0,
                { st := fg.st,
                  log := fg.log ++ List.replicate n (Access.rd REG_Status) })) := by
  have single : ∀ (g : Dev σ) (d : Nat) (t : σ),
      rm.regRead g.st REG_Status = (0, d, t) → d &&& BIT_POR = 0 →
      max77818_fg_reg_init rm g pdata junk fuel
        = some (0, { st := t, log := g.log ++ [Access.rd REG_Status] }) := by
    intro g d t h1 h2
    unfold max77818_fg_reg_init
    simp only [max77818_fg_read_custom_reg, h1, h2, lt_self_iff_false, if_false, if_true]
  refine ⟨single fg data s' hread hpor, ?_⟩
  intro hall
  have rep : ∀ (n : Nat) (g : Dev σ), reg_init_repeat rm pdata junk fuel n g
      = some (List.replicate n 0,
          { st := g.st, log := g.log ++ List.replicate n (Access.rd REG_Status) }) := by
    intro n
    induction n with
    | zero =>
      intro g
      simp [reg_init_repeat]
    | succ n ih =>
      intro g
      obtain ⟨d, hd, hp⟩ := hall g.st
      have h1 := single g d g.st hd hp
      have h2 := ih { st := g.st, log := g.log ++ [Access.rd REG_Status] }
      unfold reg_init_repeat
      rw [h1]
      simp only
      rw [h2]
      simp [List.replicate_succ]
  exact fun n => rep n fg

/-- Instance of `reg_init_noop_without_por` on a transport whose registers all
read 0x0004, with three successive calls. -/
theorem reg_init_noop_without_por_witness :
    max77818_fg_reg_init (constRegmap 0x0004) dev0 pdata0 0 650
        = some (0, { st := (), log := [Access.rd REG_Status] })
      ∧ reg_init_repeat (constRegmap 0x0004) pdata0 0 650 3 dev0
        = some ([0, 0, 0], { st := (), log := [Access.rd REG_Status,
            Access.rd REG_Status, Access.rd REG_Status] }) :=
  have h := reg_init_noop_without_por (constRegmap 0x0004) dev0 pdata0 0 650 0x0004 ()
    rfl (by decide)
  ⟨h.1, h.2 (fun s => ⟨0x0004, rfl, by decide⟩) 3⟩

/-! ## Traces of the model write -/

theorem afterAccesses_cons {σ : Type} (rm : Regmap σ) (s : σ) (a : Access)
    (l : List Access) :
    afterAccesses rm s (a :: l) = afterAccesses rm (applyAccess rm s a) l := rfl

theorem afterAccesses_append {σ : Type} (rm : Regmap σ) (s : σ) (l m : List Access) :
    afterAccesses rm s (l ++ m) = afterAccesses rm (afterAccesses rm s l) m := by
  unfold afterAccesses
  rw [List.foldl_append]

theorem write_model_write_loop_run {σ : Type} (rm : Regmap σ) (model : Nat → Nat)
    (hw : ∀ s reg v, (rm.regWrite s reg v).1 = 0) (n i : Nat) (fg : Dev σ) :
    write_model_write_loop rm model n i fg
      = (none, { st := afterAccesses rm fg.st (ocvWrites model n i),
                 log := fg.log ++ ocvWrites model n i }) := by
  induction n generalizing i fg with
  | zero => simp [write_model_write_loop, ocvWrites, afterAccesses]
  | succ n ih =>
    unfold write_model_write_loop
    simp only [max77818_fg_write_custom_reg, hw, ne_eq, not_true_eq_false, if_false]
    rw [ih]
    simp [ocvWrites, afterAccesses_cons, applyAccess]

theorem write_model_verify_loop_stops {σ : Type} (rm : Regmap σ) (model : Nat → Nat)
    (n i data : Nat) (fg : Dev σ) (k : Nat) (hk : k < n)
    (hagree : ∀ j, j < k →
      (rm.regRead (afterAccesses rm fg.st (ocvReads j i)) (REG_OCV + (i + j))).1 = 0 ∧
      (rm.regRead (afterAccesses rm fg.st (ocvReads j i)) (REG_OCV + (i + j))).2.1
        = model (i + j))
    (hdis :
      (rm.regRead (afterAccesses rm fg.st (ocvReads k i)) (REG_OCV + (i + k))).1 = 0 ∧
      (rm.regRead (afterAccesses rm fg.st (ocvReads k i)) (REG_OCV + (i + k))).2.1
        ≠ model (i + k)) :
    (write_model_verify_loop rm model n i data fg).1.1 = some 0 ∧
    (write_model_verify_loop rm model n i data fg).2
      = { st := afterAccesses rm fg.st (ocvReads (k + 1) i),
          log := fg.log ++ ocvReads (k + 1) i } := by
  induction n generalizing i data fg k with
  | zero => omega
  | succ n ih =>
    unfold write_model_verify_loop
    cases k with
    | zero =>
      have h1 := hdis.1
      have h2 := hdis.2
      simp only [ocvReads, afterAccesses, List.foldl, Nat.add_zero] at h1 h2
      simp only [max77818_fg_read_custom_reg, h1, lt_self_iff_false, false_or, if_true,
        h2, ne_eq, not_false_eq_true]
      simp [ocvReads, afterAccesses, applyAccess]
    | succ k =>
      have h0 := hagree 0 (by omega)
      have h1 := h0.1
      have h2 := h0.2
      simp only [ocvReads, afterAccesses, List.foldl, Nat.add_zero] at h1 h2
      simp only [max77818_fg_read_custom_reg, h1, lt_self_iff_false, false_or, if_true,
        h2, ne_eq, not_true_eq_false, if_false]
      have key := ih (i + 1) (model i)
        { st := (rm.regRead fg.st (REG_OCV + i)).2.2,
          log := fg.log ++ [Access.rd (REG_OCV + i)] } k (by omega)
        (by
          intro j hj
          have h := hagree (j + 1) (by omega)
          have e : i + (j + 1) = i + 1 + j := by omega
          rw [e] at h
          simpa [ocvReads, afterAccesses_cons, applyAccess] using h)
        (by
          have h := hdis
          have e : i + (k + 1) = i + 1 + k := by omega
          rw [e] at h
          simpa [ocvReads, afterAccesses_cons, applyAccess] using h)
      refine ⟨key.1, ?_⟩
      rw [key.2]
      simp [ocvReads, afterAccesses_cons, applyAccess]

theorem mem_ocvWrites (model : Nat → Nat) (n i : Nat) (a : Access)
    (h : a ∈ ocvWrites model n i) : ∃ j, a = Access.wr (REG_OCV + j) (model j) := by
  induction n generalizing i with
  | zero => simp [ocvWrites] at h
  | succ n ih =>
    simp only [ocvWrites, List.mem_cons] at h
    rcases h with h | h
    · exact ⟨i, h⟩
    · exact ih (i + 1) h

theorem mem_ocvReads (n i : Nat) (a : Access) (h : a ∈ ocvReads n i) :
    ∃ j, i ≤ j ∧ j < i + n ∧ a = Access.rd (REG_OCV + j) := by
  induction n generalizing i with
  | zero => simp [ocvReads] at h
  | succ n ih =>
    simp only [ocvReads, List.mem_cons] at h
    rcases h with h | h
    · exact ⟨i, by omega, by omega, h⟩
    · obtain ⟨j, h1, h2, h3⟩ := ih (i + 1) h
      exact ⟨j, by omega, by omega, h3⟩

/-- C11: when the unlock and table writes succeed and the verification read of
entry `k` is the first one to give a word that differs from the table, the
accesses of `max77818_fg_write_model` are the two unlock writes, the 48 table
writes and the verification reads of entries 0 to `k`, and nothing else: no
verification read of a later entry and no write of the lock code to either
model-lock register. -/
theorem write_model_stops_at_first_mismatch {σ : Type} (rm : Regmap σ) (fg : Dev σ)
    (model : Nat → Nat) (junk k : Nat) (hk : k < MAX77818_OCV_LENGTH)
    (hw : ∀ s reg v, (rm.regWrite s reg v).1 = 0)
    (hagree : ∀ j, j < k →
      (rm.regRead (afterAccesses rm fg.st (modelWriteAccesses model ++ ocvReads j 0))
        (REG_OCV + j)).1 = 0 ∧
      (rm.regRead (afterAccesses rm fg.st (modelWriteAccesses model ++ ocvReads j 0))
        (REG_OCV + j)).2.1 = model j)
    (hdis :
      (rm.regRead (afterAccesses rm fg.st (modelWriteAccesses model ++ ocvReads k 0))
        (REG_OCV + k)).1 = 0 ∧
      (rm.regRead (afterAccesses rm fg.st (modelWriteAccesses model ++ ocvReads k 0))
        (REG_OCV + k)).2.1 ≠ model k) :
    (max77818_fg_write_model rm fg model junk).2.log
        = fg.log ++ (modelWriteAccesses model ++ ocvReads (k + 1) 0)
      ∧ (∀ j, k < j →
          Access.rd (REG_OCV + j) ∉ modelWriteAccesses model ++ ocvReads (k + 1) 0)
      ∧ Access.wr REG_MLOCKReg1 MAX77818_MODEL_LOCK
          ∉ modelWriteAccesses model ++ ocvReads (k + 1) 0
      ∧ Access.wr REG_MLOCKReg2 MAX77818_MODEL_LOCK
          ∉ modelWriteAccesses model ++ ocvReads (k + 1) 0 := by
  refine ⟨?_, ?_, ?_, ?_⟩
  · have hwl := write_model_write_loop_run rm model hw MAX77818_OCV_LENGTH 0
      { st := (rm.regWrite (rm.regWrite fg.st REG_MLOCKReg1 MAX77818_MODEL_UNLOCK1).2
          REG_MLOCKReg2 MAX77818_MODEL_UNLOCK2).2,
        log := fg.log ++ [Access.wr REG_MLOCKReg1 MAX77818_MODEL_UNLOCK1]
          ++ [Access.wr REG_MLOCKReg2 MAX77818_MODEL_UNLOCK2] }
    have hst : afterAccesses rm
        (rm.regWrite (rm.regWrite fg.st REG_MLOCKReg1 MAX77818_MODEL_UNLOCK1).2
          REG_MLOCKReg2 MAX77818_MODEL_UNLOCK2).2 (ocvWrites model MAX77818_OCV_LENGTH 0)
        = afterAccesses rm fg.st (modelWriteAccesses model) := by
      simp [modelWriteAccesses, afterAccesses_cons, applyAccess]
    have hv := write_model_verify_loop_stops rm model MAX77818_OCV_LENGTH 0 junk
      { st := afterAccesses rm fg.st (modelWriteAccesses model),
        log := fg.log ++ [Access.wr REG_MLOCKReg1 MAX77818_MODEL_UNLOCK1]
          ++ [Access.wr REG_MLOCKReg2 MAX77818_MODEL_UNLOCK2]
          ++ ocvWrites model MAX77818_OCV_LENGTH 0 } k hk
      (by
        intro j hj
        have h := hagree j hj
        rw [afterAccesses_append] at h
        simpa using h)
      (by
        have h := hdis
        rw [afterAccesses_append] at h
        simpa using h)
    unfold max77818_fg_write_model
    simp only [max77818_fg_write_custom_reg, hw, ne_eq, not_true_eq_false, if_false]
    rw [hwl]
    simp only [hst]
    rw [hv.1, hv.2]
    simp [modelWriteAccesses]
  · intro j hj hmem
    rcases List.mem_append.mp hmem with h | h
    · simp only [modelWriteAccesses, List.mem_append, List.mem_cons,
        List.mem_singleton, List.not_mem_nil, or_false] at h
      rcases h with (h | h) | h
      · cases h
      · cases h
      · obtain ⟨t, ht⟩ := mem_ocvWrites model _ _ _ h
        cases ht
    · obtain ⟨t, _, h2, h3⟩ := mem_ocvReads _ _ _ h
      injection h3 with h3
      omega
  · intro hmem
    rcases List.mem_append.mp hmem with h | h
    · simp only [modelWriteAccesses, List.mem_append, List.mem_cons,
        List.mem_singleton, List.not_mem_nil, or_false] at h
      rcases h with (h | h) | h
      · injection h with _ h2
        simp [MAX77818_MODEL_LOCK, MAX77818_MODEL_UNLOCK1] at h2
      · injection h with h1 _
        simp [REG_MLOCKReg1, REG_MLOCKReg2] at h1
      · obtain ⟨t, ht⟩ := mem_ocvWrites model _ _ _ h
        injection ht with h1 _
        simp only [REG_MLOCKReg1, REG_OCV] at h1
        omega
    · obtain ⟨t, _, _, h3⟩ := mem_ocvReads _ _ _ h
      cases h3
  · intro hmem
    rcases List.mem_append.mp hmem with h | h
    · simp only [modelWriteAccesses, List.mem_append, List.mem_cons,
        List.mem_singleton, List.not_mem_nil, or_false] at h
      rcases h with (h | h) | h
      · injection h with h1 _
        simp [REG_MLOCKReg1, REG_MLOCKReg2] at h1
      · injection h with _ h2
        simp [MAX77818_MODEL_LOCK, MAX77818_MODEL_UNLOCK2] at h2
      · obtain ⟨t, ht⟩ := mem_ocvWrites model _ _ _ h
        injection ht with h1 _
        simp only [REG_MLOCKReg2, REG_OCV] at h1
        omega
    · obtain ⟨t, _, _, h3⟩ := mem_ocvReads _ _ _ h
      cases h3

set_option maxRecDepth 100000 in
/-- Instance of `write_model_stops_at_first_mismatch` on a register file whose
table entry 5 does not take the written value: the run ends with the
verification read of entry 5. -/
theorem write_model_stops_at_first_mismatch_witness :
    (max77818_fg_write_model (faultyRamRegmap (REG_OCV + 5)) ram0
        (fun i => 0xA000 + i) 0).2.log
        = ram0.log ++ (modelWriteAccesses (fun i => 0xA000 + i) ++ ocvReads (5 + 1) 0)
      ∧ (∀ j, 5 < j → Access.rd (REG_OCV + j)
          ∉ modelWriteAccesses (fun i => 0xA000 + i) ++ ocvReads (5 + 1) 0)
      ∧ Access.wr REG_MLOCKReg1 MAX77818_MODEL_LOCK
          ∉ modelWriteAccesses (fun i => 0xA000 + i) ++ ocvReads (5 + 1) 0
      ∧ Access.wr REG_MLOCKReg2 MAX77818_MODEL_LOCK
          ∉ modelWriteAccesses (fun i => 0xA000 + i) ++ ocvReads (5 + 1) 0 :=
  write_model_stops_at_first_mismatch (faultyRamRegmap (REG_OCV + 5)) ram0
    (fun i => 0xA000 + i) 0 5 (by decide) (fun _ _ _ => rfl) (by decide) (by decide)

/-! ## Termination of the model load and the restore sequence -/

theorem load_model_mask :
    (if (1 : Nat) <<< FFS BIT_LdMdl ≠ 0 then (1 : Nat) else 0) = 1 := by decide

theorem load_model_poll_terminates {σ : Type} (rm : Regmap σ) (fuel n val : Nat)
    (timeout : Int) (fg : Dev σ) (ht : timeout = 10 * Int.ofNat n) (hn : 0 < n)
    (hf : n ≤ fuel) :
    ∃ r, load_model_poll rm fuel timeout val fg = some r := by
  induction fuel generalizing n val timeout fg with
  | zero => omega
  | succ fuel ih =>
    unfold load_model_poll
    simp only [load_model_mask]
    split_ifs with h1 h2
    · exact ⟨_, rfl⟩
    · have hne : timeout - 10 ≠ 0 := h2.2
      have hn1 : 1 < n := by
        simp only [Int.ofNat_eq_coe] at ht
        omega
      exact ih (n - 1) _ (timeout - 10) _
        (by simp only [Int.ofNat_eq_coe] at ht ⊢; omega) (by omega) (by omega)
    · exact ⟨_, rfl⟩

theorem load_model_terminates {σ : Type} (rm : Regmap σ) (fg : Dev σ)
    (junk fuel : Nat) (hfuel : 650 ≤ fuel) :
    ∃ r, max77818_fg_load_model rm fg junk fuel = some r := by
  unfold max77818_fg_load_model
  simp only
  split_ifs with h
  · exact ⟨_, rfl⟩
  · obtain ⟨q, hq⟩ := load_model_poll_terminates rm fuel 650 junk 6500
      (regmap_write_bits rm fg REG_Config2 BIT_LdMdl (1 <<< FFS BIT_LdMdl)).2
      (by decide) (by decide) hfuel
    rw [hq]
    obtain ⟨⟨o, v, t⟩, d⟩ := q
    cases o with
    | some e => exact ⟨_, rfl⟩
    | none =>
      simp only
      split_ifs
      · exact ⟨_, rfl⟩
      · exact ⟨_, rfl⟩

theorem load_model_tail_eq {σ : Type} (rm : Regmap σ) (fg : Dev σ) (junk fuel : Nat) :
    load_model_tail rm fg junk fuel = max77818_fg_load_model rm fg junk fuel := by
  unfold load_model_tail
  cases h : max77818_fg_load_model rm fg junk fuel with
  | none => rfl
  | some r =>
    simp only
    split_ifs with h0
    · rfl
    · have h1 : r.1 = 0 := not_not.mp h0
      obtain ⟨a, b⟩ := r
      simp only at h1
      subst h1
      rfl

theorem dqacc_conversion (x : Nat) (hx : x < 4294967296) :
    ofInt (toInt (x / 4)) = x / 4 := by
  rw [toInt_of_lt _ (by omega), ofInt_ofNat _ (by omega)]

theorem write_custom_reg_ok {σ : Type} (rm : Regmap σ)
    (hw : ∀ s reg v, (rm.regWrite s reg v).1 = 0) (fg : Dev σ) (reg val : Nat) :
    max77818_fg_write_custom_reg rm fg reg val
      = (0, { st := afterAccesses rm fg.st [Access.wr reg val],
              log := fg.log ++ [Access.wr reg val] }) := by
  simp [max77818_fg_write_custom_reg, hw, afterAccesses, applyAccess]

theorem write_verify_custom_reg_ok {σ : Type} (rm : Regmap σ)
    (hr : ∀ s reg, (rm.regRead s reg).1 = 0)
    (hw : ∀ s reg v, (rm.regWrite s reg v).1 = 0) (fg : Dev σ) (reg val : Nat) :
    max77818_fg_write_verify_custom_reg rm fg reg val
      = (0, { st := afterAccesses rm fg.st (writeVerifyAccesses reg val),
              log := fg.log ++ writeVerifyAccesses reg val }) := by
  simp [max77818_fg_write_verify_custom_reg, regmap_write, regmap_read,
    max77818_fg_write_custom_reg, max77818_fg_read_custom_reg, hr, hw, afterAccesses,
    applyAccess, writeVerifyAccesses]

theorem thenIfOk_zero {σ : Type} (fg : Dev σ) (k : Dev σ → Option (Int × Dev σ)) :
    thenIfOk (0, fg) k = k fg := by
  simp [thenIfOk]

/-- C14: when every register access succeeds, `max77818_fg_restore_learned_params`
makes, in this order and once each, the writes of `rcomp0` and `temp_co`, then
the write and read-back of `full_cap_rep`, `cycles`, the four `qresidual`
words, `cv_mixcap` (to `REG_CV_MixCap`), `cv_halftime`, 0x3200 (to `REG_dPacc`)
and `full_cap_nom / 4` (to `REG_dQacc`), and then runs the model-load handshake
from the state so reached; its result is the result of that handshake. -/
theorem restore_access_sequence {σ : Type} (rm : Regmap σ) (fg : Dev σ)
    (p : LearnedParams) (junk fuel : Nat) (hfuel : 650 ≤ fuel)
    (hnom : p.full_cap_nom < 4294967296)
    (hr : ∀ s reg, (rm.regRead s reg).1 = 0)
    (hw : ∀ s reg v, (rm.regWrite s reg v).1 = 0) :
    ∃ r, max77818_fg_restore_learned_params rm fg p junk fuel = some r ∧
      max77818_fg_load_model rm
        { st := afterAccesses rm fg.st (restoreAccesses p),
          log := fg.log ++ restoreAccesses p } junk fuel = some r := by
  obtain ⟨r, hr'⟩ := load_model_terminates rm
    { st := afterAccesses rm fg.st (restoreAccesses p),
      log := fg.log ++ restoreAccesses p } junk fuel hfuel
  refine ⟨r, ?_, hr'⟩
  rw [← hr', ← load_model_tail_eq]
  unfold max77818_fg_restore_learned_params
  simp only [write_custom_reg_ok rm hw, write_verify_custom_reg_ok rm hr hw,
    thenIfOk_zero, dqacc_conversion _ hnom, ← afterAccesses_append]
  simp only [restoreAccesses, writeVerifyAccesses, List.append_assoc, List.cons_append,
    List.nil_append]

/-- Instance of `restore_access_sequence` on a register file with an all-zero
record: the restore makes its 22 accesses, then the handshake, and returns 0. -/
theorem restore_access_sequence_witness :
    ∃ r, max77818_fg_restore_learned_params (faultyRamRegmap 0) ram0 learned0 0 650
        = some r ∧
      max77818_fg_load_model (faultyRamRegmap 0)
        { st := afterAccesses (faultyRamRegmap 0) ram0.st (restoreAccesses learned0),
          log := ram0.log ++ restoreAccesses learned0 } 0 650 = some r :=
  restore_access_sequence (faultyRamRegmap 0) ram0 learned0 0 650 (by decide)
    (by decide) (fun _ _ => rfl) (fun _ _ _ => rfl)

/-! ## Thermal state machine -/

theorem fg_get_voltage_dev {σ : Type} (rm : Regmap σ) (d : Dev σ) (reg junk : Nat) :
    (fg_get_voltage rm d reg junk).2
      = { st := (rm.regRead d.st reg).2.2, log := d.log ++ [Access.rd reg] } := by
  unfold fg_get_voltage
  simp only [max77818_fg_read_custom_reg]
  split_ifs <;> rfl

theorem get_capacity_dev {σ : Type} (rm : Regmap σ) (d : Dev σ) (junk : Nat) :
    (max77818_fg_get_capacity rm d junk).2
      = { st := (rm.regRead d.st REG_RepSOC).2.2,
          log := d.log ++ [Access.rd REG_RepSOC] } := by
  unfold max77818_fg_get_capacity
  simp only [max77818_fg_read_custom_reg]
  split_ifs <;> rfl

theorem get_temp_dev {σ : Type} (rm : Regmap σ) (d : Dev σ) (junk : Nat) :
    (max77818_fg_get_temp rm d junk).2
      = { st := (rm.regRead d.st REG_Temp).2.2,
          log := d.log ++ [Access.rd REG_Temp] } := by
  unfold max77818_fg_get_temp
  simp only [max77818_fg_read_custom_reg]
  split_ifs <;> rfl

theorem isr_soc_alert_fields {σ : Type} (rm : Regmap σ) (sys : Sys σ)
    (data junk : Nat) :
    (isr_soc_alert rm sys data junk).temp_status = sys.temp_status ∧
    (isr_soc_alert rm sys data junk).published = sys.published ∧
    (isr_soc_alert rm sys data junk).shutdown_timer = sys.shutdown_timer ∧
    (isr_soc_alert rm sys data junk).poweroff = sys.poweroff := by
  unfold isr_soc_alert
  split_ifs <;> exact ⟨rfl, rfl, rfl, rfl⟩

/-- The four fields of the result of `isr_temp_switch` other than the device
view, for each thermal state and each combination of the two alert bits. -/
theorem isr_temp_switch_fields {σ : Type} (rm : Regmap σ) (sys : Sys σ)
    (pdata : PlatformData) (data : Nat) :
    (isr_temp_switch rm sys pdata data).poweroff = sys.poweroff ∧
    (isr_temp_switch rm sys pdata data).published
      = sys.published ++
        (if (isr_temp_switch rm sys pdata data).temp_status = sys.temp_status then []
         else if (isr_temp_switch rm sys pdata data).temp_status
            = TempStatus.MAX77818_TEMP_NORMAL then [5] else [4]) ∧
    ((isr_temp_switch rm sys pdata data).shutdown_timer = sys.shutdown_timer ∨
      (isr_temp_switch rm sys pdata data).shutdown_timer = some 30000) := by
  unfold isr_temp_switch
  cases h : sys.temp_status <;>
    by_cases hn : data &&& BIT_Tmn ≠ 0 <;>
    by_cases hx : data &&& BIT_Tmx ≠ 0 <;>
    simp [h, hn, hx, mod_timer, blocking_notifier_call_chain]

theorem isr_temp_alert_fields {σ : Type} (rm : Regmap σ) (sys : Sys σ)
    (pdata : PlatformData) (data junk : Nat) :
    (isr_temp_alert rm sys pdata data junk).poweroff = sys.poweroff ∧
    (isr_temp_alert rm sys pdata data junk).published
      = sys.published ++
        (if (isr_temp_alert rm sys pdata data junk).temp_status = sys.temp_status then []
         else if (isr_temp_alert rm sys pdata data junk).temp_status
            = TempStatus.MAX77818_TEMP_NORMAL then [5] else [4]) ∧
    ((isr_temp_alert rm sys pdata data junk).shutdown_timer = sys.shutdown_timer ∨
      (isr_temp_alert rm sys pdata data junk).shutdown_timer = some 30000) := by
  by_cases hc : data &&& BIT_Tmx ≠ 0 ∨ data &&& BIT_Tmn ≠ 0
  · have e : isr_temp_alert rm sys pdata data junk
        = isr_temp_switch rm
            { sys with dev := (max77818_fg_get_temp rm sys.dev junk).2 } pdata data := by
      unfold isr_temp_alert
      rw [if_pos hc]
    rw [e]
    exact isr_temp_switch_fields rm
      { sys with dev := (max77818_fg_get_temp rm sys.dev junk).2 } pdata data
  · have e : isr_temp_alert rm sys pdata data junk = sys := by
      unfold isr_temp_alert
      rw [if_neg hc]
    rw [e]
    simp

/-- The result of `max77818_fg_isr` when the status read fails: nothing but the
device view changes and the interrupt is reported as not handled. -/
theorem isr_of_read_failure {σ : Type} (rm : Regmap σ) (sys : Sys σ)
    (pdata : PlatformData) (junk : Nat)
    (h : (rm.regRead sys.dev.st REG_Status).1 ≠ 0) :
    max77818_fg_isr rm sys pdata junk
      = (IrqReturn.IRQ_NONE,
          { sys with dev := { st := (rm.regRead sys.dev.st REG_Status).2.2,
                              log := sys.dev.log ++ [Access.rd REG_Status] } }) := by
  unfold max77818_fg_isr
  simp only [max77818_fg_read_custom_reg, h, ne_eq, not_false_eq_true, if_true]

/-- The state left by `max77818_fg_isr` when the status read gives the word
`data`: that of the two alert blocks, with the device view after the final
write of 0 to the status register. -/
theorem isr_of_status {σ : Type} (rm : Regmap σ) (sys : Sys σ)
    (pdata : PlatformData) (junk data : Nat) (s' : σ)
    (hread : rm.regRead sys.dev.st REG_Status = (0, data, s')) :
    (max77818_fg_isr rm sys pdata junk).2
      = { isr_temp_alert rm (isr_soc_alert rm
            { sys with dev := { st := s', log := sys.dev.log ++ [Access.rd REG_Status] } }
            data junk) pdata data junk with
          dev := (max77818_fg_write_custom_reg rm
            (isr_temp_alert rm (isr_soc_alert rm
              { sys with dev := { st := s', log := sys.dev.log ++ [Access.rd REG_Status] } }
              data junk) pdata data junk).dev REG_Status 0x0000).2 } := by
  unfold max77818_fg_isr
  simp only [max77818_fg_read_custom_reg, hread, ne_eq, not_true_eq_false, if_false,
    if_true]
  split_ifs <;> rfl

/-- The fields of the state left by `max77818_fg_isr` other than the device
view, relative to the state it started from. -/
theorem isr_fields {σ : Type} (rm : Regmap σ) (sys : Sys σ)
    (pdata : PlatformData) (junk : Nat) :
    (max77818_fg_isr rm sys pdata junk).2.poweroff = sys.poweroff ∧
    (max77818_fg_isr rm sys pdata junk).2.published
      = sys.published ++
        (if (max77818_fg_isr rm sys pdata junk).2.temp_status = sys.temp_status then []
         else if (max77818_fg_isr rm sys pdata junk).2.temp_status
            = TempStatus.MAX77818_TEMP_NORMAL then [5] else [4]) ∧
    ((max77818_fg_isr rm sys pdata junk).2.shutdown_timer = sys.shutdown_timer ∨
      (max77818_fg_isr rm sys pdata junk).2.shutdown_timer = some 30000) := by
  by_cases h : (rm.regRead sys.dev.st REG_Status).1 = 0
  · have hread : rm.regRead sys.dev.st REG_Status
        = (0, (rm.regRead sys.dev.st REG_Status).2.1,
            (rm.regRead sys.dev.st REG_Status).2.2) := by
      rw [← h]
    rw [isr_of_status rm sys pdata junk _ _ hread]
    have h1 := isr_soc_alert_fields rm
      { sys with dev := { st := (rm.regRead sys.dev.st REG_Status).2.2,
                          log := sys.dev.log ++ [Access.rd REG_Status] } }
      (rm.regRead sys.dev.st REG_Status).2.1 junk
    have h2 := isr_temp_alert_fields rm (isr_soc_alert rm
      { sys with dev := { st := (rm.regRead sys.dev.st REG_Status).2.2,
                          log := sys.dev.log ++ [Access.rd REG_Status] } }
      (rm.regRead sys.dev.st REG_Status).2.1 junk) pdata
      (rm.regRead sys.dev.st REG_Status).2.1 junk
    simp only [h1.1, h1.2.1, h1.2.2.1, h1.2.2.2] at h2
    exact h2
  · rw [isr_of_read_failure rm sys pdata junk h]
    simp

/-- The result of `isr_temp_switch` when exactly one of the two alert bits is
set, row by row. -/
theorem isr_temp_switch_row {σ : Type} (rm : Regmap σ) (sys : Sys σ)
    (pdata : PlatformData) (data : Nat) (tmn : Bool)
    (hn : data &&& BIT_Tmn ≠ 0 ↔ tmn = true)
    (hx : data &&& BIT_Tmx ≠ 0 ↔ tmn = false) :
    (isr_temp_switch rm sys pdata data).temp_status
        = (thermalTable pdata sys.temp_status tmn).1 ∧
    (isr_temp_switch rm sys pdata data).dev
        = (max77818_fg_write_custom_reg rm sys.dev REG_TAlrtTh
            (thermalTable pdata sys.temp_status tmn).2.1).2 ∧
    (isr_temp_switch rm sys pdata data).shutdown_timer
        = (if (thermalTable pdata sys.temp_status tmn).2.2 = true then some 30000
           else sys.shutdown_timer) := by
  unfold isr_temp_switch
  cases h : sys.temp_status <;> cases tmn <;>
    simp [h, hn, hx, mod_timer, blocking_notifier_call_chain, thermalTable]

theorem isr_soc_alert_dev {σ : Type} (rm : Regmap σ) (sys : Sys σ) (data junk : Nat) :
    (isr_soc_alert rm sys data junk).dev.log
      = sys.dev.log ++ (if data &&& BIT_dSOCi ≠ 0
          then [Access.rd REG_Vcell, Access.rd REG_RepSOC] else []) := by
  unfold isr_soc_alert
  by_cases h : data &&& BIT_dSOCi ≠ 0
  · rw [if_pos h, if_pos h]
    simp [max77818_fg_get_voltage_now, fg_get_voltage_dev, get_capacity_dev]
  · rw [if_neg h, if_neg h]
    simp

/-- The state, the accesses and the timer left by `max77818_fg_isr` for a status
word with exactly one of the two temperature alert bits set. -/
theorem isr_row {σ : Type} (rm : Regmap σ) (sys : Sys σ)
    (pdata : PlatformData) (junk data : Nat) (s' : σ) (tmn : Bool)
    (hread : rm.regRead sys.dev.st REG_Status = (0, data, s'))
    (hn : data &&& BIT_Tmn ≠ 0 ↔ tmn = true)
    (hx : data &&& BIT_Tmx ≠ 0 ↔ tmn = false) :
    (max77818_fg_isr rm sys pdata junk).2.temp_status
        = (thermalTable pdata sys.temp_status tmn).1 ∧
    (max77818_fg_isr rm sys pdata junk).2.dev.log
        = sys.dev.log ++ [Access.rd REG_Status]
          ++ (if data &&& BIT_dSOCi ≠ 0
              then [Access.rd REG_Vcell, Access.rd REG_RepSOC] else [])
          ++ [Access.rd REG_Temp,
              Access.wr REG_TAlrtTh (thermalTable pdata sys.temp_status tmn).2.1,
              Access.wr REG_Status 0x0000] ∧
    (max77818_fg_isr rm sys pdata junk).2.shutdown_timer
        = (if (thermalTable pdata sys.temp_status tmn).2.2 = true then some 30000
           else sys.shutdown_timer) := by
  rw [isr_of_status rm sys pdata junk data s' hread]
  have hc : data &&& BIT_Tmx ≠ 0 ∨ data &&& BIT_Tmn ≠ 0 := by
    cases tmn
    · exact Or.inl (hx.mpr rfl)
    · exact Or.inr (hn.mpr rfl)
  have hsoc := isr_soc_alert_fields rm
    { sys with dev := { st := s', log := sys.dev.log ++ [Access.rd REG_Status] } } data junk
  have hlog := isr_soc_alert_dev rm
    { sys with dev := { st := s', log := sys.dev.log ++ [Access.rd REG_Status] } } data junk
  generalize isr_soc_alert rm
    { sys with dev := { st := s', log := sys.dev.log ++ [Access.rd REG_Status] } }
    data junk = sys1 at hsoc hlog ⊢
  have e : isr_temp_alert rm sys1 pdata data junk
      = isr_temp_switch rm
          { sys1 with dev := (max77818_fg_get_temp rm sys1.dev junk).2 } pdata data := by
    unfold isr_temp_alert
    rw [if_pos hc]
  have row := isr_temp_switch_row rm
    { sys1 with dev := (max77818_fg_get_temp rm sys1.dev junk).2 } pdata data tmn hn hx
  simp only at hsoc hlog row
  rw [e]
  refine ⟨?_, ?_, ?_⟩
  · show (isr_temp_switch rm _ pdata data).temp_status = _
    rw [row.1, hsoc.1]
  · show (max77818_fg_write_custom_reg rm (isr_temp_switch rm _ pdata data).dev
      REG_Status 0x0000).2.log = _
    rw [row.2.1]
    simp only [max77818_fg_write_custom_reg, get_temp_dev, hlog, hsoc.1]
    simp
  · show (isr_temp_switch rm _ pdata data).shutdown_timer = _
    rw [row.2.2, hsoc.1, hsoc.2.2.1]

/-- C18: when the status read gives a word with exactly one of the two
temperature alert bits set, the handler leaves the thermal state given by the
transition table, writes the table's word to the alert threshold register (its
only write besides the final clearing of the status register), and arms the
30 s shutdown timer exactly in the two rows LOW with below-minimum and HIGH with
above-maximum, leaving the timer as it was in the other four. -/
theorem isr_follows_transition_table {σ : Type} (rm : Regmap σ) (sys : Sys σ)
    (pdata : PlatformData) (junk data : Nat) (s' : σ) (tmn : Bool)
    (hread : rm.regRead sys.dev.st REG_Status = (0, data, s'))
    (hn : data &&& BIT_Tmn ≠ 0 ↔ tmn = true)
    (hx : data &&& BIT_Tmx ≠ 0 ↔ tmn = false) :
    (max77818_fg_isr rm sys pdata junk).2.temp_status
        = (thermalTable pdata sys.temp_status tmn).1 ∧
    (max77818_fg_isr rm sys pdata junk).2.dev.log
        = sys.dev.log ++ [Access.rd REG_Status]
          ++ (if data &&& BIT_dSOCi ≠ 0
              then [Access.rd REG_Vcell, Access.rd REG_RepSOC] else [])
          ++ [Access.rd REG_Temp,
              Access.wr REG_TAlrtTh (thermalTable pdata sys.temp_status tmn).2.1,
              Access.wr REG_Status 0x0000] ∧
    (max77818_fg_isr rm sys pdata junk).2.shutdown_timer
        = (if (thermalTable pdata sys.temp_status tmn).2.2 = true then some 30000
           else sys.shutdown_timer) :=
  isr_row rm sys pdata junk data s' tmn hread hn hx

/-- Instance of `isr_follows_transition_table`: in the state NORMAL a status
word with only the above-maximum bit set leads to HIGH with the high threshold
written and the timer left alone. -/
theorem isr_follows_transition_table_witness :
    (max77818_fg_isr (scriptRegmap 7) (sys0 (scriptDev [0x2000])) pdata0 0).2.temp_status
        = (thermalTable pdata0 (sys0 (scriptDev [0x2000])).temp_status false).1 ∧
    (max77818_fg_isr (scriptRegmap 7) (sys0 (scriptDev [0x2000])) pdata0 0).2.dev.log
        = (sys0 (scriptDev [0x2000])).dev.log ++ [Access.rd REG_Status]
          ++ (if 0x2000 &&& BIT_dSOCi ≠ 0
              then [Access.rd REG_Vcell, Access.rd REG_RepSOC] else [])
          ++ [Access.rd REG_Temp,
              Access.wr REG_TAlrtTh
                (thermalTable pdata0 (sys0 (scriptDev [0x2000])).temp_status false).2.1,
              Access.wr REG_Status 0x0000] ∧
    (max77818_fg_isr (scriptRegmap 7) (sys0 (scriptDev [0x2000])) pdata0 0).2.shutdown_timer
        = (if (thermalTable pdata0 (sys0 (scriptDev [0x2000])).temp_status false).2.2 = true
           then some 30000 else (sys0 (scriptDev [0x2000])).shutdown_timer) :=
  isr_follows_transition_table (scriptRegmap 7) (sys0 (scriptDev [0x2000])) pdata0 0
    0x2000 [] false rfl (by decide) (by decide)

/-- C19: one invocation of the interrupt handler publishes exactly one mode
event when it changes the thermal state, with code 5 when the new state is
NORMAL and code 4 when it is LOW or HIGH, and publishes nothing when the state
stays as it was.  So from NORMAL an above-maximum alert publishes 4 once and
leads to HIGH, from HIGH a below-minimum alert publishes 5 once and leads to
NORMAL, and an above-maximum alert in HIGH arms the shutdown timer and
publishes nothing. -/
theorem isr_publishes_on_state_change {σ : Type} (rm : Regmap σ) (sys : Sys σ)
    (pdata : PlatformData) (junk : Nat) :
    (max77818_fg_isr rm sys pdata junk).2.published
        = sys.published ++
          (if (max77818_fg_isr rm sys pdata junk).2.temp_status = sys.temp_status then []
           else if (max77818_fg_isr rm sys pdata junk).2.temp_status
              = TempStatus.MAX77818_TEMP_NORMAL then [5] else [4])
      ∧ (∀ data s', rm.regRead sys.dev.st REG_Status = (0, data, s') →
          sys.temp_status = TempStatus.MAX77818_TEMP_NORMAL →
          data &&& BIT_Tmx ≠ 0 → data &&& BIT_Tmn = 0 →
          (max77818_fg_isr rm sys pdata junk).2.published = sys.published ++ [4] ∧
          (max77818_fg_isr rm sys pdata junk).2.temp_status
            = TempStatus.MAX77818_TEMP_HIGH)
      ∧ (∀ data s', rm.regRead sys.dev.st REG_Status = (0, data, s') →
          sys.temp_status = TempStatus.MAX77818_TEMP_HIGH →
          data &&& BIT_Tmn ≠ 0 → data &&& BIT_Tmx = 0 →
          (max77818_fg_isr rm sys pdata junk).2.published = sys.published ++ [5] ∧
          (max77818_fg_isr rm sys pdata junk).2.temp_status
            = TempStatus.MAX77818_TEMP_NORMAL)
      ∧ (∀ data s', rm.regRead sys.dev.st REG_Status = (0, data, s') →
          sys.temp_status = TempStatus.MAX77818_TEMP_HIGH →
          data &&& BIT_Tmx ≠ 0 → data &&& BIT_Tmn = 0 →
          (max77818_fg_isr rm sys pdata junk).2.published = sys.published ∧
          (max77818_fg_isr rm sys pdata junk).2.shutdown_timer = some 30000 ∧
          (max77818_fg_isr rm sys pdata junk).2.temp_status
            = TempStatus.MAX77818_TEMP_HIGH) := by
  have hf := isr_fields rm sys pdata junk
  refine ⟨hf.2.1, ?_, ?_, ?_⟩
  · intro data s' hread hst hx hn
    have row := isr_row rm sys pdata junk data s' false hread (by simp [hn]) (by simp [hx])
    have ht : (max77818_fg_isr rm sys pdata junk).2.temp_status
        = TempStatus.MAX77818_TEMP_HIGH := by
      rw [row.1, hst]
      rfl
    refine ⟨?_, ht⟩
    rw [hf.2.1, ht, hst]
    rfl
  · intro data s' hread hst hn hx
    have row := isr_row rm sys pdata junk data s' true hread (by simp [hn]) (by simp [hx])
    have ht : (max77818_fg_isr rm sys pdata junk).2.temp_status
        = TempStatus.MAX77818_TEMP_NORMAL := by
      rw [row.1, hst]
      rfl
    refine ⟨?_, ht⟩
    rw [hf.2.1, ht, hst]
    rfl
  · intro data s' hread hst hx hn
    have row := isr_row rm sys pdata junk data s' false hread (by simp [hn]) (by simp [hx])
    have ht : (max77818_fg_isr rm sys pdata junk).2.temp_status
        = TempStatus.MAX77818_TEMP_HIGH := by
      rw [row.1, hst]
      rfl
    refine ⟨?_, ?_, ht⟩
    · rw [hf.2.1, ht, hst]
      simp
    · rw [row.2.2, hst]
      rfl

set_option maxRecDepth 100000 in
/-- C20 (as stated, refuted): from NORMAL, two above-maximum alerts arm the
shutdown timer in HIGH; a following below-minimum alert moves the state to
NORMAL, and after that transition the timer is still pending, so that its
expiry requests the power-off. -/
theorem isr_leaves_timer_pending :
    (isr_run (scriptRegmap 7) pdata0 0 2 (sys0 (scriptDev [0x2000, 0x2000, 0x0200]))).temp_status
        = TempStatus.MAX77818_TEMP_HIGH
      ∧ (isr_run (scriptRegmap 7) pdata0 0 2
          (sys0 (scriptDev [0x2000, 0x2000, 0x0200]))).shutdown_timer = some 30000
      ∧ (isr_run (scriptRegmap 7) pdata0 0 3
          (sys0 (scriptDev [0x2000, 0x2000, 0x0200]))).temp_status
        = TempStatus.MAX77818_TEMP_NORMAL
      ∧ (isr_run (scriptRegmap 7) pdata0 0 3
          (sys0 (scriptDev [0x2000, 0x2000, 0x0200]))).shutdown_timer ≠ none
      ∧ (shutdown_timer_expire (isr_run (scriptRegmap 7) pdata0 0 3
          (sys0 (scriptDev [0x2000, 0x2000, 0x0200])))).poweroff = true := by
  decide

/-- C20 (amended): an interrupt that moves the thermal state from a critical
state to NORMAL (HIGH with below-minimum, or LOW with above-maximum) does not
cancel a pending shutdown timer: after the transition the timer is pending
with the expiry it had, the handler has requested no power-off itself, and the
expiry of the timer requests the power-off. -/
theorem isr_to_normal_keeps_timer {σ : Type} (rm : Regmap σ) (sys : Sys σ)
    (pdata : PlatformData) (junk data d : Nat) (s' : σ) (tmn : Bool)
    (hread : rm.regRead sys.dev.st REG_Status = (0, data, s'))
    (hn : data &&& BIT_Tmn ≠ 0 ↔ tmn = true)
    (hx : data &&& BIT_Tmx ≠ 0 ↔ tmn = false)
    (hcrit : (sys.temp_status = TempStatus.MAX77818_TEMP_HIGH ∧ tmn = true) ∨
      (sys.temp_status = TempStatus.MAX77818_TEMP_LOW ∧ tmn = false))
    (hpend : sys.shutdown_timer = some d) :
    (max77818_fg_isr rm sys pdata junk).2.temp_status = TempStatus.MAX77818_TEMP_NORMAL ∧
    (max77818_fg_isr rm sys pdata junk).2.shutdown_timer = some d ∧
    (max77818_fg_isr rm sys pdata junk).2.poweroff = sys.poweroff ∧
    (shutdown_timer_expire (max77818_fg_isr rm sys pdata junk).2).poweroff = true ∧
    (shutdown_timer_expire (max77818_fg_isr rm sys pdata junk).2).shutdown_timer = none := by
  have hf := isr_fields rm sys pdata junk
  have row := isr_row rm sys pdata junk data s' tmn hread hn hx
  have ht : (max77818_fg_isr rm sys pdata junk).2.temp_status
      = TempStatus.MAX77818_TEMP_NORMAL := by
    rw [row.1]
    rcases hcrit with ⟨h1, h2⟩ | ⟨h1, h2⟩ <;> rw [h1, h2] <;> rfl
  have htm : (max77818_fg_isr rm sys pdata junk).2.shutdown_timer = some d := by
    rw [row.2.2, hpend]
    rcases hcrit with ⟨h1, h2⟩ | ⟨h1, h2⟩ <;> rw [h1, h2] <;> rfl
  refine ⟨ht, htm, hf.1, ?_, ?_⟩
  · unfold shutdown_timer_expire
    rw [htm]
    rfl
  · unfold shutdown_timer_expire
    rw [htm]
    rfl

/-- Instance of `isr_to_normal_keeps_timer`: in HIGH with the timer pending, a
status word with only the below-minimum bit set. -/
theorem isr_to_normal_keeps_timer_witness :
    (max77818_fg_isr (scriptRegmap 7)
        { sys0 (scriptDev [0x0200]) with temp_status := TempStatus.MAX77818_TEMP_HIGH,
                                         shutdown_timer := some 30000 } pdata0 0).2.temp_status
        = TempStatus.MAX77818_TEMP_NORMAL ∧
    (max77818_fg_isr (scriptRegmap 7)
        { sys0 (scriptDev [0x0200]) with temp_status := TempStatus.MAX77818_TEMP_HIGH,
                                         shutdown_timer := some 30000 } pdata0 0).2.shutdown_timer
        = some 30000 ∧
    (max77818_fg_isr (scriptRegmap 7)
        { sys0 (scriptDev [0x0200]) with temp_status := TempStatus.MAX77818_TEMP_HIGH,
                                         shutdown_timer := some 30000 } pdata0 0).2.poweroff
        = false ∧
    (shutdown_timer_expire (max77818_fg_isr (scriptRegmap 7)
        { sys0 (scriptDev [0x0200]) with temp_status := TempStatus.MAX77818_TEMP_HIGH,
                                         shutdown_timer := some 30000 } pdata0 0).2).poweroff
        = true ∧
    (shutdown_timer_expire (max77818_fg_isr (scriptRegmap 7)
        { sys0 (scriptDev [0x0200]) with temp_status := TempStatus.MAX77818_TEMP_HIGH,
                                         shutdown_timer := some 30000 } pdata0 0).2).shutdown_timer
        = none :=
  isr_to_normal_keeps_timer (scriptRegmap 7)
    { sys0 (scriptDev [0x0200]) with temp_status := TempStatus.MAX77818_TEMP_HIGH,
                                     shutdown_timer := some 30000 } pdata0 0 0x0200 30000 []
    true rfl (by decide) (by decide) (Or.inl ⟨rfl, rfl⟩) rfl

/-! ## Transport errors end the protocol functions -/

theorem stops_nil {σ : Type} (rm : Regmap σ) (fg : Dev σ) (ret : Int) :
    StopsAtFirstError rm fg (ret, fg) := by
  refine ⟨[], by simp, rfl, ?_⟩
  intro p a q h _
  simp at h

theorem stops_single {σ : Type} (rm : Regmap σ) (fg : Dev σ) (a : Access) :
    StopsAtFirstError rm fg
      (retOf rm fg.st a, { st := applyAccess rm fg.st a, log := fg.log ++ [a] }) := by
  refine ⟨[a], rfl, rfl, ?_⟩
  intro p b q h hneg
  cases p with
  | nil =>
    simp only [List.nil_append, List.cons.injEq] at h
    obtain ⟨h1, h2⟩ := h
    subst h1
    exact ⟨h2.symm, rfl⟩
  | cons c p =>
    simp only [List.cons_append, List.cons.injEq] at h
    have h2 := h.2
    simp at h2

theorem stops_write {σ : Type} (rm : Regmap σ) (fg : Dev σ) (reg val : Nat) :
    StopsAtFirstError rm fg (max77818_fg_write_custom_reg rm fg reg val) :=
  stops_single rm fg (Access.wr reg val)

theorem stops_read {σ : Type} (rm : Regmap σ) (fg : Dev σ) (reg data : Nat) :
    StopsAtFirstError rm fg
      ((max77818_fg_read_custom_reg rm fg reg data).1,
        (max77818_fg_read_custom_reg rm fg reg data).2.2) :=
  stops_single rm fg (Access.rd reg)

theorem stops_seq {σ : Type} (rm : Regmap σ) (fg : Dev σ) (r1 r2 : Int × Dev σ)
    (h1 : StopsAtFirstError rm fg r1) (hok : 0 ≤ r1.1)
    (h2 : StopsAtFirstError rm r1.2 r2) : StopsAtFirstError rm fg r2 := by
  obtain ⟨l1, hl1, hs1, he1⟩ := h1
  obtain ⟨l2, hl2, hs2, he2⟩ := h2
  refine ⟨l1 ++ l2, ?_, ?_, ?_⟩
  · rw [hl2, hl1, List.append_assoc]
  · rw [hs2, hs1, afterAccesses_append]
  · intro p a q h hneg
    rcases List.append_eq_append_iff.mp h with ⟨a', hp, hl⟩ | ⟨c', hl, hq⟩
    · rw [hp, afterAccesses_append, ← hs1] at hneg
      have := he2 a' a q hl hneg
      rw [hp, afterAccesses_append, ← hs1]
      exact this
    · cases c' with
      | nil =>
        simp only [List.nil_append] at hq
        simp only [List.append_nil] at hl
        rw [← hl, ← hs1] at hneg
        have := he2 [] a q (by simpa using hq.symm) (by simpa [afterAccesses] using hneg)
        rw [← hl, ← hs1]
        simpa [afterAccesses] using this
      | cons c c' =>
        simp only [List.cons_append, List.cons.injEq] at hq
        obtain ⟨hac, hq⟩ := hq
        subst hac
        have := he1 p a c' hl hneg
        omega

theorem stops_ret {σ : Type} (rm : Regmap σ) (fg d : Dev σ) (a b : Int)
    (h : StopsAtFirstError rm fg (a, d)) (hok : 0 ≤ a) :
    StopsAtFirstError rm fg (b, d) := by
  obtain ⟨l, hl, hs, he⟩ := h
  refine ⟨l, hl, hs, ?_⟩
  intro p x q hpx hneg
  have := he p x q hpx hneg
  simp only at this
  omega

theorem stops_write_verify {σ : Type} (rm : Regmap σ) (fg : Dev σ) (reg val : Nat) :
    StopsAtFirstError rm fg (max77818_fg_write_verify_custom_reg rm fg reg val) := by
  unfold max77818_fg_write_verify_custom_reg regmap_write regmap_read
  simp only
  split_ifs with h1 h2
  · exact stops_write rm fg reg val
  · exact stops_seq rm fg _ _ (stops_write rm fg reg val)
      (by have := not_not.mp h1; omega) (stops_read rm _ reg 0)
  · exact stops_seq rm fg _ _ (stops_write rm fg reg val)
      (by have := not_not.mp h1; omega) (stops_read rm _ reg 0)

theorem stops_update_bits {σ : Type} (rm : Regmap σ) (fg : Dev σ)
    (reg mask val : Nat) (force : Bool) :
    StopsAtFirstError rm fg (regmap_update_bits_base rm fg reg mask val force) := by
  unfold regmap_update_bits_base regmap_write regmap_read
  simp only
  split_ifs with h1 h2
  · exact stops_read rm fg reg 0
  · exact stops_seq rm fg _ _ (stops_read rm fg reg 0)
      (by have := not_not.mp h1; simp only at this ⊢; omega) (stops_write rm _ reg _)
  · exact stops_ret rm fg _ _ 0 (stops_read rm fg reg 0)
      (by have := not_not.mp h1; omega)

theorem stops_load_model_poll {σ : Type} (rm : Regmap σ) (fuel : Nat) (timeout : Int)
    (val : Nat) (fg : Dev σ) (res : (Option Int × Nat × Int) × Dev σ)
    (h : load_model_poll rm fuel timeout val fg = some res) :
    StopsAtFirstError rm fg (res.1.1.getD 0, res.2) ∧ (res.1.1 = none ∨ ∃ e, res.1.1 = some e ∧ e < 0) := by
  induction fuel generalizing timeout val fg with
  | zero => simp [load_model_poll] at h
  | succ fuel ih =>
    unfold load_model_poll at h
    simp only [load_model_mask] at h
    split_ifs at h with h1 h2
    · cases h
      exact ⟨stops_read rm fg REG_Config2 val, Or.inr ⟨_, rfl, h1⟩⟩
    · have key := ih _ _ _ h
      exact ⟨stops_seq rm fg _ _ (stops_read rm fg REG_Config2 val) (by simp only; omega)
        key.1, key.2⟩
    · cases h
      exact ⟨stops_ret rm fg _ _ 0 (stops_read rm fg REG_Config2 val) (by omega),
        Or.inl rfl⟩

theorem returns_load_model {σ : Type} (rm : Regmap σ) (fg : Dev σ) (junk fuel : Nat)
    (hfuel : 650 ≤ fuel) :
    ReturnsStopped rm fg (max77818_fg_load_model rm fg junk fuel) := by
  obtain ⟨r, hr⟩ := load_model_terminates rm fg junk fuel hfuel
  refine ⟨r, hr, ?_⟩
  unfold max77818_fg_load_model regmap_write_bits at hr
  simp only at hr
  have hub := stops_update_bits rm fg REG_Config2 BIT_LdMdl (1 <<< FFS BIT_LdMdl) true
  split_ifs at hr with h0
  · cases hr
    exact hub
  · have hz : 0 ≤ (regmap_update_bits_base rm fg REG_Config2 BIT_LdMdl
        (1 <<< FFS BIT_LdMdl) true).1 := by
      have := not_not.mp h0
      omega
    cases hp : load_model_poll rm fuel 6500 junk
        (regmap_update_bits_base rm fg REG_Config2 BIT_LdMdl
          (1 <<< FFS BIT_LdMdl) true).2 with
    | none =>
      rw [hp] at hr
      cases hr
    | some q =>
      rw [hp] at hr
      have key := stops_load_model_poll rm _ _ _ _ q hp
      obtain ⟨⟨o, v, t⟩, d⟩ := q
      cases o with
      | some e =>
        simp only at hr
        cases hr
        exact stops_seq rm fg _ _ hub hz key.1
      | none =>
        simp only at hr
        have k1 : StopsAtFirstError rm
            (regmap_update_bits_base rm fg REG_Config2 BIT_LdMdl
              (1 <<< FFS BIT_LdMdl) true).2 (0, d) := key.1
        split_ifs at hr
        · cases hr
          exact stops_seq rm fg _ _ hub hz (stops_ret rm _ _ 0 _ k1 (by omega))
        · cases hr
          exact stops_seq rm fg _ _ hub hz k1

theorem returns_load_model_tail {σ : Type} (rm : Regmap σ) (fg : Dev σ)
    (junk fuel : Nat) (hfuel : 650 ≤ fuel) :
    ReturnsStopped rm fg (load_model_tail rm fg junk fuel) := by
  rw [load_model_tail_eq]
  exact returns_load_model rm fg junk fuel hfuel

theorem returns_seq {σ : Type} (rm : Regmap σ) (fg : Dev σ) (r1 : Int × Dev σ)
    (o : Option (Int × Dev σ)) (h1 : StopsAtFirstError rm fg r1) (hok : 0 ≤ r1.1)
    (h2 : ReturnsStopped rm r1.2 o) : ReturnsStopped rm fg o := by
  obtain ⟨r, hr, hs⟩ := h2
  exact ⟨r, hr, stops_seq rm fg r1 r h1 hok hs⟩

theorem returns_thenIfOk {σ : Type} (rm : Regmap σ) (fg : Dev σ) (step : Int × Dev σ)
    (k : Dev σ → Option (Int × Dev σ)) (h1 : StopsAtFirstError rm fg step)
    (h2 : ∀ fg1, ReturnsStopped rm fg1 (k fg1)) :
    ReturnsStopped rm fg (thenIfOk step k) := by
  unfold thenIfOk
  split_ifs with h
  · exact ⟨step, rfl, h1⟩
  · exact returns_seq rm fg step _ h1 (by have := not_not.mp h; omega) (h2 step.2)

theorem returns_then_write {σ : Type} (rm : Regmap σ) (fg : Dev σ) (reg val : Nat)
    (k : Dev σ → Option (Int × Dev σ)) (h2 : ∀ fg1, ReturnsStopped rm fg1 (k fg1)) :
    ReturnsStopped rm fg (thenIfOk (max77818_fg_write_custom_reg rm fg reg val) k) :=
  returns_thenIfOk rm fg _ k (stops_write rm fg reg val) h2

theorem returns_then_write_verify {σ : Type} (rm : Regmap σ) (fg : Dev σ)
    (reg val : Nat) (k : Dev σ → Option (Int × Dev σ))
    (h2 : ∀ fg1, ReturnsStopped rm fg1 (k fg1)) :
    ReturnsStopped rm fg
      (thenIfOk (max77818_fg_write_verify_custom_reg rm fg reg val) k) :=
  returns_thenIfOk rm fg _ k (stops_write_verify rm fg reg val) h2

theorem returns_restore {σ : Type} (rm : Regmap σ) (fg : Dev σ) (p : LearnedParams)
    (junk fuel : Nat) (hfuel : 650 ≤ fuel) :
    ReturnsStopped rm fg (max77818_fg_restore_learned_params rm fg p junk fuel) := by
  unfold max77818_fg_restore_learned_params
  repeat' first
    | exact returns_load_model_tail rm _ junk fuel hfuel
    | (apply returns_then_write; intro _)
    | (apply returns_then_write_verify; intro _)

theorem stops_write_model_write_loop {σ : Type} (rm : Regmap σ) (model : Nat → Nat)
    (n i : Nat) (fg : Dev σ) :
    StopsAtFirstError rm fg
      ((write_model_write_loop rm model n i fg).1.getD 0,
        (write_model_write_loop rm model n i fg).2) := by
  induction n generalizing i fg with
  | zero => exact stops_nil rm fg 0
  | succ n ih =>
    unfold write_model_write_loop
    simp only
    split_ifs with h
    · exact stops_write rm fg _ _
    · exact stops_seq rm fg _ _ (stops_write rm fg (REG_OCV + i) (model i))
        (by have := not_not.mp h; omega) (ih _ _)

theorem stops_write_model_verify_loop {σ : Type} (rm : Regmap σ) (model : Nat → Nat)
    (n i data : Nat) (fg : Dev σ) :
    StopsAtFirstError rm fg
      ((write_model_verify_loop rm model n i data fg).1.1.getD 0,
        (write_model_verify_loop rm model n i data fg).2) := by
  induction n generalizing i data fg with
  | zero => exact stops_nil rm fg 0
  | succ n ih =>
    unfold write_model_verify_loop
    simp only
    split_ifs with h
    · exact stops_read rm fg _ _
    · exact stops_seq rm fg _ _ (stops_read rm fg (REG_OCV + i) data)
        (by simp only; have := not_or.mp h; omega) (ih _ _ _)

theorem stops_write_model_lock_loop {σ : Type} (rm : Regmap σ)
    (n i data : Nat) (fg : Dev σ) :
    StopsAtFirstError rm fg
      ((write_model_lock_loop rm n i data fg).1.1.getD 0,
        (write_model_lock_loop rm n i data fg).2) := by
  induction n generalizing i data fg with
  | zero => exact stops_nil rm fg 0
  | succ n ih =>
    unfold write_model_lock_loop
    simp only
    split_ifs with h
    · exact stops_read rm fg _ _
    · exact stops_seq rm fg _ _ (stops_read rm fg (REG_OCV + i) data)
        (by simp only; have := not_not.mp (not_or.mp h).1; omega) (ih _ _ _)

theorem stops_write_model_lock_loop_some {σ : Type} (rm : Regmap σ)
    (n i data : Nat) (fg : Dev σ) (e : Int)
    (h : (write_model_lock_loop rm n i data fg).1.1 = some e) :
    StopsAtFirstError rm fg (e, (write_model_lock_loop rm n i data fg).2) := by
  have key := stops_write_model_lock_loop rm n i data fg
  rw [h] at key
  exact key

theorem stops_write_model_lock_loop_none {σ : Type} (rm : Regmap σ)
    (n i data : Nat) (fg : Dev σ)
    (h : (write_model_lock_loop rm n i data fg).1.1 = none) :
    StopsAtFirstError rm fg (0, (write_model_lock_loop rm n i data fg).2) := by
  have key := stops_write_model_lock_loop rm n i data fg
  rw [h] at key
  exact key

theorem stops_write_model {σ : Type} (rm : Regmap σ) (fg : Dev σ) (model : Nat → Nat)
    (junk : Nat) :
    StopsAtFirstError rm fg (max77818_fg_write_model rm fg model junk) := by
  unfold max77818_fg_write_model
  simp only
  have s1 := stops_write rm fg REG_MLOCKReg1 MAX77818_MODEL_UNLOCK1
  split
  · exact s1
  · rename_i h1
    have z1 : 0 ≤ (max77818_fg_write_custom_reg rm fg REG_MLOCKReg1
        MAX77818_MODEL_UNLOCK1).1 := by have := not_not.mp h1; omega
    have s2 := stops_seq rm fg _ _ s1 z1 (stops_write rm _ REG_MLOCKReg2
      MAX77818_MODEL_UNLOCK2)
    split
    · exact s2
    · rename_i h2
      have z2 : 0 ≤ (max77818_fg_write_custom_reg rm
          (max77818_fg_write_custom_reg rm fg REG_MLOCKReg1 MAX77818_MODEL_UNLOCK1).2
          REG_MLOCKReg2 MAX77818_MODEL_UNLOCK2).1 := by have := not_not.mp h2; omega
      have s3 := stops_seq rm fg _ _ s2 z2
        (stops_write_model_write_loop rm model MAX77818_OCV_LENGTH 0 _)
      split
      · rename_i e he
        rw [he] at s3
        exact s3
      · rename_i he
        rw [he] at s3
        have s4 := stops_seq rm fg _ _ s3 (le_refl 0)
          (stops_write_model_verify_loop rm model MAX77818_OCV_LENGTH 0 junk _)
        split
        · rename_i e he2
          simp only at s4
          rw [he2] at s4
          exact s4
        · rename_i he2
          simp only at s4
          rw [he2] at s4
          have s5 := stops_seq rm fg _ _ s4 (le_refl 0)
            (stops_write rm _ REG_MLOCKReg1 MAX77818_MODEL_LOCK)
          simp only at s5
          split
          · exact s5
          · rename_i h5
            have s6 := stops_seq rm fg _ _ s5 (by have := not_not.mp h5; omega)
              (stops_write rm _ REG_MLOCKReg2 MAX77818_MODEL_LOCK)
            split
            · exact s6
            · rename_i h6
              have z6 : 0 ≤ (max77818_fg_write_custom_reg rm
                  (max77818_fg_write_custom_reg rm
                    (write_model_verify_loop rm model MAX77818_OCV_LENGTH 0 junk
                      (write_model_write_loop rm model MAX77818_OCV_LENGTH 0
                        (max77818_fg_write_custom_reg rm
                          (max77818_fg_write_custom_reg rm fg REG_MLOCKReg1
                            MAX77818_MODEL_UNLOCK1).2 REG_MLOCKReg2
                          MAX77818_MODEL_UNLOCK2).2).2).2
                    REG_MLOCKReg1 MAX77818_MODEL_LOCK).2
                  REG_MLOCKReg2 MAX77818_MODEL_LOCK).1 := by
                have := not_not.mp h6
                omega
              split
              · rename_i e he3
                exact stops_seq rm fg _ _ s6 z6
                  (stops_write_model_lock_loop_some rm _ _ _ _ e he3)
              · rename_i he3
                exact stops_seq rm fg _ _ s6 z6
                  (stops_write_model_lock_loop_none rm _ _ _ _ he3)

theorem returns_reg_init_tail {σ : Type} (rm : Regmap σ) (fg : Dev σ)
    (pdata : PlatformData) (junk fuel : Nat) (hfuel : 650 ≤ fuel) :
    ReturnsStopped rm fg (reg_init_tail rm fg pdata junk fuel) := by
  unfold reg_init_tail
  repeat' first
    | exact returns_load_model_tail rm _ junk fuel hfuel
    | (apply returns_then_write; intro _)

theorem returns_reg_init {σ : Type} (rm : Regmap σ) (fg : Dev σ)
    (pdata : PlatformData) (junk fuel : Nat) (hfuel : 650 ≤ fuel) :
    ReturnsStopped rm fg (max77818_fg_reg_init rm fg pdata junk fuel) := by
  unfold max77818_fg_reg_init
  simp only
  have s0 := stops_read rm fg REG_Status junk
  split
  · exact ⟨_, rfl, s0⟩
  · rename_i h1
    split
    · exact ⟨_, rfl, stops_ret rm fg _ _ 0 s0 (by omega)⟩
    · apply returns_seq rm fg _ _ s0 (by simp only; omega)
      apply returns_thenIfOk rm _ _ _ (stops_write_model rm _ _ _)
      intro _
      apply returns_then_write
      intro _
      apply returns_thenIfOk rm _ _ _ (stops_read rm _ REG_VFSOC pdata.vfsoc0)
      intro _
      repeat' first
        | exact returns_reg_init_tail rm _ pdata junk fuel hfuel
        | (apply returns_then_write; intro _)
        | (apply returns_then_write_verify; intro _)
        | split

/-- C15: in `max77818_fg_write_model`, `max77818_fg_restore_learned_params` and
`max77818_fg_reg_init` (the last two return once the poll bound is at least 650),
a register read or write that gets a negative return code from the transport is
the last access the function makes, and its return code is the value the
function returns. -/
theorem protocol_functions_stop_at_first_error {σ : Type} (rm : Regmap σ) (fg : Dev σ)
    (model : Nat → Nat) (p : LearnedParams) (pdata : PlatformData) (junk fuel : Nat)
    (hfuel : 650 ≤ fuel) :
    StopsAtFirstError rm fg (max77818_fg_write_model rm fg model junk) ∧
    ReturnsStopped rm fg (max77818_fg_restore_learned_params rm fg p junk fuel) ∧
    ReturnsStopped rm fg (max77818_fg_reg_init rm fg pdata junk fuel) :=
  ⟨stops_write_model rm fg model junk, returns_restore rm fg p junk fuel hfuel,
    returns_reg_init rm fg pdata junk fuel hfuel⟩

/-- Instance of `protocol_functions_stop_at_first_error` on a transport whose
every access fails with -5: each of the three functions returns -5 after its
first access. -/
theorem protocol_functions_stop_at_first_error_witness :
    (StopsAtFirstError (failRegmap (-5)) dev0
        (max77818_fg_write_model (failRegmap (-5)) dev0 pdata0.battery_ocv_model 0) ∧
      ReturnsStopped (failRegmap (-5)) dev0
        (max77818_fg_restore_learned_params (failRegmap (-5)) dev0 learned1 0 650) ∧
      ReturnsStopped (failRegmap (-5)) dev0
        (max77818_fg_reg_init (failRegmap (-5)) dev0 pdata0 0 650))
      ∧ max77818_fg_write_model (failRegmap (-5)) dev0 pdata0.battery_ocv_model 0
        = (-5, { st := (), log := [Access.wr REG_MLOCKReg1 MAX77818_MODEL_UNLOCK1] })
      ∧ max77818_fg_restore_learned_params (failRegmap (-5)) dev0 learned1 0 650
        = some (-5, { st := (), log := [Access.wr REG_RComp0 0x0061] })
      ∧ max77818_fg_reg_init (failRegmap (-5)) dev0 pdata0 0 650
        = some (-5, { st := (), log := [Access.rd REG_Status] }) :=
  ⟨protocol_functions_stop_at_first_error (failRegmap (-5)) dev0 pdata0.battery_ocv_model
      learned1 pdata0 0 650 (by decide),
    by decide, by decide, by decide⟩

/-! ## Status clearing and failed status reads -/

/-- C22: when the status read at the start of the handler fails, the handler
reports the interrupt as not handled; its only access is that read, and the
thermal state, the published codes and the shutdown timer are as before. -/
theorem isr_status_read_failure {σ : Type} (rm : Regmap σ) (sys : Sys σ)
    (pdata : PlatformData) (junk : Nat)
    (hfail : (rm.regRead sys.dev.st REG_Status).1 ≠ 0) :
    (max77818_fg_isr rm sys pdata junk).1 = IrqReturn.IRQ_NONE ∧
    (max77818_fg_isr rm sys pdata junk).2.temp_status = sys.temp_status ∧
    (max77818_fg_isr rm sys pdata junk).2.dev.log
      = sys.dev.log ++ [Access.rd REG_Status] ∧
    (max77818_fg_isr rm sys pdata junk).2.published = sys.published ∧
    (max77818_fg_isr rm sys pdata junk).2.shutdown_timer = sys.shutdown_timer ∧
    (max77818_fg_isr rm sys pdata junk).2.poweroff = sys.poweroff := by
  rw [isr_of_read_failure rm sys pdata junk hfail]
  exact ⟨rfl, rfl, rfl, rfl, rfl, rfl⟩

/-- Instance of `isr_status_read_failure` on a transport whose every access
fails with -5, in the state HIGH with the timer not pending. -/
theorem isr_status_read_failure_witness :
    (max77818_fg_isr (failRegmap (-5))
        { sys0 dev0 with temp_status := TempStatus.MAX77818_TEMP_HIGH } pdata0 0).1
      = IrqReturn.IRQ_NONE ∧
    (max77818_fg_isr (failRegmap (-5))
        { sys0 dev0 with temp_status := TempStatus.MAX77818_TEMP_HIGH } pdata0 0).2.temp_status
      = TempStatus.MAX77818_TEMP_HIGH ∧
    (max77818_fg_isr (failRegmap (-5))
        { sys0 dev0 with temp_status := TempStatus.MAX77818_TEMP_HIGH } pdata0 0).2.dev.log
      = [] ++ [Access.rd REG_Status] ∧
    (max77818_fg_isr (failRegmap (-5))
        { sys0 dev0 with temp_status := TempStatus.MAX77818_TEMP_HIGH } pdata0 0).2.published
      = [] ∧
    (max77818_fg_isr (failRegmap (-5))
        { sys0 dev0 with temp_status := TempStatus.MAX77818_TEMP_HIGH } pdata0 0).2.shutdown_timer
      = none ∧
    (max77818_fg_isr (failRegmap (-5))
        { sys0 dev0 with temp_status := TempStatus.MAX77818_TEMP_HIGH } pdata0 0).2.poweroff
      = false :=
  isr_status_read_failure (failRegmap (-5))
    { sys0 dev0 with temp_status := TempStatus.MAX77818_TEMP_HIGH } pdata0 0 (by decide)

theorem devTrace_refl {σ : Type} (rm : Regmap σ) (d : Dev σ) : DevTrace rm d d [] :=
  ⟨by simp, rfl⟩

theorem devTrace_trans {σ : Type} (rm : Regmap σ) (d1 d2 d3 : Dev σ) (l m : List Access)
    (h1 : DevTrace rm d1 d2 l) (h2 : DevTrace rm d2 d3 m) : DevTrace rm d1 d3 (l ++ m) := by
  refine ⟨?_, ?_⟩
  · rw [h2.1, h1.1, List.append_assoc]
  · rw [h2.2, h1.2, afterAccesses_append]

theorem isr_soc_alert_trace {σ : Type} (rm : Regmap σ) (sys : Sys σ) (data junk : Nat) :
    ∃ l, DevTrace rm sys.dev (isr_soc_alert rm sys data junk).dev l ∧
      ∀ a ∈ l, ∃ reg, a = Access.rd reg := by
  unfold isr_soc_alert
  by_cases h : data &&& BIT_dSOCi ≠ 0
  · rw [if_pos h]
    refine ⟨[Access.rd REG_Vcell, Access.rd REG_RepSOC], ⟨?_, ?_⟩, ?_⟩
    · simp [max77818_fg_get_voltage_now, fg_get_voltage_dev, get_capacity_dev]
    · simp [max77818_fg_get_voltage_now, fg_get_voltage_dev, get_capacity_dev,
        afterAccesses, applyAccess]
    · intro a ha
      simp only [List.mem_cons, List.mem_singleton, List.not_mem_nil, or_false] at ha
      rcases ha with h1 | h1
      · exact ⟨_, h1⟩
      · exact ⟨_, h1⟩
  · rw [if_neg h]
    exact ⟨[], devTrace_refl rm _, by simp⟩

theorem isr_temp_switch_dev {σ : Type} (rm : Regmap σ) (sys : Sys σ)
    (pdata : PlatformData) (data : Nat) :
    (isr_temp_switch rm sys pdata data).dev = sys.dev ∨
    ∃ v, (isr_temp_switch rm sys pdata data).dev
      = (max77818_fg_write_custom_reg rm sys.dev REG_TAlrtTh v).2 := by
  unfold isr_temp_switch
  cases h : sys.temp_status <;>
    by_cases hn : data &&& BIT_Tmn ≠ 0 <;>
    by_cases hx : data &&& BIT_Tmx ≠ 0 <;>
    simp [h, hn, hx, mod_timer, blocking_notifier_call_chain] <;>
    exact Or.inr ⟨_, rfl⟩

theorem isr_temp_alert_trace {σ : Type} (rm : Regmap σ) (sys : Sys σ)
    (pdata : PlatformData) (data junk : Nat) :
    ∃ l, DevTrace rm sys.dev (isr_temp_alert rm sys pdata data junk).dev l ∧
      ∀ a ∈ l, (∃ reg, a = Access.rd reg) ∨ ∃ v, a = Access.wr REG_TAlrtTh v := by
  unfold isr_temp_alert
  by_cases hc : data &&& BIT_Tmx ≠ 0 ∨ data &&& BIT_Tmn ≠ 0
  · rw [if_pos hc]
    rcases isr_temp_switch_dev rm
      { sys with dev := (max77818_fg_get_temp rm sys.dev junk).2 } pdata data with h | ⟨v, h⟩
    · rw [h]
      refine ⟨[Access.rd REG_Temp], ⟨?_, ?_⟩, ?_⟩
      · simp [get_temp_dev]
      · simp [get_temp_dev, afterAccesses, applyAccess]
      · intro a ha
        simp only [List.mem_singleton] at ha
        exact Or.inl ⟨_, ha⟩
    · rw [h]
      refine ⟨[Access.rd REG_Temp, Access.wr REG_TAlrtTh v], ⟨?_, ?_⟩, ?_⟩
      · simp [get_temp_dev, max77818_fg_write_custom_reg]
      · simp [get_temp_dev, max77818_fg_write_custom_reg, afterAccesses, applyAccess]
      · intro a ha
        simp only [List.mem_cons, List.mem_singleton, List.not_mem_nil, or_false] at ha
        rcases ha with h1 | h1
        · exact Or.inl ⟨_, h1⟩
        · exact Or.inr ⟨_, h1⟩
  · rw [if_neg hc]
    exact ⟨[], devTrace_refl rm _, by simp⟩

/-- The value returned by `max77818_fg_isr` when the status read gives the word
`data`: decided by the return code of the final write to the status register. -/
theorem isr_ret_of_status {σ : Type} (rm : Regmap σ) (sys : Sys σ)
    (pdata : PlatformData) (junk data : Nat) (s' : σ)
    (hread : rm.regRead sys.dev.st REG_Status = (0, data, s')) :
    (max77818_fg_isr rm sys pdata junk).1
      = if (max77818_fg_write_custom_reg rm
            (isr_temp_alert rm (isr_soc_alert rm
              { sys with dev := { st := s', log := sys.dev.log ++ [Access.rd REG_Status] } }
              data junk) pdata data junk).dev REG_Status 0x0000).1 ≠ 0
        then IrqReturn.IRQ_NONE else IrqReturn.IRQ_HANDLED := by
  unfold max77818_fg_isr
  simp only [max77818_fg_read_custom_reg, hread, ne_eq, not_true_eq_false, if_false,
    if_true]
  split_ifs <;> rfl

/-- The accesses of `max77818_fg_isr` after a successful status read: a run
`pre` without any write to the status register, then the write of 0 to it;
the interrupt is reported as handled exactly when that write returns 0. -/
theorem isr_status_clear {σ : Type} (rm : Regmap σ) (sys : Sys σ)
    (pdata : PlatformData) (junk data : Nat) (s' : σ)
    (hread : rm.regRead sys.dev.st REG_Status = (0, data, s')) :
    ∃ pre,
      (max77818_fg_isr rm sys pdata junk).2.dev.log
        = sys.dev.log ++ pre ++ [Access.wr REG_Status 0x0000] ∧
      (∀ a ∈ pre, ∀ v, a ≠ Access.wr REG_Status v) ∧
      ((max77818_fg_isr rm sys pdata junk).1 = IrqReturn.IRQ_HANDLED ↔
        (rm.regWrite (afterAccesses rm sys.dev.st pre) REG_Status 0x0000).1 = 0) ∧
      ((max77818_fg_isr rm sys pdata junk).1 = IrqReturn.IRQ_NONE ↔
        (rm.regWrite (afterAccesses rm sys.dev.st pre) REG_Status 0x0000).1 ≠ 0) := by
  have t0 : DevTrace rm sys.dev
      { st := s', log := sys.dev.log ++ [Access.rd REG_Status] } [Access.rd REG_Status] := by
    refine ⟨rfl, ?_⟩
    simp [afterAccesses, applyAccess, hread]
  obtain ⟨l1, t1, m1⟩ := isr_soc_alert_trace rm
    { sys with dev := { st := s', log := sys.dev.log ++ [Access.rd REG_Status] } } data junk
  obtain ⟨l2, t2, m2⟩ := isr_temp_alert_trace rm (isr_soc_alert rm
    { sys with dev := { st := s', log := sys.dev.log ++ [Access.rd REG_Status] } }
    data junk) pdata data junk
  have t := devTrace_trans rm _ _ _ _ _ (devTrace_trans rm _ _ _ _ _ t0 t1) t2
  have hret := isr_ret_of_status rm sys pdata junk data s' hread
  have hst := isr_of_status rm sys pdata junk data s' hread
  generalize isr_temp_alert rm (isr_soc_alert rm
    { sys with dev := { st := s', log := sys.dev.log ++ [Access.rd REG_Status] } }
    data junk) pdata data junk = sysA at t hret hst
  refine ⟨[Access.rd REG_Status] ++ l1 ++ l2, ?_, ?_, ?_, ?_⟩
  · rw [hst]
    show (max77818_fg_write_custom_reg rm sysA.dev REG_Status 0x0000).2.log = _
    simp only [max77818_fg_write_custom_reg, t.1]
  · intro a ha v hv
    subst hv
    simp only [List.mem_append, List.mem_singleton] at ha
    rcases ha with (h | h) | h
    · cases h
    · obtain ⟨reg, hr⟩ := m1 _ h
      cases hr
    · rcases m2 _ h with ⟨reg, hr⟩ | ⟨w, hr⟩
      · cases hr
      · injection hr with h1 _
        simp [REG_Status, REG_TAlrtTh] at h1
  · rw [hret]
    have e : (max77818_fg_write_custom_reg rm sysA.dev REG_Status 0x0000).1
        = (rm.regWrite (afterAccesses rm sys.dev.st ([Access.rd REG_Status] ++ l1 ++ l2))
            REG_Status 0x0000).1 := by
      simp only [max77818_fg_write_custom_reg, t.2]
    rw [e]
    generalize (rm.regWrite (afterAccesses rm sys.dev.st
      ([Access.rd REG_Status] ++ l1 ++ l2)) REG_Status 0x0000).1 = c
    by_cases h : c = 0
    · simp [h]
    · simp [h]
  · rw [hret]
    have e : (max77818_fg_write_custom_reg rm sysA.dev REG_Status 0x0000).1
        = (rm.regWrite (afterAccesses rm sys.dev.st ([Access.rd REG_Status] ++ l1 ++ l2))
            REG_Status 0x0000).1 := by
      simp only [max77818_fg_write_custom_reg, t.2]
    rw [e]
    generalize (rm.regWrite (afterAccesses rm sys.dev.st
      ([Access.rd REG_Status] ++ l1 ++ l2)) REG_Status 0x0000).1 = c
    by_cases h : c = 0
    · simp [h]
    · simp [h]

/-- C21: after a successful status read the handler's last register access is
the write of 0x0000 to the status register, no other write of the invocation
goes to that register, and the interrupt is reported as handled if and only if
that write succeeds (and as not handled otherwise). -/
theorem isr_clears_status_last {σ : Type} (rm : Regmap σ) (sys : Sys σ)
    (pdata : PlatformData) (junk data : Nat) (s' : σ)
    (hread : rm.regRead sys.dev.st REG_Status = (0, data, s')) :
    ∃ pre,
      (max77818_fg_isr rm sys pdata junk).2.dev.log
        = sys.dev.log ++ pre ++ [Access.wr REG_Status 0x0000] ∧
      (∀ a ∈ pre, ∀ v, a ≠ Access.wr REG_Status v) ∧
      ((max77818_fg_isr rm sys pdata junk).1 = IrqReturn.IRQ_HANDLED ↔
        (rm.regWrite (afterAccesses rm sys.dev.st pre) REG_Status 0x0000).1 = 0) ∧
      ((max77818_fg_isr rm sys pdata junk).1 = IrqReturn.IRQ_NONE ↔
        (rm.regWrite (afterAccesses rm sys.dev.st pre) REG_Status 0x0000).1 ≠ 0) :=
  isr_status_clear rm sys pdata junk data s' hread

/-- Instance of `isr_clears_status_last` in the state NORMAL with a status word
that has only the above-maximum bit set. -/
theorem isr_clears_status_last_witness :
    ∃ pre,
      (max77818_fg_isr (scriptRegmap 7) (sys0 (scriptDev [0x2000])) pdata0 0).2.dev.log
        = (sys0 (scriptDev [0x2000])).dev.log ++ pre ++ [Access.wr REG_Status 0x0000] ∧
      (∀ a ∈ pre, ∀ v, a ≠ Access.wr REG_Status v) ∧
      ((max77818_fg_isr (scriptRegmap 7) (sys0 (scriptDev [0x2000])) pdata0 0).1
          = IrqReturn.IRQ_HANDLED ↔
        ((scriptRegmap 7).regWrite
          (afterAccesses (scriptRegmap 7) (sys0 (scriptDev [0x2000])).dev.st pre)
          REG_Status 0x0000).1 = 0) ∧
      ((max77818_fg_isr (scriptRegmap 7) (sys0 (scriptDev [0x2000])) pdata0 0).1
          = IrqReturn.IRQ_NONE ↔
        ((scriptRegmap 7).regWrite
          (afterAccesses (scriptRegmap 7) (sys0 (scriptDev [0x2000])).dev.st pre)
          REG_Status 0x0000).1 ≠ 0) :=
  isr_clears_status_last (scriptRegmap 7) (sys0 (scriptDev [0x2000])) pdata0 0 0x2000 [] rfl

/-! ## Self-test -/

/-- C23: whatever the thermal state and whatever the outcome of the voltage
read, the self-test publishes code 12 first, drives the self-test line to 1,
waits, reads the cell voltage, drives the line to 0, and ends by publishing 5
when the thermal state is NORMAL and 4 otherwise; these are its only two
publications and its only two writes to the line. -/
theorem self_test_restores_mode {σ : Type} (rm : Regmap σ) (sys : Sys σ)
    (junk : Nat) (val0 : Int) :
    (self_test_show rm sys junk val0).1.1
        = [Effect.notify 12, Effect.gpio 1, Effect.delay 5000,
           Effect.access (Access.rd REG_Vcell), Effect.gpio 0,
           Effect.notify (if sys.temp_status = TempStatus.MAX77818_TEMP_NORMAL
             then 5 else 4)] ∧
    (self_test_show rm sys junk val0).2.published
        = sys.published ++ [12, if sys.temp_status = TempStatus.MAX77818_TEMP_NORMAL
            then 5 else 4] ∧
    (self_test_show rm sys junk val0).2.temp_status = sys.temp_status ∧
    (self_test_show rm sys junk val0).2.dev.log = sys.dev.log ++ [Access.rd REG_Vcell] := by
  unfold self_test_show
  simp [blocking_notifier_call_chain, max77818_fg_get_voltage_now, fg_get_voltage_dev]

/-! ## Sign of the current decodes -/

theorem current_magnitude (raw : Nat) :
    u32 ((bnot32 raw &&& 0x7FFF) + 1) = (bnot32 raw &&& 0x7FFF) + 1 ∧
    (bnot32 raw &&& 0x7FFF) + 1 ≤ 32768 := by
  rw [and_0x7FFF]
  simp only [u32, bnot32]
  constructor <;> omega

/-- C27: for every raw word read successfully (16-bit or not), the instantaneous and the
average current getters store a non-negative value, and for a word with bit 15
set that value is `(m * 15625 mod 2^32) / 100`, respectively
`(m * 156250 mod 2^32) / 1000`, for the magnitude `m = ((~raw) & 0x7FFF) + 1`. -/
theorem current_decodes_discard_sign {σ : Type} (rm : Regmap σ) (fg fg' fg2' : Dev σ)
    (junk raw : Nat)
    (hread : max77818_fg_read_custom_reg rm fg REG_Current junk = (0, raw, fg'))
    (hread2 : max77818_fg_read_custom_reg rm fg REG_AvgCurrent junk = (0, raw, fg2')) :
    ∃ v w : Int,
      max77818_fg_get_current_now rm fg junk = ((0, some v), fg') ∧
      max77818_fg_get_current_avg rm fg junk = ((0, some w), fg2') ∧
      0 ≤ v ∧ 0 ≤ w ∧
      (raw &&& 0x8000 ≠ 0 →
        v = Int.ofNat ((((bnot32 raw &&& 0x7FFF) + 1) * 15625 % 4294967296) / 100) ∧
        w = Int.ofNat ((((bnot32 raw &&& 0x7FFF) + 1) * 156250 % 4294967296) / 1000)) := by
  have e1 : max77818_fg_get_current_now rm fg junk
      = ((0, some (toInt (u32 ((if raw &&& 0x8000 ≠ 0
          then u32 ((bnot32 raw &&& 0x7FFF) + 1) else raw) * 15625) / 100))), fg') := by
    unfold max77818_fg_get_current_now
    rw [hread]
    rfl
  have e2 : max77818_fg_get_current_avg rm fg junk
      = ((0, some (toInt (u32 ((if raw &&& 0x8000 ≠ 0
          then u32 ((bnot32 raw &&& 0x7FFF) + 1) else raw) * 156250) / 1000))), fg2') := by
    unfold max77818_fg_get_current_avg
    rw [hread2]
    rfl
  have b1 : ∀ x : Nat, u32 x / 100 < 2147483648 := by
    intro x
    simp only [u32]
    omega
  have b2 : ∀ x : Nat, u32 x / 1000 < 2147483648 := by
    intro x
    simp only [u32]
    omega
  refine ⟨_, _, e1, e2, ?_, ?_, ?_⟩
  · rw [toInt_of_lt _ (b1 _)]
    exact Int.ofNat_nonneg _
  · rw [toInt_of_lt _ (b2 _)]
    exact Int.ofNat_nonneg _
  · intro hbit
    have hm := current_magnitude raw
    rw [if_pos hbit, hm.1, toInt_of_lt _ (b1 _), toInt_of_lt _ (b2 _)]
    exact ⟨rfl, rfl⟩

/-- Instance of `current_decodes_discard_sign` at the raw word 0x8001. -/
theorem current_decodes_discard_sign_witness :
    ∃ v w : Int,
      max77818_fg_get_current_now (constRegmap 0x8001) dev0 0
        = ((0, some v), { st := (), log := [Access.rd REG_Current] }) ∧
      max77818_fg_get_current_avg (constRegmap 0x8001) dev0 0
        = ((0, some w), { st := (), log := [Access.rd REG_AvgCurrent] }) ∧
      0 ≤ v ∧ 0 ≤ w ∧
      (0x8001 &&& 0x8000 ≠ 0 →
        v = Int.ofNat ((((bnot32 0x8001 &&& 0x7FFF) + 1) * 15625 % 4294967296) / 100) ∧
        w = Int.ofNat ((((bnot32 0x8001 &&& 0x7FFF) + 1) * 156250 % 4294967296) / 1000)) :=
  current_decodes_discard_sign (constRegmap 0x8001) dev0 _ _ 0 0x8001 rfl rfl

/-! ## Charger mode -/

theorem ofInt_toInt (x : Nat) : ofInt (toInt x) = x % 4294967296 := by
  unfold ofInt toInt
  split
  · simp only [Int.ofNat_eq_coe]
    omega
  · simp only [Int.ofNat_eq_coe]
    omega

theorem mode_shift : FFS BIT_MODE = 0 := by decide

theorem mode_mask : BIT_MODE = 15 := by decide

theorem and_0xFFFFFFFF (x : Nat) : x &&& 4294967295 = x % 4294967296 := by
  have h := Nat.and_pow_two_sub_one_eq_mod x 32
  norm_num at h
  exact h

theorem mode_field_same (r : Nat) (hr : r < 4294967296) :
    (r &&& bnot32 15) ||| ((r &&& 15) &&& 15) = r := by
  have e : bnot32 15 ||| 15 = 4294967295 := by decide
  rw [Nat.and_assoc, Nat.and_self, ← Nat.and_or_distrib_left, e, and_0xFFFFFFFF]
  exact Nat.mod_eq_of_lt hr

theorem mode_field_low (r d : Nat) :
    ((r &&& bnot32 15) ||| (d &&& 15)) &&& 15 = d % 16 := by
  have e : bnot32 15 &&& 15 = 0 := by decide
  rw [Nat.and_comm, Nat.and_or_distrib_left, Nat.and_comm 15 (r &&& bnot32 15),
    Nat.and_assoc, e, Nat.and_zero, Nat.zero_or, Nat.and_comm 15 (d &&& 15),
    Nat.and_assoc, Nat.and_self]
  exact and_0x0F d

theorem mode_field_high (r d : Nat) :
    ((r &&& bnot32 15) ||| (d &&& 15)) &&& 0xF0 = r &&& 0xF0 := by
  have e1 : bnot32 15 &&& 0xF0 = 0xF0 := by decide
  have e2 : 15 &&& 0xF0 = 0 := by decide
  rw [Nat.and_comm, Nat.and_or_distrib_left, Nat.and_comm 0xF0 (r &&& bnot32 15),
    Nat.and_assoc, e1, Nat.and_comm 0xF0 (d &&& 15), Nat.and_assoc, e2, Nat.and_zero,
    Nat.or_zero]

theorem set_mode_data (m : Nat) :
    u32 (ofInt (toInt (u32 m)) <<< FFS BIT_MODE) &&& 15 = m % 16 := by
  rw [mode_shift, Nat.shiftLeft_zero, ofInt_toInt, and_0x0F]
  simp only [u32]
  omega

theorem ram_update_bits (s : Nat → Nat) (l : List Access) (reg mask val : Nat) :
    (regmap_update_bits ramRegmap { st := s, log := l } reg mask val).1 = 0 ∧
    (regmap_update_bits ramRegmap { st := s, log := l } reg mask val).2.st reg
      = (s reg &&& bnot32 mask) ||| (val &&& mask) ∧
    ∀ r, r ≠ reg →
      (regmap_update_bits ramRegmap { st := s, log := l } reg mask val).2.st r = s r := by
  unfold regmap_update_bits regmap_update_bits_base regmap_read regmap_write
    max77818_fg_read_custom_reg max77818_fg_write_custom_reg ramRegmap
  by_cases h : (s reg &&& bnot32 mask) ||| (val &&& mask) = s reg
  · simp [h]
  · simp only [ne_eq, not_true_eq_false, if_false, if_true, Bool.false_eq_true, false_or, h,
      not_false_eq_true]
    refine ⟨trivial, trivial, ?_⟩
    intro r hr
    simp [hr]

/-- C24: when the read of charger configuration register 00 gives the 8-bit
value `r`, `max77818_chg_get_mode` returns 0 and stores `r & 0x0F`; and
`max77818_chg_set_mode` called with that decoded value on a register holding
`r` returns 0 after that one read, issuing no write, so the register keeps `r`. -/
theorem chg_mode_round_trip {σ : Type} (rm : Regmap σ) (chg chg' chg2 chg2' : Dev σ)
    (junk r : Nat) (hr : r < 256)
    (hget : regmap_read rm chg REG_CHG_CNFG_00 junk = (0, r, chg'))
    (hset : regmap_read rm chg2 REG_CHG_CNFG_00 0 = (0, r, chg2')) :
    max77818_chg_get_mode rm chg junk = ((0, some (Int.ofNat (r &&& 0x0F))), chg') ∧
    max77818_chg_set_mode rm chg2 (Int.ofNat (r &&& 0x0F)) = (0, chg2') ∧
    chg2'.log = chg2.log ++ [Access.rd REG_CHG_CNFG_00] := by
  have hlt : r &&& 0x0F < 16 := by
    rw [and_0x0F]
    omega
  refine ⟨?_, ?_, ?_⟩
  · unfold max77818_chg_get_mode
    rw [hget]
    have e : BIT_MODE >>> FFS BIT_MODE = 0x0F := by decide
    simp only [e, lt_self_iff_false, if_false]
    rw [toInt_of_lt _ (by omega)]
  · unfold max77818_chg_set_mode regmap_update_bits regmap_update_bits_base
    rw [hset]
    have d : u32 (ofInt (Int.ofNat (r &&& 0x0F)) <<< FFS BIT_MODE) = r &&& 15 := by
      rw [mode_shift, Nat.shiftLeft_zero, ofInt_ofNat _ (by omega)]
      simp only [u32]
      omega
    have f := mode_field_same r (by omega)
    rw [d, mode_mask]
    simp only [f]
    simp
  · have h := congrArg (fun t => t.2.2.log) hset
    simp only [regmap_read, max77818_fg_read_custom_reg] at h
    exact h.symm

/-- Instance of `chg_mode_round_trip` on a register file whose configuration
register 00 holds 0xA5. -/
theorem chg_mode_round_trip_witness :
    max77818_chg_get_mode ramRegmap (ramWith REG_CHG_CNFG_00 0xA5) 0
      = ((0, some (Int.ofNat (0xA5 &&& 0x0F))),
          { st := (ramWith REG_CHG_CNFG_00 0xA5).st, log := [Access.rd REG_CHG_CNFG_00] }) ∧
    max77818_chg_set_mode ramRegmap (ramWith REG_CHG_CNFG_00 0xA5) (Int.ofNat (0xA5 &&& 0x0F))
      = (0, { st := (ramWith REG_CHG_CNFG_00 0xA5).st, log := [Access.rd REG_CHG_CNFG_00] }) ∧
    [Access.rd REG_CHG_CNFG_00]
      = (ramWith REG_CHG_CNFG_00 0xA5).log ++ [Access.rd REG_CHG_CNFG_00] :=
  chg_mode_round_trip ramRegmap (ramWith REG_CHG_CNFG_00 0xA5) _
    (ramWith REG_CHG_CNFG_00 0xA5) _ 0 0xA5 (by decide) rfl rfl

/-- C25 (as stated, refuted): the mode code 16 received by `mode_event_notify`
on a register file whose mode field holds 5 leaves a mode field that reads back
as 0, not 16. -/
theorem mode_event_notify_16_reads_back_0 :
    (max77818_chg_get_mode ramRegmap
      (mode_event_notify ramRegmap
        { dev := ramWith REG_CHG_CNFG_00 0x05, supply_changed := 0 } 16).2.dev 0).1
      = (0, some 0) ∧
    (mode_event_notify ramRegmap
        { dev := ramWith REG_CHG_CNFG_00 0x05, supply_changed := 0 } 16).2.dev.log
      = [Access.rd REG_CHG_CNFG_00, Access.wr REG_CHG_CNFG_00 0x00] := by
  decide

/-- C25 (amended): `mode_event_notify` returns `NOTIFY_DONE` for every mode
code and every transport; on a register file, whatever its content, the mode
field of configuration register 00 read back afterwards by
`max77818_chg_get_mode` is `m mod 16` (the code itself for 0..15), the bits
outside the mode field and all other registers are unchanged, and the supply is
reported changed once. -/
theorem mode_event_notify_masks_mode {σ : Type} (rm : Regmap σ) (chg : Chg σ)
    (s : Nat → Nat) (l : List Access) (n m junk : Nat) :
    (mode_event_notify rm chg m).1 = NOTIFY_DONE ∧
    (max77818_chg_get_mode ramRegmap
      (mode_event_notify ramRegmap { dev := { st := s, log := l }, supply_changed := n }
        m).2.dev junk).1 = (0, some (Int.ofNat (m % 16))) ∧
    (mode_event_notify ramRegmap { dev := { st := s, log := l }, supply_changed := n }
        m).2.dev.st REG_CHG_CNFG_00 &&& 0xF0 = s REG_CHG_CNFG_00 &&& 0xF0 ∧
    (∀ reg, reg ≠ REG_CHG_CNFG_00 →
      (mode_event_notify ramRegmap { dev := { st := s, log := l }, supply_changed := n }
        m).2.dev.st reg = s reg) ∧
    (mode_event_notify ramRegmap { dev := { st := s, log := l }, supply_changed := n }
        m).2.supply_changed = n + 1 := by
  have hd : u32 (ofInt (toInt (u32 m)) <<< FFS BIT_MODE) % 16 = m % 16 := by
    rw [← and_0x0F]
    exact set_mode_data m
  have u := ram_update_bits s l REG_CHG_CNFG_00 BIT_MODE
    (u32 (ofInt (toInt (u32 m)) <<< FFS BIT_MODE))
  have hst : (mode_event_notify ramRegmap
      { dev := { st := s, log := l }, supply_changed := n } m).2.dev
      = (regmap_update_bits ramRegmap { st := s, log := l } REG_CHG_CNFG_00 BIT_MODE
          (u32 (ofInt (toInt (u32 m)) <<< FFS BIT_MODE))).2 := rfl
  rw [hst]
  generalize u32 (ofInt (toInt (u32 m)) <<< FFS BIT_MODE) = D at hd u
  refine ⟨rfl, ?_, ?_, u.2.2, rfl⟩
  · have g : ∀ d : Dev (Nat → Nat), (max77818_chg_get_mode ramRegmap d junk).1
        = (0, some (toInt (d.st REG_CHG_CNFG_00 &&& 15))) := by
      intro d
      have e : BIT_MODE >>> FFS BIT_MODE = 15 := by decide
      simp [max77818_chg_get_mode, regmap_read, max77818_fg_read_custom_reg, ramRegmap, e]
    rw [g, u.2.1, mode_mask, mode_field_low, hd]
    rw [toInt_of_lt _ (by omega)]
  · rw [u.2.1, mode_mask, mode_field_high]

/-! ## Charger limit setters -/

theorem chg_set_field_none {σ : Type} (rm : Regmap σ) (chg : Dev σ) (reg mask : Nat) :
    chg_set_field rm chg reg mask none = (-EINVAL, chg) := rfl

/-- The nine limit setters other than the top-off timer, the termination
voltage and the minimum system voltage: a code they compute is non-negative
and fits in the field they write. -/
theorem chg_codes_fit (val c : Int) :
    (fast_charge_timer_timeout_code val = some c → 0 ≤ c ∧ c ≤ fieldMax BIT_FCHGTIME) ∧
    (charge_current_limit_code val = some c → 0 ≤ c ∧ c ≤ fieldMax BIT_CHG_CC) ∧
    (otg_output_current_limit_code val = some c → 0 ≤ c ∧ c ≤ fieldMax BIT_OTG_ILIM) ∧
    (topoff_current_threshold_code val = some c → 0 ≤ c ∧ c ≤ fieldMax BIT_TO_ITH) ∧
    (thermal_reg_temperature_code val = some c → 0 ≤ c ∧ c ≤ fieldMax BIT_REGTEMP) ∧
    (chgin_input_current_limit_code val = some c → 0 ≤ c ∧ c ≤ fieldMax BIT_CHGIN_ILIM) ∧
    (wchgin_input_current_limit_code val = some c → 0 ≤ c ∧ c ≤ fieldMax BIT_WCIN_ILIM) ∧
    (battery_overcurrent_threshold_code val = some c → 0 ≤ c ∧ c ≤ fieldMax BIT_B2SOVRC) ∧
    (chgin_input_voltage_threshold_code val = some c →
      0 ≤ c ∧ c ≤ fieldMax BIT_VCHGIN_REG) := by
  have m1 : fieldMax BIT_FCHGTIME = 7 := by decide
  have m2 : fieldMax BIT_CHG_CC = 63 := by decide
  have m3 : fieldMax BIT_OTG_ILIM = 3 := by decide
  have m4 : fieldMax BIT_TO_ITH = 7 := by decide
  have m5 : fieldMax BIT_REGTEMP = 3 := by decide
  have m6 : fieldMax BIT_CHGIN_ILIM = 127 := by decide
  have m7 : fieldMax BIT_WCIN_ILIM = 63 := by decide
  have m8 : fieldMax BIT_B2SOVRC = 7 := by decide
  have m9 : fieldMax BIT_VCHGIN_REG = 3 := by decide
  have td : ∀ a b : Int, 0 ≤ a → 0 ≤ b → Int.tdiv a b = a / b :=
    fun a b ha hb => Int.tdiv_eq_ediv ha hb
  rw [m1, m2, m3, m4, m5, m6, m7, m8, m9]
  refine ⟨?_, ?_, ?_, ?_, ?_, ?_, ?_, ?_, ?_⟩
  · unfold fast_charge_timer_timeout_code
    intro h
    split at h
    · rename_i hc
      rw [td _ _ (by omega) (by omega)] at h
      simp only [Option.some.injEq] at h
      omega
    · split at h
      · simp only [Option.some.injEq] at h
        omega
      · simp at h
  · unfold charge_current_limit_code
    intro h
    split at h
    · simp at h
    · rename_i hc
      rw [td _ _ (by omega) (by omega)] at h
      simp only [Option.some.injEq] at h
      omega
  · unfold otg_output_current_limit_code
    intro h
    repeat' split at h
    all_goals simp at h
    all_goals omega
  · unfold topoff_current_threshold_code
    intro h
    split at h
    · simp at h
    · rename_i hc
      split at h
      · rw [td _ _ (by omega) (by omega)] at h
        simp only [Option.some.injEq] at h
        omega
      · rw [td _ _ (by omega) (by omega)] at h
        simp only [Option.some.injEq] at h
        omega
  · unfold thermal_reg_temperature_code
    intro h
    split at h
    · rename_i hc
      rw [td _ _ (by omega) (by omega)] at h
      simp only [Option.some.injEq] at h
      omega
    · simp at h
  · unfold chgin_input_current_limit_code
    intro h
    split at h
    · simp at h
    · rename_i hc
      rw [td _ _ (by omega) (by omega)] at h
      simp only [Option.some.injEq] at h
      omega
  · unfold wchgin_input_current_limit_code
    intro h
    split at h
    · simp at h
    · rename_i hc
      rw [td _ _ (by omega) (by omega)] at h
      simp only [Option.some.injEq] at h
      omega
  · unfold battery_overcurrent_threshold_code
    intro h
    split at h
    · simp at h
    · rename_i hc
      split at h
      · rw [td _ _ (by omega) (by omega)] at h
        simp only [Option.some.injEq] at h
        omega
      · simp only [Option.some.injEq] at h
        omega
  · unfold chgin_input_voltage_threshold_code
    intro h
    split at h
    · simp only [Option.some.injEq] at h
      omega
    · split at h
      · rename_i hc
        rw [td _ _ (by omega) (by omega)] at h
        simp only [Option.some.injEq] at h
        omega
      · simp at h

/-- C26 (as stated, refuted): the top-off timer setter does not reject -10: it
computes the code -1, returns 0 and writes the field; the minimum system
voltage setter accepts 3300000 with the code -1 and writes the field; and the
termination voltage setter accepts 4200000 with the code 22, which does not fit
in the two-bit field it writes. -/
theorem chg_setters_accept_out_of_field_codes :
    (topoff_timer_timeout_code (-10) = some (-1) ∧
      (max77818_chg_set_topoff_timer_timeout ramRegmap (ramWith REG_CHG_CNFG_03 0) (-10)).1
        ≠ -EINVAL ∧
      (max77818_chg_set_topoff_timer_timeout ramRegmap (ramWith REG_CHG_CNFG_03 0) (-10)).1
        = 0 ∧
      (max77818_chg_set_topoff_timer_timeout ramRegmap (ramWith REG_CHG_CNFG_03 0) (-10)).2.log
        = [Access.rd REG_CHG_CNFG_03, Access.wr REG_CHG_CNFG_03 0x38]) ∧
    (min_system_reg_voltage_code 3300000 = some (-1) ∧
      (max77818_chg_set_min_system_reg_voltage ramRegmap (ramWith REG_CHG_CNFG_04 0)
        3300000).1 = 0 ∧
      (max77818_chg_set_min_system_reg_voltage ramRegmap (ramWith REG_CHG_CNFG_04 0)
        3300000).2.log = [Access.rd REG_CHG_CNFG_04, Access.wr REG_CHG_CNFG_04 0xC0]) ∧
    (prim_charge_term_voltage_code 4200000 = some 22 ∧
      ¬ (22 ≤ fieldMax BIT_CHG_RSTRT) ∧
      (max77818_chg_set_prim_charge_term_voltage ramRegmap (ramWith REG_CHG_CNFG_01 0)
        4200000).1 = 0) := by
  decide

/-- C28 (as stated, refuted): for the accepted voltage 4200000 (code 22) the
setter reads and writes charger configuration register 01, storing
`(22 << 4) & 0x30 = 0x20` in bits 4..5 (field CHG_RSTRT); configuration register
04, whose bits 0..5 are the field CHG_CV_PRM, is not accessed and keeps its value. -/
theorem prim_charge_term_voltage_writes_restart_field :
    prim_charge_term_voltage_code 4200000 = some 22 ∧
    (max77818_chg_set_prim_charge_term_voltage ramRegmap (ramWith REG_CHG_CNFG_04 0x80)
      4200000).1 = 0 ∧
    (max77818_chg_set_prim_charge_term_voltage ramRegmap (ramWith REG_CHG_CNFG_04 0x80)
      4200000).2.log = [Access.rd REG_CHG_CNFG_01, Access.wr REG_CHG_CNFG_01 0x20] ∧
    (max77818_chg_set_prim_charge_term_voltage ramRegmap (ramWith REG_CHG_CNFG_04 0x80)
      4200000).2.st REG_CHG_CNFG_04 = 0x80 ∧
    (max77818_chg_set_prim_charge_term_voltage ramRegmap (ramWith REG_CHG_CNFG_04 0x80)
      4200000).2.st REG_CHG_CNFG_04 &&& BIT_CHG_CV_PRM ≠ 22 ∧
    (max77818_chg_set_prim_charge_term_voltage ramRegmap (ramWith REG_CHG_CNFG_04 0x80)
      4200000).2.st REG_CHG_CNFG_01 = 0x20 := by
  decide

/-! ## Poll budget of the model load -/

theorem pollState_succ {σ : Type} (rm : Regmap σ) (s : σ) (k : Nat) :
    pollState rm s (k + 1) = (rm.regRead (pollState rm s k) REG_Config2).2.2 := by
  unfold pollState
  rw [List.replicate_succ', afterAccesses_append]
  rfl

theorem load_model_poll_run {σ : Type} (rm : Regmap σ) (s0 : σ) (l0 : List Access)
    (hok : ∀ k, k < 650 → pollRet rm s0 k = 0) :
    ∀ (fuel j val : Nat), j < 650 → 650 - j ≤ fuel →
    ∃ n, j < n ∧ n ≤ 650 ∧
      load_model_poll rm fuel (6500 - 10 * Int.ofNat j) val
          { st := pollState rm s0 j,
            log := l0 ++ List.replicate j (Access.rd REG_Config2) }
        = some ((none, pollValue rm s0 (n - 1), 6500 - 10 * Int.ofNat n),
            { st := pollState rm s0 n,
              log := l0 ++ List.replicate n (Access.rd REG_Config2) }) ∧
      (∀ k, j ≤ k → k < n - 1 → pollValue rm s0 k &&& 1 ≠ 0) ∧
      (n < 650 → pollValue rm s0 (n - 1) &&& 1 = 0) := by
  intro fuel
  induction fuel with
  | zero =>
    intro j val hj hf
    omega
  | succ fuel ih =>
    intro j val hj hf
    have hret : (rm.regRead (pollState rm s0 j) REG_Config2).1 = 0 := hok j hj
    have hlog : l0 ++ List.replicate j (Access.rd REG_Config2) ++ [Access.rd REG_Config2]
        = l0 ++ List.replicate (j + 1) (Access.rd REG_Config2) := by
      rw [List.replicate_succ', List.append_assoc]
    have htime : (6500 : Int) - 10 * Int.ofNat j - 10 = 6500 - 10 * Int.ofNat (j + 1) := by
      simp only [Int.ofNat_eq_coe]
      omega
    unfold load_model_poll
    simp only [load_model_mask, max77818_fg_read_custom_reg, hret, lt_self_iff_false,
      if_false, if_true, hlog, htime, ← pollState_succ]
    have hval : (rm.regRead (pollState rm s0 j) REG_Config2).2.1 = pollValue rm s0 j := rfl
    rw [hval]
    by_cases hc : pollValue rm s0 j &&& 1 ≠ 0 ∧ (6500 : Int) - 10 * Int.ofNat (j + 1) ≠ 0
    · rw [if_pos hc]
      have hj1 : j + 1 < 650 := by
        have h2 := hc.2
        simp only [Int.ofNat_eq_coe] at h2
        omega
      obtain ⟨n, h1, h2, h3, h4, h5⟩ := ih (j + 1) (pollValue rm s0 j) hj1 (by omega)
      refine ⟨n, by omega, h2, h3, ?_, h5⟩
      intro k hk1 hk2
      by_cases hkj : k = j
      · rw [hkj]
        exact hc.1
      · exact h4 k (by omega) hk2
    · rw [if_neg hc]
      refine ⟨j + 1, by omega, by omega, rfl, ?_, ?_⟩
      · intro k hk1 hk2
        omega
      · intro hn
        have h2 : (6500 : Int) - 10 * Int.ofNat (j + 1) ≠ 0 := by
          simp only [Int.ofNat_eq_coe]
          omega
        by_contra hb
        exact hc ⟨hb, h2⟩

theorem load_model_poll_budget {σ : Type} (rm : Regmap σ) (fg w : Dev σ) (junk fuel : Nat)
    (hfuel : 650 ≤ fuel)
    (hw : regmap_write_bits rm fg REG_Config2 BIT_LdMdl (1 <<< FFS BIT_LdMdl) = (0, w))
    (hok : ∀ k, k < 650 → pollRet rm w.st k = 0) :
    ∃ n r, 1 ≤ n ∧ n ≤ 650 ∧
      max77818_fg_load_model rm fg junk fuel = some r ∧
      r.2.log = w.log ++ List.replicate n (Access.rd REG_Config2) ∧
      r.2.st = pollState rm w.st n ∧
      (∀ k, k < n - 1 → pollValue rm w.st k &&& 1 ≠ 0) ∧
      (n < 650 → pollValue rm w.st (n - 1) &&& 1 = 0 ∧ r.1 = 0) ∧
      (r.1 = - EIO ↔
        (∀ k, k < 649 → pollValue rm w.st k &&& 1 ≠ 0) ∧ pollValue rm w.st 649 ≠ 0) ∧
      (r.1 ≠ - EIO → r.1 = 0) := by
  obtain ⟨n, h1, h2, h3, h4, h5⟩ :=
    load_model_poll_run rm w.st w.log hok fuel 0 junk (by omega) (by omega)
  have hstart : Dev.mk (pollState rm w.st 0)
      (w.log ++ List.replicate 0 (Access.rd REG_Config2)) = w := by
    simp [pollState, afterAccesses]
  have ht0 : (6500 : Int) - 10 * Int.ofNat 0 = 6500 := by simp
  rw [hstart, ht0] at h3
  have hres : max77818_fg_load_model rm fg junk fuel
      = some (if pollValue rm w.st (n - 1) ≠ 0 ∧ (6500 : Int) - 10 * Int.ofNat n = 0
          then - EIO else 0,
        { st := pollState rm w.st n,
          log := w.log ++ List.replicate n (Access.rd REG_Config2) }) := by
    unfold max77818_fg_load_model
    simp only [hw, ne_eq, not_true_eq_false, if_false, h3]
    split <;> rfl
  have hEIO : (- EIO : Int) ≠ 0 := by decide
  refine ⟨n, _, by omega, h2, hres, rfl, rfl, fun k hk => h4 k (by omega) hk, ?_, ?_, ?_⟩
  · intro hn
    refine ⟨h5 hn, ?_⟩
    have ht : ¬ ((6500 : Int) - 10 * Int.ofNat n = 0) := by
      simp only [Int.ofNat_eq_coe]
      omega
    simp only [ht, and_false, if_false]
  · by_cases hn : n < 650
    · have ht : ¬ ((6500 : Int) - 10 * Int.ofNat n = 0) := by
        simp only [Int.ofNat_eq_coe]
        omega
      have hb := h5 hn
      simp only [ht, and_false, if_false]
      constructor
      · intro h
        exact absurd h.symm hEIO
      · intro h
        exact absurd hb (h.1 (n - 1) (by omega))
    · have hn650 : n = 650 := by omega
      subst hn650
      have ht : (6500 : Int) - 10 * Int.ofNat 650 = 0 := by decide
      simp only [ht, and_true]
      constructor
      · intro h
        refine ⟨fun k hk => h4 k (by omega) (by omega), ?_⟩
        by_contra hz
        simp only [ne_eq, hz, not_true_eq_false, if_false] at h
        exact hEIO h.symm
      · intro h
        have hv : pollValue rm w.st (650 - 1) ≠ 0 := h.2
        simp only [hv, ne_eq, not_false_eq_true, if_true]
  · intro h
    simp only at h
    split at h
    · exact absurd rfl h
    · simp only
      rename_i hc
      simp only [hc, if_false]

/-- C29: when the write of the load-model bit and the polls of `REG_Config2`
succeed, `max77818_fg_load_model` returns for every poll bound of at least 650,
after `n` polls with `1 ≤ n ≤ 650`; every poll before the last read a word with
bit 0 set; if `n < 650` the last poll read a word with bit 0 clear and the
result is 0 (bit 5, `BIT_LdMdl`, plays no part); the result is `-EIO` exactly
when the first 649 polled words all have bit 0 set and the 650th is non-zero,
and 0 otherwise. -/
theorem load_model_poll_count {σ : Type} (rm : Regmap σ) (fg w : Dev σ) (junk fuel : Nat)
    (hfuel : 650 ≤ fuel)
    (hw : regmap_write_bits rm fg REG_Config2 BIT_LdMdl (1 <<< FFS BIT_LdMdl) = (0, w))
    (hok : ∀ k, k < 650 → pollRet rm w.st k = 0) :
    ∃ n r, 1 ≤ n ∧ n ≤ 650 ∧
      max77818_fg_load_model rm fg junk fuel = some r ∧
      r.2.log = w.log ++ List.replicate n (Access.rd REG_Config2) ∧
      r.2.st = pollState rm w.st n ∧
      (∀ k, k < n - 1 → pollValue rm w.st k &&& 1 ≠ 0) ∧
      (n < 650 → pollValue rm w.st (n - 1) &&& 1 = 0 ∧ r.1 = 0) ∧
      (r.1 = - EIO ↔
        (∀ k, k < 649 → pollValue rm w.st k &&& 1 ≠ 0) ∧ pollValue rm w.st 649 ≠ 0) ∧
      (r.1 ≠ - EIO → r.1 = 0) :=
  load_model_poll_budget rm fg w junk fuel hfuel hw hok

/-- Instance of `load_model_poll_count` on a transport whose every read gives
0x0020 (`BIT_LdMdl` set, bit 0 clear). -/
theorem load_model_poll_count_witness :
    ∃ n r, 1 ≤ n ∧ n ≤ 650 ∧
      max77818_fg_load_model (constRegmap 0x0020) dev0 0 650 = some r ∧
      r.2.log = (regmap_write_bits (constRegmap 0x0020) dev0 REG_Config2 BIT_LdMdl
          (1 <<< FFS BIT_LdMdl)).2.log ++ List.replicate n (Access.rd REG_Config2) ∧
      r.2.st = pollState (constRegmap 0x0020) (regmap_write_bits (constRegmap 0x0020) dev0
          REG_Config2 BIT_LdMdl (1 <<< FFS BIT_LdMdl)).2.st n ∧
      (∀ k, k < n - 1 → pollValue (constRegmap 0x0020) (regmap_write_bits
          (constRegmap 0x0020) dev0 REG_Config2 BIT_LdMdl (1 <<< FFS BIT_LdMdl)).2.st k
            &&& 1 ≠ 0) ∧
      (n < 650 → pollValue (constRegmap 0x0020) (regmap_write_bits (constRegmap 0x0020) dev0
          REG_Config2 BIT_LdMdl (1 <<< FFS BIT_LdMdl)).2.st (n - 1) &&& 1 = 0 ∧ r.1 = 0) ∧
      (r.1 = - EIO ↔
        (∀ k, k < 649 → pollValue (constRegmap 0x0020) (regmap_write_bits
          (constRegmap 0x0020) dev0 REG_Config2 BIT_LdMdl (1 <<< FFS BIT_LdMdl)).2.st k
            &&& 1 ≠ 0) ∧
        pollValue (constRegmap 0x0020) (regmap_write_bits (constRegmap 0x0020) dev0
          REG_Config2 BIT_LdMdl (1 <<< FFS BIT_LdMdl)).2.st 649 ≠ 0) ∧
      (r.1 ≠ - EIO → r.1 = 0) :=
  load_model_poll_count (constRegmap 0x0020) dev0
    (regmap_write_bits (constRegmap 0x0020) dev0 REG_Config2 BIT_LdMdl
      (1 <<< FFS BIT_LdMdl)).2 0 650 (by decide) rfl (fun _ _ => rfl)

/-! ## Learned parameters: registers read and registers restored -/

/-- The nine learned parameters other than `cv_mixcap` that the restore writes
directly: the register read by the parameter's `show` function is the register
the restore writes the parameter to (see `restoreAccesses`). -/
theorem learned_show_registers {σ : Type} (rm : Regmap σ) (fg : Dev σ) (p : LearnedParams) :
    (learned_rcomp0_show rm fg p).2.log = fg.log ++ [Access.rd REG_RComp0] ∧
    (learned_temp_co_show rm fg p).2.log = fg.log ++ [Access.rd REG_TempCo] ∧
    (learned_full_cap_rep_show rm fg p).2.log = fg.log ++ [Access.rd REG_FullCapRep] ∧
    (learned_cycles_show rm fg p).2.log = fg.log ++ [Access.rd REG_Cycles] ∧
    (learned_qresidual00_show rm fg p).2.log = fg.log ++ [Access.rd REG_QRTable00] ∧
    (learned_qresidual10_show rm fg p).2.log = fg.log ++ [Access.rd REG_QRTable10] ∧
    (learned_qresidual20_show rm fg p).2.log = fg.log ++ [Access.rd REG_QRTable20] ∧
    (learned_qresidual30_show rm fg p).2.log = fg.log ++ [Access.rd REG_QRTable30] ∧
    (learned_cv_halftime_show rm fg p).2.log = fg.log ++ [Access.rd REG_CV_HalfTime] := by
  refine ⟨?_, ?_, ?_, ?_, ?_, ?_, ?_, ?_, ?_⟩
  · unfold learned_rcomp0_show
    simp only [max77818_fg_read_custom_reg]
    split <;> rfl
  · unfold learned_temp_co_show
    simp only [max77818_fg_read_custom_reg]
    split <;> rfl
  · unfold learned_full_cap_rep_show
    simp only [max77818_fg_read_custom_reg]
    split <;> rfl
  · unfold learned_cycles_show
    simp only [max77818_fg_read_custom_reg]
    split <;> rfl
  · unfold learned_qresidual00_show
    simp only [max77818_fg_read_custom_reg]
    split <;> rfl
  · unfold learned_qresidual10_show
    simp only [max77818_fg_read_custom_reg]
    split <;> rfl
  · unfold learned_qresidual20_show
    simp only [max77818_fg_read_custom_reg]
    split <;> rfl
  · unfold learned_qresidual30_show
    simp only [max77818_fg_read_custom_reg]
    split <;> rfl
  · unfold learned_cv_halftime_show
    simp only [max77818_fg_read_custom_reg]
    split <;> rfl

set_option maxRecDepth 100000 in
/-- C30 (the code departs from the claim): `learned_cv_mixcap_show` reads
register 0x0F (`REG_MixCap`), while the restore writes `cv_mixcap` to register
0xB6 (`REG_CV_MixCap`).  On a register file where 0x0F holds 0x1111 and 0xB6
holds 0x2222, reading the parameter and then restoring it returns 0, writes
0x1111 to register 0xB6 and makes no write to register 0x0F: the pair is not a
round trip. -/
theorem learned_cv_mixcap_show_reads_mixcap :
    REG_MixCap ≠ REG_CV_MixCap ∧
    (learned_cv_mixcap_show ramRegmap ramMix learned0).2.log = [Access.rd REG_MixCap] ∧
    (learned_cv_mixcap_show ramRegmap ramMix learned0).1.2.cv_mixcap = 0x1111 ∧
    ramMix.st REG_CV_MixCap = 0x2222 ∧
    (max77818_fg_restore_learned_params ramRegmap
        (learned_cv_mixcap_show ramRegmap ramMix learned0).2
        (learned_cv_mixcap_show ramRegmap ramMix learned0).1.2 0 650).map
      (fun r => (r.1, r.2.st REG_CV_MixCap, r.2.st REG_MixCap,
        decide (Access.wr REG_CV_MixCap 0x1111 ∈ r.2.log),
        r.2.log.all (fun a => match a with
          | Access.wr reg _ => decide (reg ≠ REG_MixCap)
          | Access.rd _ => true)))
      = some (0, 0x1111, 0x1111, true, true) := by
  decide

end Max77818
